import Mathlib

/-!
# Button press timing and LED blink control loops

A shallow embedding of the bare-metal control loops of the repository
(`main_final_superloop.c`, `main_inicial_superloop.c`,
`main_final_interrupt.c`, `main_diff_account_interrupt.c`,
`main_diff_account_superloop.c`, `main_chatgpt_superloop.c`,
`main_chatgpt_interrupt.c`).

Conventions of the embedding:

* machine integers are natural numbers; arithmetic that can wrap is written
  with an explicit reduction modulo `2^32` or `2^64`;
* every `while (1)` / `for (;;)` body is one function from the state at the
  top of the iteration, and the values sampled by the iteration (the tick
  counter and the port), to the state at the bottom of the iteration;
* calls to the platform (`printf`, `gpio_write`, `gpio_set_direction`) are
  appended, in program order, to the `trace` field of the state;
* reads of `volatile` variables written by an interrupt handler are inputs
  of the iteration.
-/

namespace PDI

/-! ## Machine arithmetic -/

/-- Number of values of a `uint32_t`. -/
def U32 : Nat := 4294967296

/-- Number of values of a `uint64_t`. -/
def U64 : Nat := 18446744073709551616

/-- Subtraction `a - b` of two `uint64_t` values (wraps modulo `2^64`). -/
def sub64 (a b : Nat) : Nat := (a + (U64 - b % U64)) % U64

/-- Subtraction `a - b` of two `uint32_t` values (wraps modulo `2^32`). -/
def sub32 (a b : Nat) : Nat := (a + (U32 - b % U32)) % U32

/-- Bitwise complement `~m` of a 32-bit mask. -/
def not32 (m : Nat) : Nat := 0xFFFFFFFF ^^^ m

/-! ## Platform constants

The headers `gpio_drv.h` and `clinc.h` are not part of the sources. -/

/-- Modelled from the spec: `PBT_0_MASK` of the absent `gpio_drv.h`; buttons
occupy bits 4-7 of the port word, button 0 is bit 4. -/
def PBT_0_MASK : Nat := 0x10

/-- Modelled from the spec: `PBT_1_MASK` of the absent `gpio_drv.h`; buttons
occupy bits 4-7 of the port word, button 1 is bit 5. -/
def PBT_1_MASK : Nat := 0x20

/-- Modelled from the spec: `LED_0_MASK` of the absent `gpio_drv.h`; LEDs
occupy bits 16-19 of the port word, LED 0 is bit 16. -/
def LED_0_MASK : Nat := 0x10000

/-- Modelled from the spec: `LED_1_MASK` of the absent `gpio_drv.h` (bit 17). -/
def LED_1_MASK : Nat := 0x20000

/-- Modelled from the spec: `LED_2_MASK` of the absent `gpio_drv.h` (bit 18). -/
def LED_2_MASK : Nat := 0x40000

/-- Modelled from the spec: `LED_3_MASK` of the absent `gpio_drv.h` (bit 19). -/
def LED_3_MASK : Nat := 0x80000

/-- Modelled from the spec: `CLINT_CLOCK` of the absent `clinc.h`; the tick
source counts 10,000 ticks per millisecond (10 MHz). -/
def CLINT_CLOCK : Nat := 10000000

/-- Calls to the platform, in program order. -/
inductive Effect where
  /-- Call `gpio_set_direction(mask)`. -/
  | gpio_set_direction (mask : Nat)
  /-- Call `gpio_write(value)`. -/
  | gpio_write (value : Nat)
  /-- Call `printf` reporting a duration of `ms` milliseconds. -/
  | printf_ms (ms : Nat)
  /-- Call `printf` reporting a duration of `ms` milliseconds for button `i`. -/
  | printf_btn_ms (i : Nat) (ms : Nat)
deriving DecidableEq, Repr

/-- The values passed to `gpio_write`, in order. -/
def writes : List Effect → List Nat
  | [] => []
  | Effect.gpio_write v :: es => v :: writes es
  | _ :: es => writes es

/-- The durations passed to `printf`, in order. -/
def reports : List Effect → List Nat
  | [] => []
  | Effect.printf_ms ms :: es => ms :: reports es
  | Effect.printf_btn_ms _ ms :: es => ms :: reports es
  | _ :: es => reports es

/-- Bit positions of the port word outside the LED field (bits 16 to 19). -/
def outside_leds (i : Nat) : Prop := i < 16 ∨ 20 ≤ i

/-! ## `main_final_superloop.c` -/

namespace FinalSuperloop

/-- Macro `TICKS_PER_MS`: `(CLINT_CLOCK / 1000U)`. -/
def TICKS_PER_MS : Nat := CLINT_CLOCK / 1000

/-- Macro `LEDS_ALL`. -/
def LEDS_ALL : Nat := LED_0_MASK ||| LED_1_MASK ||| LED_2_MASK ||| LED_3_MASK

/-- Macro `BLINK_MS`. -/
def BLINK_MS : Nat := 500

/-- Macro `BLINK_TCK`: `(BLINK_MS * TICKS_PER_MS)`. -/
def BLINK_TCK : Nat := BLINK_MS * TICKS_PER_MS

/-- Variables of `main` that live across loop iterations, and the trace of
platform calls. `input_previous` and `button_*_prev/curr` are recomputed at
the top of every iteration from `input_current`. -/
structure State where
  out_shadow : Nat
  input_current : Nat
  b0_measuring : Nat
  t_press : Nat
  blink : Nat
  blink_last : Nat
  trace : List Effect
deriving DecidableEq, Repr

/-- Lines 18-35 of `main`: `r0` and `r1` are the values returned by the two
calls of `gpio_read` before the loop. -/
def main_init (r0 r1 : Nat) : State :=
  let out_shadow := r0 &&& not32 LEDS_ALL
  { out_shadow := out_shadow
    input_current := r1
    b0_measuring := 0
    t_press := 0
    blink := 0
    blink_last := 0
    trace := [Effect.gpio_set_direction LEDS_ALL, Effect.gpio_write out_shadow] }

/-- Lines 59-60: `ms = (uint32_t)((now - t_press) / TICKS_PER_MS)`. -/
def measured_ms (now t_press : Nat) : Nat := (sub64 now t_press / TICKS_PER_MS) % U32

/-- Lines 49-53: rising edge of button 0 starts a measurement. -/
def btn0_rising (now button_0_prev button_0_curr : Nat) (s : State) : State :=
  if button_0_prev = 0 ∧ button_0_curr ≠ 0 then
    { s with b0_measuring := 1, t_press := now }
  else s

/-- Lines 55-69: falling edge of button 0 ends a measurement. -/
def btn0_falling (now button_0_prev button_0_curr : Nat) (s : State) : State :=
  if button_0_prev ≠ 0 ∧ button_0_curr = 0 then
    if s.b0_measuring ≠ 0 then
      let ms := measured_ms now s.t_press
      let s1 := { s with b0_measuring := 0, trace := s.trace ++ [Effect.printf_ms ms] }
      if ms ≥ 1000 then
        let out_shadow := s1.out_shadow ||| LEDS_ALL
        { s1 with
          out_shadow := out_shadow
          trace := s1.trace ++ [Effect.gpio_write out_shadow]
          blink := 1
          blink_last := now }
      else s1
    else s
  else s

/-- Lines 71-78: rising edge of button 1 stops the blinking. -/
def btn1_rising (button_1_prev button_1_curr : Nat) (s : State) : State :=
  if button_1_prev = 0 ∧ button_1_curr ≠ 0 then
    if s.blink ≠ 0 then
      let out_shadow := s.out_shadow &&& not32 LEDS_ALL
      { s with
        blink := 0
        out_shadow := out_shadow
        trace := s.trace ++ [Effect.gpio_write out_shadow] }
    else s
  else s

/-- Lines 80-86: non-blocking blink. -/
def blink_toggle (now : Nat) (s : State) : State :=
  if s.blink ≠ 0 ∧ sub64 now s.blink_last ≥ BLINK_TCK then
    let out_shadow :=
      if s.out_shadow &&& LEDS_ALL ≠ 0 then s.out_shadow &&& not32 LEDS_ALL
      else s.out_shadow ||| LEDS_ALL
    { s with
      blink_last := now
      out_shadow := out_shadow
      trace := s.trace ++ [Effect.gpio_write out_shadow] }
  else s

/-- Lines 38-86: one iteration of the `while (1)` loop, where `now` is the
value returned by `get_ticks_from_reset` and `port` the one returned by
`gpio_read`. -/
def main_loop (s : State) (now port : Nat) : State :=
  let input_previous := s.input_current
  let input_current := port
  let button_0_prev := input_previous &&& PBT_0_MASK
  let button_0_curr := input_current &&& PBT_0_MASK
  let button_1_prev := input_previous &&& PBT_1_MASK
  let button_1_curr := input_current &&& PBT_1_MASK
  let s := { s with input_current := input_current }
  let s := btn0_rising now button_0_prev button_0_curr s
  let s := btn0_falling now button_0_prev button_0_curr s
  let s := btn1_rising button_1_prev button_1_curr s
  blink_toggle now s

/-- Run of the loop over a list of samples `(now, port)`. -/
def run (s : State) (samples : List (Nat × Nat)) : State :=
  samples.foldl (fun st x => main_loop st x.1 x.2) s

/-- States at a loop-iteration boundary of some execution of `main`. -/
inductive Reachable : State → Prop where
  | init (r0 r1 : Nat) (h0 : r0 < U32) (h1 : r1 < U32) : Reachable (main_init r0 r1)
  | step (s : State) (now port : Nat) (hs : Reachable s) (hnow : now < U64)
      (hport : port < U32) : Reachable (main_loop s now port)

/-- Invariant of the loop-iteration boundary: `blink` is a flag, the LEDs are
off when it is clear, the LED field is all-off or all-on, and `out_shadow` is
the value last written to the port. -/
def Inv (s : State) : Prop :=
  s.blink ≤ 1 ∧ (s.blink = 0 → s.out_shadow &&& LEDS_ALL = 0) ∧
  (s.out_shadow &&& LEDS_ALL = 0 ∨ s.out_shadow &&& LEDS_ALL = LEDS_ALL) ∧
  (writes s.trace).getLast? = some s.out_shadow

/-- Invariant of the loop-iteration boundary: `b0_measuring` is a flag, and
while it is set the button-0 bit of `input_current` is set. -/
def MeasuringInv (s : State) : Prop :=
  s.b0_measuring ≤ 1 ∧ (s.b0_measuring ≠ 0 → s.input_current &&& PBT_0_MASK ≠ 0)

end FinalSuperloop

/-! ## `main_inicial_superloop.c` -/

namespace InicialSuperloop

/-- Macro `BTN_SHIFT`. -/
def BTN_SHIFT : Nat := 4

/-- Macro `LED_SHIFT`. -/
def LED_SHIFT : Nat := 16

/-- Macro `BTN_COUNT`. -/
def BTN_COUNT : Nat := 4

/-- Macro `TICKS_PER_SEC`. -/
def TICKS_PER_SEC : Nat := 10000000

/-- Macro `TICKS_PER_MS`: `(TICKS_PER_SEC / 1000ULL)`. -/
def TICKS_PER_MS : Nat := TICKS_PER_SEC / 1000

/-- Macro `DEBOUNCE_MS`. -/
def DEBOUNCE_MS : Nat := 20

/-- Macro `DEBOUNCE_TICKS`: `(DEBOUNCE_MS * TICKS_PER_MS)`. -/
def DEBOUNCE_TICKS : Nat := DEBOUNCE_MS * TICKS_PER_MS

/-- Macro `BLINK_PERIOD_MS`. -/
def BLINK_PERIOD_MS : Nat := 250

/-- Macro `BLINK_PERIOD_TICKS`: `(BLINK_PERIOD_MS * TICKS_PER_MS)`. -/
def BLINK_PERIOD_TICKS : Nat := BLINK_PERIOD_MS * TICKS_PER_MS

/-- Per-button debounce and measurement state (`btn_state_t`). -/
structure btn_state_t where
  stable : Nat
  last_raw : Nat
  last_change : Nat
  waiting_release : Nat
  t_press : Nat
deriving DecidableEq, Repr

/-- The static `gpio_out_shadow`, the variables of `main` that live across
loop iterations, and the trace of platform calls. -/
structure State where
  gpio_out_shadow : Nat
  btn : Fin 4 → btn_state_t
  blink_active : Bool
  blink_source : Nat
  blink_last : Nat
  trace : List Effect

/-- Function `read_buttons` with `BUTTON_ACTIVE_HIGH` defined as 1. -/
def read_buttons (port : Nat) : Nat :=
  let v := (port >>> BTN_SHIFT) &&& 0xF
  v % 256

/-- Function `set_leds_pattern`. -/
def set_leds_pattern (pat : Nat) (s : State) : State :=
  let shadow := s.gpio_out_shadow &&& not32 (0xF <<< LED_SHIFT)
  let shadow := shadow ||| ((pat &&& 0xF) <<< LED_SHIFT)
  { s with gpio_out_shadow := shadow, trace := s.trace ++ [Effect.gpio_write shadow] }

/-- Function `leds_on_all`. -/
def leds_on_all (s : State) : State := set_leds_pattern 0xF s

/-- Function `leds_off_all`. -/
def leds_off_all (s : State) : State := set_leds_pattern 0x0 s

/-- Function `leds_toggle_all`. -/
def leds_toggle_all (s : State) : State :=
  let cur := ((s.gpio_out_shadow >>> LED_SHIFT) &&& 0xF) % 256
  set_leds_pattern (cur ^^^ 0xF) s

/-- Lines 99-109 of `main`: `r0` is the value returned by the call of
`gpio_read` before the loop. -/
def main_init (r0 : Nat) : State :=
  leds_off_all
    { gpio_out_shadow := r0
      btn := fun _ => { stable := 0, last_raw := 0, last_change := 0,
                        waiting_release := 0, t_press := 0 }
      blink_active := false
      blink_source := 0xFF
      blink_last := 0
      trace := [] }

/-- Lines 145-146: `ms = (uint32_t)((now - btn[i].t_press) / TICKS_PER_MS)`. -/
def measured_ms (now t_press : Nat) : Nat := (sub64 now t_press / TICKS_PER_MS) % U32

/-- Lines 119-160: the body of the `for` loop over the buttons, for button `i`. -/
def button_body (now buttons : Nat) (i : Fin 4) (s : State) : State :=
  let raw := (buttons >>> i.val) &&& 0x1
  let b := s.btn i
  let b := if raw ≠ b.last_raw then { b with last_raw := raw, last_change := now } else b
  if sub64 now b.last_change ≥ DEBOUNCE_TICKS then
    if raw ≠ b.stable then
      let b := { b with stable := raw }
      if b.stable ≠ 0 then
        let b := { b with t_press := now, waiting_release := 1 }
        let s := { s with btn := Function.update s.btn i b }
        if s.blink_active = true ∧ i.val ≠ s.blink_source then
          leds_off_all { s with blink_active := false }
        else s
      else
        if b.waiting_release ≠ 0 then
          let ms := measured_ms now b.t_press
          let b := { b with waiting_release := 0 }
          let s := { s with
            btn := Function.update s.btn i b
            trace := s.trace ++ [Effect.printf_btn_ms i.val ms] }
          if ms ≥ 1000 then
            { leds_on_all s with blink_active := true, blink_source := i.val, blink_last := now }
          else s
        else { s with btn := Function.update s.btn i b }
    else { s with btn := Function.update s.btn i b }
  else { s with btn := Function.update s.btn i b }

/-- Lines 163-169: periodic blink. -/
def blink_toggle (now : Nat) (s : State) : State :=
  if s.blink_active = true then
    if sub64 now s.blink_last ≥ BLINK_PERIOD_TICKS then
      leds_toggle_all { s with blink_last := now }
    else s
  else s

/-- Lines 113-169: one iteration of the `for (;;)` loop, where `now` is the
value returned by `get_ticks_from_reset` and `port` the one returned by
`gpio_read`. -/
def main_loop (s : State) (now port : Nat) : State :=
  let buttons := read_buttons port
  let s := button_body now buttons 0 s
  let s := button_body now buttons 1 s
  let s := button_body now buttons 2 s
  let s := button_body now buttons 3 s
  blink_toggle now s

/-- Run of the loop over a list of samples `(now, port)`. -/
def run (s : State) (samples : List (Nat × Nat)) : State :=
  samples.foldl (fun st x => main_loop st x.1 x.2) s

/-- Raw level of button `i` in a port sample, as computed at line 119. -/
def raw_level (i : Fin 4) (port : Nat) : Nat := (read_buttons port >>> i.val) &&& 0x1

/-- Lines 119-160 restricted to `btn[i]`: the new value of `btn[i]`, given its
old value, the tick and the raw level. -/
def btn_update (now raw : Nat) (b : btn_state_t) : btn_state_t :=
  let b := if raw ≠ b.last_raw then { b with last_raw := raw, last_change := now } else b
  if sub64 now b.last_change ≥ DEBOUNCE_TICKS then
    if raw ≠ b.stable then
      let b := { b with stable := raw }
      if b.stable ≠ 0 then { b with t_press := now, waiting_release := 1 }
      else if b.waiting_release ≠ 0 then { b with waiting_release := 0 }
      else b
    else b
  else b

/-- Debounce bookkeeping of one button after the samples `pre`: either its raw
level never changed, or `last_change` is the tick of a sample since which
every sample of the raw level equals `last_raw`. -/
def DebounceInv (i : Fin 4) (pre : List (Nat × Nat)) (b : btn_state_t) : Prop :=
  (b.last_raw = 0 ∧ b.stable = 0 ∧ b.last_change = 0) ∨
  ∃ l1 y l2, pre = l1 ++ y :: l2 ∧ y.1 = b.last_change ∧
    ∀ z ∈ y :: l2, raw_level i z.2 = b.last_raw

/-- Edge events of a debounced button: the two branches of lines 132-158. -/
inductive Edge where
  /-- Branch of lines 133-141 (`Flanco de pulsacion`). -/
  | Pressed
  /-- Branch of lines 142-158 (`Flanco de liberacion`). -/
  | Released
deriving DecidableEq, Repr

/-- The other edge. -/
def Edge.other : Edge → Edge
  | Edge.Pressed => Edge.Released
  | Edge.Released => Edge.Pressed

/-- Lines 119-160: which of the two edge branches, if any, the body of the
`for` loop takes for a button with state `b`. -/
def btn_event (now raw : Nat) (b : btn_state_t) : Option Edge :=
  let b := if raw ≠ b.last_raw then { b with last_raw := raw, last_change := now } else b
  if sub64 now b.last_change ≥ DEBOUNCE_TICKS then
    if raw ≠ b.stable then
      let b := { b with stable := raw }
      if b.stable ≠ 0 then some Edge.Pressed else some Edge.Released
    else none
  else none

/-- Edge events of button `i` over a run of the loop, in order. -/
def events (i : Fin 4) : State → List (Nat × Nat) → List Edge
  | _, [] => []
  | s, x :: xs =>
    (btn_event x.1 (raw_level i x.2) (s.btn i)).toList ++ events i (main_loop s x.1 x.2) xs

/-- The list of events alternates, starting with `e`. -/
def alternates : Edge → List Edge → Prop
  | _, [] => True
  | e, x :: xs => x = e ∧ alternates e.other xs

/-- Reference debounce step, following the words of the specification: if
`raw != last_raw` then `last_raw := raw`, `last_change := now`, `stable`
unchanged; otherwise, if `now - last_change >= DEBOUNCE_TICKS` and
`raw != stable`, then `stable := raw`, emitting `Pressed` (`t_press := now`,
`waiting_release := 1`) when `raw = 1` and `Released` when `raw = 0`; in all
other cases the state is unchanged and no event is emitted. -/
def debounce_reference (now raw : Nat) (b : btn_state_t) : btn_state_t × Option Edge :=
  if raw ≠ b.last_raw then ({ b with last_raw := raw, last_change := now }, none)
  else if sub64 now b.last_change ≥ DEBOUNCE_TICKS ∧ raw ≠ b.stable then
    if raw = 1 then
      ({ b with stable := raw, t_press := now, waiting_release := 1 }, some Edge.Pressed)
    else ({ b with stable := raw }, some Edge.Released)
  else (b, none)

/-- Reference debounce step as `debounce_reference`, where moreover a
`Released` clears `waiting_release`. -/
def debounce_reference_clearing (now raw : Nat) (b : btn_state_t) :
    btn_state_t × Option Edge :=
  if raw ≠ b.last_raw then ({ b with last_raw := raw, last_change := now }, none)
  else if sub64 now b.last_change ≥ DEBOUNCE_TICKS ∧ raw ≠ b.stable then
    if raw = 1 then
      ({ b with stable := raw, t_press := now, waiting_release := 1 }, some Edge.Pressed)
    else ({ b with stable := raw, waiting_release := 0 }, some Edge.Released)
  else (b, none)

/-- Invariant of the LED field (bits 16 to 19) of `gpio_out_shadow`: it is
all-off or all-on, and all-off while `blink_active` is false. -/
def LedFieldInv (s : State) : Prop :=
  ((s.gpio_out_shadow >>> 16) &&& 0xF = 0 ∨ (s.gpio_out_shadow >>> 16) &&& 0xF = 0xF) ∧
  (s.blink_active = false → (s.gpio_out_shadow >>> 16) &&& 0xF = 0)

end InicialSuperloop

/-! ## `main_final_interrupt.c` -/

namespace FinalInterrupt

/-- Macro `MS_PER_TICK`. -/
def MS_PER_TICK : Nat := 1

/-- Macro `BLINK_HALF_MS`. -/
def BLINK_HALF_MS : Nat := 500

/-- Macro `LED_MASK`. -/
def LED_MASK : Nat := LED_0_MASK ||| LED_1_MASK ||| LED_2_MASK ||| LED_3_MASK

/-- The globals shared with the interrupt handler, the variables of `main`
that live across loop iterations, and the trace of platform calls. -/
structure State where
  counter : Nat
  ms_now : Nat
  blink_accum : Nat
  blinking : Nat
  led_out : Nat
  btn0_prev : Nat
  btn1_prev : Nat
  measuring : Nat
  t_start_ms : Nat
  t_end_ms : Nat
  elapsed_ms : Nat
  trace : List Effect
deriving DecidableEq, Repr

/-- Function `timer_handler`. -/
def timer_handler (s : State) : State :=
  let s := if s.counter ≠ 0 then { s with counter := s.counter - 1 } else s
  let s := { s with ms_now := (s.ms_now + MS_PER_TICK) % U32 }
  if s.blinking ≠ 0 then
    let s := { s with blink_accum := (s.blink_accum + MS_PER_TICK) % U32 }
    if s.blink_accum ≥ BLINK_HALF_MS then
      let led_out := s.led_out ^^^ LED_MASK
      { s with blink_accum := 0, led_out := led_out,
               trace := s.trace ++ [Effect.gpio_write led_out] }
    else s
  else
    if s.blink_accum ≠ 0 then { s with blink_accum := 0 } else s

/-- Lines 83-108 of `main`, up to the loop. -/
def main_init : State :=
  { counter := 0, ms_now := 0, blink_accum := 0, blinking := 0, led_out := 0
    btn0_prev := 0, btn1_prev := 0, measuring := 0
    t_start_ms := 0, t_end_ms := 0, elapsed_ms := 0
    trace := [Effect.gpio_set_direction LED_MASK, Effect.gpio_write 0] }

/-- Lines 112-170: one iteration of the `while (1)` loop. `pins` is the value
returned by `gpio_read` and `ms_read` the value of the volatile `ms_now` at
the single place where the iteration reads it (line 121 or line 127). The
call `gpio_write(led_out)` is passed the value assigned to `led_out` by the
statement before it. -/
def main_loop (s : State) (pins ms_read : Nat) : State :=
  let btn0_now : Nat := if pins &&& PBT_0_MASK ≠ 0 then 1 else 0
  let btn1_now : Nat := if pins &&& PBT_1_MASK ≠ 0 then 1 else 0
  let s :=
    if s.btn0_prev = 0 ∧ btn0_now = 1 then
      { s with measuring := 1, t_start_ms := ms_read }
    else if s.btn0_prev = 1 ∧ btn0_now = 0 then
      if s.measuring = 1 then
        let s := { s with measuring := 0, t_end_ms := ms_read }
        let s :=
          if s.t_end_ms ≥ s.t_start_ms then
            { s with elapsed_ms := sub32 s.t_end_ms s.t_start_ms }
          else { s with elapsed_ms := 0 }
        let s := { s with trace := s.trace ++ [Effect.printf_ms s.elapsed_ms] }
        if s.elapsed_ms ≥ 1000 then
          { s with blinking := 1, blink_accum := 0, led_out := LED_MASK,
                   trace := s.trace ++ [Effect.gpio_write LED_MASK] }
        else s
      else s
    else s
  let s :=
    if s.btn1_prev = 0 ∧ btn1_now = 1 then
      if s.blinking = 1 then
        { s with blinking := 0, blink_accum := 0, led_out := 0,
                 trace := s.trace ++ [Effect.gpio_write 0] }
      else s
    else s
  { s with btn0_prev := btn0_now, btn1_prev := btn1_now }

/-- Lines 118-154 of `main`: the handling of button 0 in one iteration, given
the sampled level `btn0_now` and the value `ms_read` read from `ms_now`. -/
def btn0_block (s : State) (btn0_now ms_read : Nat) : State :=
  if s.btn0_prev = 0 ∧ btn0_now = 1 then
    { s with measuring := 1, t_start_ms := ms_read }
  else if s.btn0_prev = 1 ∧ btn0_now = 0 then
    if s.measuring = 1 then
      let s := { s with measuring := 0, t_end_ms := ms_read }
      let s :=
        if s.t_end_ms ≥ s.t_start_ms then
          { s with elapsed_ms := sub32 s.t_end_ms s.t_start_ms }
        else { s with elapsed_ms := 0 }
      let s := { s with trace := s.trace ++ [Effect.printf_ms s.elapsed_ms] }
      if s.elapsed_ms ≥ 1000 then
        { s with blinking := 1, blink_accum := 0, led_out := LED_MASK,
                 trace := s.trace ++ [Effect.gpio_write LED_MASK] }
      else s
    else s
  else s

/-- Lines 156-166 of `main`: the handling of button 1 in one iteration, given
the sampled level `btn1_now`. -/
def btn1_block (s : State) (btn1_now : Nat) : State :=
  if s.btn1_prev = 0 ∧ btn1_now = 1 then
    if s.blinking = 1 then
      { s with blinking := 0, blink_accum := 0, led_out := 0,
               trace := s.trace ++ [Effect.gpio_write 0] }
    else s
  else s

/-- One step of an execution of the program: an invocation of `timer_handler`,
or one iteration of the `while (1)` loop of `main`, with the value `pins`
returned by `gpio_read` and the value `ms_read` of `ms_now` where the
iteration reads it. -/
inductive Step where
  | irq
  | loop (pins ms_read : Nat)
deriving DecidableEq, Repr

/-- Effect of one step on the state. -/
def step (s : State) : Step → State
  | Step.irq => timer_handler s
  | Step.loop pins ms_read => main_loop s pins ms_read

/-- Execution of a schedule of steps, in order. -/
def exec (s : State) (sched : List Step) : State := sched.foldl step s

/-- Number of invocations of `timer_handler` in a schedule. -/
def irqs : List Step → Nat
  | [] => 0
  | Step.irq :: r => irqs r + 1
  | Step.loop _ _ :: r => irqs r

/-- Lines 124-142: the tests under which an iteration runs the arming
statements of lines 143-148. -/
def arms (s : State) (pins ms_read : Nat) : Prop :=
  s.btn0_prev = 1 ∧ pins &&& PBT_0_MASK = 0 ∧ s.measuring = 1 ∧
  (if ms_read ≥ s.t_start_ms then sub32 ms_read s.t_start_ms else 0) ≥ 1000

/-- Along the schedule, `blinking` is 1 after every step. -/
def StaysBlinking (s : State) : List Step → Prop
  | [] => True
  | x :: r => (step s x).blinking = 1 ∧ StaysBlinking (step s x) r

/-- Along the schedule, no loop iteration runs the arming statements. -/
def NoRearm (s : State) : List Step → Prop
  | [] => True
  | x :: r =>
    (match x with
      | Step.irq => True
      | Step.loop pins ms_read => ¬ arms s pins ms_read) ∧ NoRearm (step s x) r


/-- Schedule of a press of button 0 that is still held: `n1` interrupts, an
iteration that samples button 0 high (port 0x10) and reads `ms_now = m1`, then
`n2` interrupts. -/
def press_schedule (n1 m1 n2 : Nat) : List Step :=
  List.replicate n1 Step.irq ++ [Step.loop 0x10 m1] ++ List.replicate n2 Step.irq

/-- Schedule of a press and release of button 0: `press_schedule n1 m1 n2`
followed by an iteration that samples button 0 low (port 0x00) and reads
`ms_now = m2`. -/
def press_release_schedule (n1 m1 n2 m2 : Nat) : List Step :=
  press_schedule n1 m1 n2 ++ [Step.loop 0x00 m2]

end FinalInterrupt

/-! ## `main_diff_account_interrupt.c` -/

namespace DiffAccountInterrupt

/-- Local constant `LED_MASK` of `main`: `(0xF << 16)`. -/
def LED_MASK : Nat := 0xF <<< 16

/-- Local constant `BLINK_PERIOD_MS` of `main`. -/
def BLINK_PERIOD_MS : Nat := 500

/-- Function `timer_handler`, on the value of the global `counter_ms`. -/
def timer_handler (counter_ms : Nat) : Nat :=
  if counter_ms > 0 then counter_ms - 1 else 0

/-- Values of the volatile `counter_ms` at the places where one loop
iteration reads it. -/
structure CounterReads where
  /-- Line 86: `start_cnt = counter_ms`. -/
  at_press : Nat
  /-- Line 93: `end_cnt = counter_ms`. -/
  at_release : Nat
  /-- Line 114: `last_blink_toggle_cnt = counter_ms`. -/
  at_arm : Nat
  /-- Line 142: `last_blink_toggle_cnt >= counter_ms`. -/
  at_compare : Nat
  /-- Line 143 or line 146, whichever branch runs. -/
  at_elapsed : Nat
  /-- Line 159: `last_blink_toggle_cnt = counter_ms`. -/
  at_toggle : Nat
deriving DecidableEq, Repr

/-- Reads of an iteration during which the timer interrupt does not fire:
every read of `counter_ms` returns `v`. -/
def CounterReads.all (v : Nat) : CounterReads :=
  { at_press := v, at_release := v, at_arm := v, at_compare := v, at_elapsed := v,
    at_toggle := v }

/-- Variables of `main` that live across loop iterations, and the trace of
platform calls. -/
structure State where
  start_cnt : Nat
  end_cnt : Nat
  measuring : Nat
  leds_on : Nat
  blinking : Nat
  led_output : Nat
  prev_gpio : Nat
  prev_btn0 : Nat
  prev_btn1 : Nat
  last_blink_toggle_cnt : Nat
  trace : List Effect
deriving DecidableEq, Repr

/-- Lines 39-71 of `main`, up to the loop: `r0` is the value returned by the
call of `gpio_read` at line 69. -/
def main_init (r0 : Nat) : State :=
  { start_cnt := 0, end_cnt := 0, measuring := 0, leds_on := 0, blinking := 0
    led_output := 0
    prev_gpio := r0
    prev_btn0 := if r0 &&& PBT_0_MASK ≠ 0 then 1 else 0
    prev_btn1 := if r0 &&& PBT_1_MASK ≠ 0 then 1 else 0
    last_blink_toggle_cnt := 0
    trace := [Effect.gpio_set_direction LED_MASK, Effect.gpio_write 0] }

/-- Lines 96-102: the local `elapsed_ms` computed from `start_cnt` and
`end_cnt`. -/
def elapsed_ms (start_cnt end_cnt : Nat) : Nat :=
  if start_cnt ≥ end_cnt then sub64 start_cnt end_cnt else 0

/-- Lines 82-123: edges of button 0. -/
def btn0_logic (prev_btn0 cur_btn0 : Nat) (c : CounterReads) (s : State) : State :=
  if prev_btn0 = 0 ∧ cur_btn0 ≠ 0 then
    { s with measuring := 1, start_cnt := c.at_press }
  else if prev_btn0 ≠ 0 ∧ cur_btn0 = 0 then
    if s.measuring ≠ 0 then
      let s := { s with measuring := 0, end_cnt := c.at_release }
      let elapsed := elapsed_ms s.start_cnt s.end_cnt
      let s := { s with trace := s.trace ++ [Effect.printf_ms (elapsed % U32)] }
      if elapsed > 1000 then
        { s with leds_on := 1, blinking := 1, led_output := LED_MASK,
                 trace := s.trace ++ [Effect.gpio_write LED_MASK],
                 last_blink_toggle_cnt := c.at_arm }
      else s
    else s
  else s

/-- Lines 126-136: rising edge of button 1. -/
def btn1_logic (prev_btn1 cur_btn1 : Nat) (s : State) : State :=
  if prev_btn1 = 0 ∧ cur_btn1 ≠ 0 then
    if s.blinking ≠ 0 ∨ s.leds_on ≠ 0 then
      { s with blinking := 0, leds_on := 0, led_output := 0,
               trace := s.trace ++ [Effect.gpio_write 0] }
    else s
  else s

/-- Lines 139-178: blink handling. -/
def blink_logic (c : CounterReads) (s : State) : State :=
  if s.blinking ≠ 0 then
    let elapsed_since_toggle :=
      if s.last_blink_toggle_cnt ≥ c.at_compare then
        sub64 s.last_blink_toggle_cnt c.at_elapsed
      else 0
    let s :=
      if s.last_blink_toggle_cnt ≥ c.at_compare then s
      else { s with last_blink_toggle_cnt := c.at_elapsed }
    if elapsed_since_toggle ≥ BLINK_PERIOD_MS then
      let led_output :=
        if s.led_output &&& LED_MASK ≠ 0 then s.led_output &&& not32 LED_MASK
        else s.led_output ||| LED_MASK
      { s with led_output := led_output,
               trace := s.trace ++ [Effect.gpio_write led_output],
               last_blink_toggle_cnt := c.at_toggle }
    else s
  else
    if s.leds_on ≠ 0 then
      if s.led_output &&& LED_MASK = 0 then
        let led_output := s.led_output ||| LED_MASK
        { s with led_output := led_output,
                 trace := s.trace ++ [Effect.gpio_write led_output] }
      else s
    else
      if s.led_output &&& LED_MASK ≠ 0 then
        let led_output := s.led_output &&& not32 LED_MASK
        { s with led_output := led_output,
                 trace := s.trace ++ [Effect.gpio_write led_output] }
      else s

/-- Lines 76-183: one iteration of the `while (1)` loop. `cur_gpio` is the
value returned by `gpio_read`, `c` the values of `counter_ms` it reads. -/
def main_loop (s : State) (cur_gpio : Nat) (c : CounterReads) : State :=
  let cur_btn0 : Nat := if cur_gpio &&& PBT_0_MASK ≠ 0 then 1 else 0
  let cur_btn1 : Nat := if cur_gpio &&& PBT_1_MASK ≠ 0 then 1 else 0
  let s := btn0_logic s.prev_btn0 cur_btn0 c s
  let s := btn1_logic s.prev_btn1 cur_btn1 s
  let s := blink_logic c s
  { s with prev_btn0 := cur_btn0, prev_btn1 := cur_btn1, prev_gpio := cur_gpio }

/-- States at a loop-iteration boundary of some execution of `main`. -/
inductive Reachable : State → Prop where
  | init (r0 : Nat) (h0 : r0 < U32) : Reachable (main_init r0)
  | step (s : State) (cur_gpio : Nat) (c : CounterReads) (hs : Reachable s)
      (hgpio : cur_gpio < U32) : Reachable (main_loop s cur_gpio c)

/-- Invariant of `leds_on`, `blinking` and the LED bits of `led_output`; it
holds between the blocks of an iteration as well. -/
def LedsInv (s : State) : Prop :=
  s.leds_on = s.blinking ∧ s.blinking ≤ 1 ∧
  (s.blinking = 0 → s.led_output &&& LED_MASK = 0)

end DiffAccountInterrupt

/-! ## `main_diff_account_superloop.c` -/

namespace DiffAccountSuperloop

/-- Macro `TICKS_PER_MS`. -/
def TICKS_PER_MS : Nat := 10000

/-- Macro `ONE_SECOND_MS`. -/
def ONE_SECOND_MS : Nat := 1000

/-- Macro `BLINK_MS`. -/
def BLINK_MS : Nat := 500

/-- The mask `LED_0_MASK | LED_1_MASK | LED_2_MASK | LED_3_MASK` of lines 26
and 68. -/
def LEDS : Nat := LED_0_MASK ||| LED_1_MASK ||| LED_2_MASK ||| LED_3_MASK

/-- Variables of `main`, and the trace of platform calls. -/
structure State where
  press_ticks : Nat
  release_ticks : Nat
  last_blink_ticks : Nat
  elapsed_ms : Nat
  button0_prev : Nat
  blinking : Nat
  leds_on : Nat
  trace : List Effect
deriving DecidableEq, Repr

/-- Lines 17-26 of `main`, up to the loop. -/
def main_init : State :=
  { press_ticks := 0, release_ticks := 0, last_blink_ticks := 0, elapsed_ms := 0
    button0_prev := 0, blinking := 0, leds_on := 0
    trace := [Effect.gpio_set_direction LEDS] }

/-- Lines 38-53: the branch of the falling edge of button 0. -/
def release_branch (now_ticks : Nat) (s : State) : State :=
  let s := { s with release_ticks := now_ticks }
  let s := { s with elapsed_ms := sub64 s.release_ticks s.press_ticks / TICKS_PER_MS }
  let s := { s with trace := s.trace ++ [Effect.printf_ms s.elapsed_ms] }
  let s :=
    if s.elapsed_ms > ONE_SECOND_MS then
      { s with blinking := 1, last_blink_ticks := now_ticks }
    else s
  { s with button0_prev := 0 }

/-- Lines 54-79: the branch taken while blinking when button 0 has no edge. -/
def blinking_branch (buttons now_ticks : Nat) (s : State) : State :=
  let s :=
    if sub64 now_ticks s.last_blink_ticks ≥ BLINK_MS * TICKS_PER_MS then
      let s := { s with last_blink_ticks := now_ticks }
      if s.leds_on ≠ 0 then
        { s with trace := s.trace ++ [Effect.gpio_write 0], leds_on := 0 }
      else
        { s with trace := s.trace ++ [Effect.gpio_write LEDS], leds_on := 1 }
    else s
  if buttons &&& PBT_1_MASK ≠ 0 then
    { s with blinking := 0, leds_on := 0, trace := s.trace ++ [Effect.gpio_write 0] }
  else s

/-- Lines 30-79: one iteration of the `while (1)` loop, where `buttons` is the
value returned by `gpio_read` and `now_ticks` the one returned by
`get_ticks_from_reset`. -/
def main_loop (s : State) (now_ticks buttons : Nat) : State :=
  if buttons &&& PBT_0_MASK ≠ 0 ∧ s.button0_prev = 0 then
    { s with press_ticks := now_ticks, button0_prev := 1 }
  else if buttons &&& PBT_0_MASK = 0 ∧ s.button0_prev ≠ 0 then
    release_branch now_ticks s
  else if s.blinking ≠ 0 then
    blinking_branch buttons now_ticks s
  else s

/-- Run of the loop over a list of samples `(now_ticks, buttons)`. -/
def run (s : State) (samples : List (Nat × Nat)) : State :=
  samples.foldl (fun st x => main_loop st x.1 x.2) s

end DiffAccountSuperloop

/-! ## `main_chatgpt_superloop.c` -/

namespace ChatgptSuperloop

/-- Macro `ALL_LEDS`. -/
def ALL_LEDS : Nat := LED_0_MASK ||| LED_1_MASK ||| LED_2_MASK ||| LED_3_MASK

/-- Variables of `main` that live across loop iterations, and the trace of
platform calls. -/
structure State where
  t_start : Nat
  t_last_blink : Nat
  pbt0_last : Nat
  blink_en : Nat
  leds_on : Nat
  trace : List Effect
deriving DecidableEq, Repr

/-- Lines 14-19 of `main`, up to the loop. -/
def main_init : State :=
  { t_start := 0, t_last_blink := 0, pbt0_last := 0, blink_en := 0, leds_on := 0
    trace := [Effect.gpio_set_direction ALL_LEDS] }

/-- Lines 32-34: `ms = (uint32_t)((now - t_start) / 10000)`. -/
def measured_ms (now t_start : Nat) : Nat := (sub64 now t_start / 10000) % U32

/-- Lines 24-41: edges of button 0. -/
def btn0_logic (pbt0_now now : Nat) (s : State) : State :=
  let s :=
    if pbt0_now ≠ 0 ∧ s.pbt0_last = 0 then { s with t_start := now }
    else if pbt0_now = 0 ∧ s.pbt0_last ≠ 0 then
      let ms := measured_ms now s.t_start
      let s := { s with trace := s.trace ++ [Effect.printf_ms ms] }
      if ms > 1000 then { s with blink_en := 1 } else s
    else s
  { s with pbt0_last := pbt0_now }

/-- Lines 43-47: button 1 stops the blinking. -/
def btn1_logic (current_gpio : Nat) (s : State) : State :=
  if current_gpio &&& PBT_1_MASK ≠ 0 then
    { s with blink_en := 0, trace := s.trace ++ [Effect.gpio_write 0] }
  else s

/-- Lines 49-56: non-blocking blink. -/
def blink_logic (now : Nat) (s : State) : State :=
  if s.blink_en ≠ 0 then
    if sub64 now s.t_last_blink ≥ 5000000 then
      let leds_on : Nat := if s.leds_on ≠ 0 then 0 else 1
      { s with
        leds_on := leds_on
        trace := s.trace ++ [Effect.gpio_write (if leds_on ≠ 0 then ALL_LEDS else 0)]
        t_last_blink := now }
    else s
  else s

/-- Lines 22-56: one iteration of the `while (1)` loop, where `current_gpio`
is the value returned by `gpio_read` and `now` the one returned by
`get_ticks_from_reset`. -/
def main_loop (s : State) (now current_gpio : Nat) : State :=
  let pbt0_now : Nat := if current_gpio &&& PBT_0_MASK ≠ 0 then 1 else 0
  let s := btn0_logic pbt0_now now s
  let s := btn1_logic current_gpio s
  blink_logic now s

/-- Run of the loop over a list of samples `(now, current_gpio)`. -/
def run (s : State) (samples : List (Nat × Nat)) : State :=
  samples.foldl (fun st x => main_loop st x.1 x.2) s

end ChatgptSuperloop

/-! ## `main_chatgpt_interrupt.c` -/

namespace ChatgptInterrupt

/-- Values of the volatile `ms_ticks` at the places where one loop iteration
reads it. -/
structure TickReads where
  /-- Line 59: `press_time = ms_ticks`. -/
  at_press : Nat
  /-- Line 65: `elapsed = ms_ticks - press_time`. -/
  at_release : Nat
  /-- Line 72: `blink_timer = ms_ticks`. -/
  at_arm : Nat
  /-- Line 81: `(ms_ticks - blink_timer) >= 500`. -/
  at_compare : Nat
  /-- Line 83: `blink_timer = ms_ticks`. -/
  at_toggle : Nat
deriving DecidableEq, Repr

/-- Reads of an iteration during which the timer interrupt does not fire:
every read of `ms_ticks` returns `v`. -/
def TickReads.all (v : Nat) : TickReads :=
  { at_press := v, at_release := v, at_arm := v, at_compare := v, at_toggle := v }

/-- The file-scope variables, and the trace of platform calls. -/
structure State where
  ms_ticks : Nat
  counter : Nat
  btn0_prev : Nat
  btn1_prev : Nat
  press_time : Nat
  blink_timer : Nat
  blinking : Nat
  leds_on : Nat
  trace : List Effect
deriving DecidableEq, Repr

/-- Function `timer_handler`. -/
def timer_handler (s : State) : State :=
  let s := { s with ms_ticks := (s.ms_ticks + 1) % U32 }
  if s.counter > 0 then { s with counter := s.counter - 1 } else s

/-- The initial values of the file-scope variables and lines 41-47 of `main`,
up to the loop. -/
def main_init : State :=
  { ms_ticks := 0, counter := 0, btn0_prev := 0, btn1_prev := 0, press_time := 0
    blink_timer := 0, blinking := 0, leds_on := 0
    trace := [Effect.gpio_set_direction 0x000F0000] }

/-- Lines 55-76: edges of button 0. -/
def btn0_logic (gpio : Nat) (t : TickReads) (s : State) : State :=
  if gpio &&& PBT_0_MASK ≠ 0 ∧ s.btn0_prev = 0 then
    { s with press_time := t.at_press, btn0_prev := 1 }
  else if gpio &&& PBT_0_MASK = 0 ∧ s.btn0_prev ≠ 0 then
    let elapsed := sub32 t.at_release s.press_time
    let s := { s with trace := s.trace ++ [Effect.printf_ms elapsed] }
    let s :=
      if elapsed ≥ 1000 then
        { s with leds_on := 1, blinking := 1, blink_timer := t.at_arm }
      else s
    { s with btn0_prev := 0 }
  else s

/-- Lines 78-96: blink control. -/
def blink_logic (t : TickReads) (s : State) : State :=
  if s.blinking ≠ 0 then
    if sub32 t.at_compare s.blink_timer ≥ 500 then
      let s := { s with blink_timer := t.at_toggle }
      if s.leds_on ≠ 0 then
        { s with trace := s.trace ++ [Effect.gpio_write 0x00000000], leds_on := 0 }
      else
        { s with trace := s.trace ++ [Effect.gpio_write 0x000F0000], leds_on := 1 }
    else s
  else s

/-- Lines 98-110: button 1 stops the blinking. -/
def btn1_logic (gpio : Nat) (s : State) : State :=
  if gpio &&& PBT_1_MASK ≠ 0 ∧ s.btn1_prev = 0 then
    { s with blinking := 0, leds_on := 0, trace := s.trace ++ [Effect.gpio_write 0x00000000],
             btn1_prev := 1 }
  else if gpio &&& PBT_1_MASK = 0 then { s with btn1_prev := 0 }
  else s

/-- Lines 53-110: one iteration of the `while (1)` loop. `gpio` is the value
returned by `gpio_read`, `t` the values of `ms_ticks` it reads. -/
def main_loop (s : State) (gpio : Nat) (t : TickReads) : State :=
  btn1_logic gpio (blink_logic t (btn0_logic gpio t s))

/-- Run of the loop over a list of samples `(ms_ticks, gpio)`, the timer
interrupt not firing inside an iteration. -/
def run (s : State) (samples : List (Nat × Nat)) : State :=
  samples.foldl (fun st x => main_loop st x.2 (TickReads.all x.1)) s

end ChatgptInterrupt

/-! ## Lemmas on the machine arithmetic and on traces -/

theorem writes_append (l1 l2 : List Effect) : writes (l1 ++ l2) = writes l1 ++ writes l2 := by
  induction l1 with
  | nil => rfl
  | cons e es ih => cases e <;> simp [writes, ih]

theorem reports_append (l1 l2 : List Effect) : reports (l1 ++ l2) = reports l1 ++ reports l2 := by
  induction l1 with
  | nil => rfl
  | cons e es ih => cases e <;> simp [reports, ih]

theorem sub64_self (a : Nat) : sub64 a a = 0 := by
  unfold sub64 U64; omega

theorem sub64_of_le (a b : Nat) (hab : b ≤ a) (ha : a < U64) : sub64 a b = a - b := by
  unfold sub64; unfold U64 at *; omega

theorem sub64_of_lt (a b : Nat) (hab : a < b) (hb : b < U64) : sub64 a b = U64 + a - b := by
  unfold sub64; unfold U64 at *; omega

theorem sub32_of_le (a b : Nat) (hab : b ≤ a) (ha : a < U32) : sub32 a b = a - b := by
  unfold sub32; unfold U32 at *; omega

theorem testBit_of_lt_U32 (x i : Nat) (hx : x < U32) (hi : 32 ≤ i) : x.testBit i = false := by
  apply Nat.testBit_lt_two_pow
  have h : (2 : Nat) ^ 32 ≤ 2 ^ i := Nat.pow_le_pow_right (by decide) hi
  have h32 : (2 : Nat) ^ 32 = U32 := by decide
  omega

theorem led_mask_testBit (i : Nat) :
    (0xF0000 : Nat).testBit i = (decide (16 ≤ i) && decide (i < 20)) := by
  by_cases hi : i < 32
  · interval_cases i <;> decide
  · have h := testBit_of_lt_U32 0xF0000 i (by decide) (by omega)
    rw [h]
    have : ¬ i < 20 := by omega
    simp [this]

theorem not_led_mask_testBit (i : Nat) :
    (not32 0xF0000).testBit i = (decide (i < 32) && !(decide (16 ≤ i) && decide (i < 20))) := by
  by_cases hi : i < 32
  · interval_cases i <;> decide
  · have h := testBit_of_lt_U32 (not32 0xF0000) i (by decide) (by omega)
    rw [h]
    simp [hi]

theorem outside_leds_mask (i : Nat) (hi : outside_leds i) :
    (decide (16 ≤ i) && decide (i < 20)) = false := by
  unfold outside_leds at hi
  rcases hi with h | h
  · have : ¬ 16 ≤ i := by omega
    simp [this]
  · have : ¬ i < 20 := by omega
    simp [this]

theorem land_not_mask_outside (x i : Nat) (hx : x < U32) (hi : outside_leds i) :
    (x &&& not32 0xF0000).testBit i = x.testBit i := by
  rw [Nat.testBit_land, not_led_mask_testBit, outside_leds_mask i hi]
  by_cases h32 : i < 32
  · simp [h32]
  · rw [testBit_of_lt_U32 x i hx (by omega)]
    rfl

theorem lor_mask_outside (x i : Nat) (hi : outside_leds i) :
    (x ||| 0xF0000).testBit i = x.testBit i := by
  rw [Nat.testBit_lor, led_mask_testBit, outside_leds_mask i hi, Bool.or_false]

theorem land_not_mask_lt (x : Nat) (hx : x < U32) : x &&& not32 0xF0000 < U32 :=
  lt_of_le_of_lt Nat.and_le_left hx

theorem lor_mask_lt (x : Nat) (hx : x < U32) : x ||| 0xF0000 < U32 := by
  have h32 : U32 = 2 ^ 32 := by decide
  rw [h32] at hx ⊢
  exact Nat.or_lt_two_pow hx (by decide)

theorem exactly_1000_ms (p r : Nat) (hlo : p + 10000000 ≤ r) (hhi : r ≤ p + 10009999)
    (hr : r < U64) : sub64 r p / 10000 = 1000 := by
  rw [sub64_of_le r p (by omega) hr]
  omega

/-! ## Lemmas on `main_final_superloop.c` -/

namespace FinalSuperloop

theorem land_not_leds (x : Nat) : (x &&& not32 LEDS_ALL) &&& LEDS_ALL = 0 := by
  rw [Nat.land_assoc]
  have h : not32 LEDS_ALL &&& LEDS_ALL = 0 := by decide
  rw [h, Nat.and_zero]

theorem lor_leds (x : Nat) : (x ||| LEDS_ALL) &&& LEDS_ALL = LEDS_ALL := by
  apply Nat.eq_of_testBit_eq
  intro i
  simp only [Nat.testBit_land, Nat.testBit_lor]
  cases x.testBit i <;> cases LEDS_ALL.testBit i <;> rfl

theorem inv_init (r0 r1 : Nat) : Inv (main_init r0 r1) := by
  refine ⟨by simp [main_init], fun _ => land_not_leds r0, Or.inl (land_not_leds r0), ?_⟩
  simp [main_init, writes]

theorem inv_btn0_rising (now p c : Nat) (s : State) (h : Inv s) :
    Inv (btn0_rising now p c s) := by
  unfold btn0_rising
  split_ifs
  · exact h
  · exact h

theorem inv_btn0_falling (now p c : Nat) (s : State) (h : Inv s) :
    Inv (btn0_falling now p c s) := by
  obtain ⟨h1, h2, h3, h4⟩ := h
  simp only [btn0_falling]
  split_ifs
  · refine ⟨le_refl 1, fun h0 => absurd h0 Nat.one_ne_zero, Or.inr (lor_leds _), ?_⟩
    simp only [writes_append, writes, List.append_nil, List.getLast?_concat]
  · refine ⟨h1, h2, h3, ?_⟩
    simpa only [writes_append, writes, List.append_nil] using h4
  · exact ⟨h1, h2, h3, h4⟩
  · exact ⟨h1, h2, h3, h4⟩

theorem inv_btn1_rising (p c : Nat) (s : State) (h : Inv s) :
    Inv (btn1_rising p c s) := by
  obtain ⟨h1, h2, h3, h4⟩ := h
  simp only [btn1_rising]
  split_ifs
  · refine ⟨Nat.zero_le 1, fun _ => land_not_leds _, Or.inl (land_not_leds _), ?_⟩
    simp only [writes_append, writes, List.getLast?_concat]
  · exact ⟨h1, h2, h3, h4⟩
  · exact ⟨h1, h2, h3, h4⟩

theorem inv_blink_toggle (now : Nat) (s : State) (h : Inv s) :
    Inv (blink_toggle now s) := by
  obtain ⟨h1, h2, h3, h4⟩ := h
  simp only [blink_toggle]
  split_ifs with hc hl
  · refine ⟨h1, fun h0 => absurd h0 hc.1, Or.inl (land_not_leds _), ?_⟩
    simp only [writes_append, writes, List.getLast?_concat]
  · refine ⟨h1, fun h0 => absurd h0 hc.1, Or.inr (lor_leds _), ?_⟩
    simp only [writes_append, writes, List.getLast?_concat]
  · exact ⟨h1, h2, h3, h4⟩

theorem inv_step (s : State) (now port : Nat) (h : Inv s) : Inv (main_loop s now port) := by
  unfold main_loop
  exact inv_blink_toggle _ _ (inv_btn1_rising _ _ _ (inv_btn0_falling _ _ _ _
    (inv_btn0_rising _ _ _ _ h)))

theorem inv_of_reachable (s : State) (h : Reachable s) : Inv s := by
  induction h with
  | init r0 r1 _ _ => exact inv_init r0 r1
  | step s now port _ _ _ ih => exact inv_step s now port ih

theorem btn0_rising_idle (now p c : Nat) (s : State) (h : ¬ (p = 0 ∧ c ≠ 0)) :
    btn0_rising now p c s = s := by
  simp only [btn0_rising, if_neg h]

theorem btn0_falling_idle (now p c : Nat) (s : State) (h : ¬ (p ≠ 0 ∧ c = 0)) :
    btn0_falling now p c s = s := by
  simp only [btn0_falling, if_neg h]

theorem btn1_rising_idle (p c : Nat) (s : State) (h : ¬ (p = 0 ∧ c ≠ 0)) :
    btn1_rising p c s = s := by
  simp only [btn1_rising, if_neg h]

theorem main_loop_eq (s : State) (now port : Nat) :
    main_loop s now port =
      blink_toggle now
        (btn1_rising (s.input_current &&& PBT_1_MASK) (port &&& PBT_1_MASK)
          (btn0_falling now (s.input_current &&& PBT_0_MASK) (port &&& PBT_0_MASK)
            (btn0_rising now (s.input_current &&& PBT_0_MASK) (port &&& PBT_0_MASK)
              { s with input_current := port }))) := rfl

theorem run_cons (s : State) (x : Nat × Nat) (xs : List (Nat × Nat)) :
    run s (x :: xs) = run (main_loop s x.1 x.2) xs := rfl

theorem btn0_rising_input (now p c : Nat) (s : State) :
    (btn0_rising now p c s).input_current = s.input_current := by
  simp only [btn0_rising]; split_ifs <;> rfl

theorem btn0_falling_input (now p c : Nat) (s : State) :
    (btn0_falling now p c s).input_current = s.input_current := by
  simp only [btn0_falling]; split_ifs <;> rfl

theorem btn1_rising_input (p c : Nat) (s : State) :
    (btn1_rising p c s).input_current = s.input_current := by
  simp only [btn1_rising]; split_ifs <;> rfl

theorem blink_toggle_input (now : Nat) (s : State) :
    (blink_toggle now s).input_current = s.input_current := by
  simp only [blink_toggle]; split_ifs <;> rfl

theorem main_loop_input_current (s : State) (now port : Nat) :
    (main_loop s now port).input_current = port := by
  rw [main_loop_eq, blink_toggle_input, btn1_rising_input, btn0_falling_input,
    btn0_rising_input]

theorem blink_toggle_idle (now : Nat) (s : State)
    (h : ¬ (s.blink ≠ 0 ∧ sub64 now s.blink_last ≥ BLINK_TCK)) : blink_toggle now s = s := by
  simp only [blink_toggle, if_neg h]

theorem btn0_rising_frame (now p c : Nat) (s : State) :
    (btn0_rising now p c s).out_shadow = s.out_shadow ∧
    (btn0_rising now p c s).blink = s.blink ∧
    (btn0_rising now p c s).blink_last = s.blink_last ∧
    (btn0_rising now p c s).trace = s.trace := by
  simp only [btn0_rising]; split_ifs <;> exact ⟨rfl, rfl, rfl, rfl⟩

theorem btn0_falling_frame (now p c : Nat) (s : State) :
    (btn0_falling now p c s).t_press = s.t_press := by
  simp only [btn0_falling]; split_ifs <;> rfl

theorem btn1_rising_frame (p c : Nat) (s : State) :
    (btn1_rising p c s).b0_measuring = s.b0_measuring ∧
    (btn1_rising p c s).t_press = s.t_press ∧
    (btn1_rising p c s).blink_last = s.blink_last ∧
    reports (btn1_rising p c s).trace = reports s.trace := by
  simp only [btn1_rising]
  split_ifs <;> simp [reports_append, reports]

theorem blink_toggle_frame (now : Nat) (s : State) :
    (blink_toggle now s).b0_measuring = s.b0_measuring ∧
    (blink_toggle now s).t_press = s.t_press ∧
    (blink_toggle now s).blink = s.blink ∧
    reports (blink_toggle now s).trace = reports s.trace := by
  simp only [blink_toggle]
  split_ifs <;> simp [reports_append, reports]

theorem btn1_rising_of_idle (p c : Nat) (s : State) (h : s.blink = 0) :
    btn1_rising p c s = s := by
  simp only [btn1_rising]; split_ifs <;> first | rfl | contradiction

theorem blink_toggle_of_idle (now : Nat) (s : State) (h : s.blink = 0) :
    blink_toggle now s = s :=
  blink_toggle_idle now s (fun hc => hc.1 h)

theorem btn1_rising_edge (p c : Nat) (s : State) (hi : Inv s) (hp : p = 0) (hc : c ≠ 0) :
    (btn1_rising p c s).blink = 0 ∧ (btn1_rising p c s).out_shadow &&& LEDS_ALL = 0 := by
  have hpc : p = 0 ∧ c ≠ 0 := ⟨hp, hc⟩
  simp only [btn1_rising, if_pos hpc]
  split_ifs with hb
  · exact ⟨rfl, land_not_leds _⟩
  · have hb0 : s.blink = 0 := not_not.mp hb
    exact ⟨hb0, hi.2.1 hb0⟩

/-- Reported duration of a release that ends a measurement. -/
theorem release_reports (s : State) (now port : Nat)
    (hprev : s.input_current &&& PBT_0_MASK ≠ 0) (hcur : port &&& PBT_0_MASK = 0)
    (hmeas : s.b0_measuring ≠ 0) :
    reports (main_loop s now port).trace = reports s.trace ++ [measured_ms now s.t_press] := by
  rw [main_loop_eq, (blink_toggle_frame _ _).2.2.2, (btn1_rising_frame _ _ _).2.2.2,
    btn0_rising_idle _ _ _ _ (fun h => hprev h.1)]
  have hedge : s.input_current &&& PBT_0_MASK ≠ 0 ∧ port &&& PBT_0_MASK = 0 := ⟨hprev, hcur⟩
  have hm : ({ s with input_current := port } : State).b0_measuring ≠ 0 := hmeas
  simp only [btn0_falling, if_pos hedge, if_pos hm]
  split_ifs <;> simp [reports_append, reports]

/-- A rising edge of button 0 records the press tick. -/
theorem press_records (s : State) (now port : Nat)
    (hprev : s.input_current &&& PBT_0_MASK = 0) (hcur : port &&& PBT_0_MASK ≠ 0) :
    (main_loop s now port).t_press = now ∧ (main_loop s now port).b0_measuring = 1 := by
  have hedge : s.input_current &&& PBT_0_MASK = 0 ∧ port &&& PBT_0_MASK ≠ 0 := ⟨hprev, hcur⟩
  rw [main_loop_eq, (blink_toggle_frame _ _).1, (blink_toggle_frame _ _).2.1,
    (btn1_rising_frame _ _ _).1, (btn1_rising_frame _ _ _).2.1,
    btn0_falling_idle _ _ _ _ (fun h => h.1 hprev)]
  simp only [btn0_rising, if_pos hedge, and_self]

theorem fs_measured_ms_of_le (p r : Nat) (hpr : p ≤ r) (hr : r < U64) :
    measured_ms r p = ((r - p) / 10000) % U32 := by
  have h : TICKS_PER_MS = 10000 := by decide
  rw [measured_ms, sub64_of_le r p hpr hr, h]

theorem fs_measured_ms_of_lt (p r : Nat) (hrp : r < p) (hp : p < U64) :
    measured_ms r p = ((U64 + r - p) / 10000) % U32 := by
  have h : TICKS_PER_MS = 10000 := by decide
  rw [measured_ms, sub64_of_lt r p hrp hp, h]

theorem measuring_inv_init (r0 r1 : Nat) : MeasuringInv (main_init r0 r1) :=
  ⟨Nat.zero_le 1, fun h => absurd rfl h⟩

theorem measuring_inv_step (s : State) (now port : Nat) (h : MeasuringInv s) :
    MeasuringInv (main_loop s now port) := by
  obtain ⟨h1, h2⟩ := h
  have key : (btn0_falling now (s.input_current &&& PBT_0_MASK) (port &&& PBT_0_MASK)
        (btn0_rising now (s.input_current &&& PBT_0_MASK) (port &&& PBT_0_MASK)
          { s with input_current := port })).b0_measuring ≤ 1 ∧
      ((btn0_falling now (s.input_current &&& PBT_0_MASK) (port &&& PBT_0_MASK)
        (btn0_rising now (s.input_current &&& PBT_0_MASK) (port &&& PBT_0_MASK)
          { s with input_current := port })).b0_measuring ≠ 0 → port &&& PBT_0_MASK ≠ 0) := by
    by_cases hp : s.input_current &&& PBT_0_MASK = 0
    · rw [btn0_falling_idle _ _ _ _ (fun h => h.1 hp)]
      by_cases hc : port &&& PBT_0_MASK = 0
      · rw [btn0_rising_idle _ _ _ _ (fun h => h.2 hc)]
        exact ⟨h1, fun hm => absurd hp (h2 hm)⟩
      · simp only [btn0_rising, if_pos (And.intro hp hc)]
        exact ⟨le_refl 1, fun _ => hc⟩
    · rw [btn0_rising_idle _ _ _ _ (fun h => hp h.1)]
      by_cases hc : port &&& PBT_0_MASK = 0
      · simp only [btn0_falling, if_pos (And.intro hp hc)]
        split_ifs
        · exact ⟨Nat.zero_le 1, fun hm => absurd rfl hm⟩
        · exact ⟨Nat.zero_le 1, fun hm => absurd rfl hm⟩
        · exact ⟨h1, fun hm => by contradiction⟩
      · rw [btn0_falling_idle _ _ _ _ (fun h => hc h.2)]
        exact ⟨h1, fun _ => hc⟩
  refine ⟨?_, ?_⟩
  · rw [main_loop_eq, (blink_toggle_frame _ _).1, (btn1_rising_frame _ _ _).1]
    exact key.1
  · rw [main_loop_input_current, main_loop_eq, (blink_toggle_frame _ _).1,
      (btn1_rising_frame _ _ _).1]
    exact key.2

theorem measuring_inv_of_reachable (s : State) (h : Reachable s) : MeasuringInv s := by
  induction h with
  | init r0 r1 _ _ => exact measuring_inv_init r0 r1
  | step s now port _ _ _ ih => exact measuring_inv_step s now port ih

/-- An iteration that samples button 0 held, after a sample with button 0
held, keeps the measurement and reports nothing. -/
theorem hold_step (s : State) (now port : Nat) (hprev : s.input_current &&& PBT_0_MASK ≠ 0)
    (hcur : port &&& PBT_0_MASK ≠ 0) :
    (main_loop s now port).t_press = s.t_press ∧
    (main_loop s now port).b0_measuring = s.b0_measuring ∧
    reports (main_loop s now port).trace = reports s.trace := by
  rw [main_loop_eq, (blink_toggle_frame _ _).1, (blink_toggle_frame _ _).2.1,
    (blink_toggle_frame _ _).2.2.2, (btn1_rising_frame _ _ _).1, (btn1_rising_frame _ _ _).2.1,
    (btn1_rising_frame _ _ _).2.2.2, btn0_falling_idle _ _ _ _ (fun h => hcur h.2),
    btn0_rising_idle _ _ _ _ (fun h => hprev h.1)]
  exact ⟨rfl, rfl, rfl⟩

theorem hold_run (mid : List (Nat × Nat)) :
    ∀ s : State, s.input_current &&& PBT_0_MASK ≠ 0 →
      (∀ x ∈ mid, x.2 &&& PBT_0_MASK ≠ 0) →
      (run s mid).t_press = s.t_press ∧ (run s mid).b0_measuring = s.b0_measuring ∧
      reports (run s mid).trace = reports s.trace ∧
      (run s mid).input_current &&& PBT_0_MASK ≠ 0 := by
  induction mid with
  | nil => intro s hs _; exact ⟨rfl, rfl, rfl, hs⟩
  | cons x xs ih =>
    intro s hs hall
    have hx := hall x (List.mem_cons_self x xs)
    obtain ⟨e1, e2, e3⟩ := hold_step s x.1 x.2 hs hx
    obtain ⟨f1, f2, f3, f4⟩ := ih (main_loop s x.1 x.2)
      (by rw [main_loop_input_current]; exact hx)
      (fun y hy => hall y (List.mem_cons_of_mem x hy))
    rw [run_cons]
    exact ⟨f1.trans e1, f2.trans e2, f3.trans e3, f4⟩

theorem fs_run_append (s : State) (l1 l2 : List (Nat × Nat)) :
    run s (l1 ++ l2) = run (run s l1) l2 := by
  simp only [run, List.foldl_append]

theorem LEDS_ALL_val : LEDS_ALL = 0xF0000 := by decide

theorem btn0_falling_outside (now p c : Nat) (s : State) (hs : s.out_shadow < U32) :
    (btn0_falling now p c s).out_shadow < U32 ∧
    ∀ i, outside_leds i →
      (btn0_falling now p c s).out_shadow.testBit i = s.out_shadow.testBit i := by
  simp only [btn0_falling, LEDS_ALL_val]
  split_ifs
  · exact ⟨lor_mask_lt _ hs, fun i hi => lor_mask_outside _ i hi⟩
  · exact ⟨hs, fun _ _ => rfl⟩
  · exact ⟨hs, fun _ _ => rfl⟩
  · exact ⟨hs, fun _ _ => rfl⟩

theorem btn1_rising_outside (p c : Nat) (s : State) (hs : s.out_shadow < U32) :
    (btn1_rising p c s).out_shadow < U32 ∧
    ∀ i, outside_leds i →
      (btn1_rising p c s).out_shadow.testBit i = s.out_shadow.testBit i := by
  simp only [btn1_rising, LEDS_ALL_val]
  split_ifs
  · exact ⟨land_not_mask_lt _ hs, fun i hi => land_not_mask_outside _ i hs hi⟩
  · exact ⟨hs, fun _ _ => rfl⟩
  · exact ⟨hs, fun _ _ => rfl⟩

theorem blink_toggle_outside (now : Nat) (s : State) (hs : s.out_shadow < U32) :
    (blink_toggle now s).out_shadow < U32 ∧
    ∀ i, outside_leds i →
      (blink_toggle now s).out_shadow.testBit i = s.out_shadow.testBit i := by
  simp only [blink_toggle, LEDS_ALL_val]
  split_ifs
  · exact ⟨land_not_mask_lt _ hs, fun i hi => land_not_mask_outside _ i hs hi⟩
  · exact ⟨lor_mask_lt _ hs, fun i hi => lor_mask_outside _ i hi⟩
  · exact ⟨hs, fun _ _ => rfl⟩

theorem main_loop_outside (s : State) (now port : Nat) (hs : s.out_shadow < U32) :
    (main_loop s now port).out_shadow < U32 ∧
    ∀ i, outside_leds i →
      (main_loop s now port).out_shadow.testBit i = s.out_shadow.testBit i := by
  have h0 : (btn0_rising now (s.input_current &&& PBT_0_MASK) (port &&& PBT_0_MASK)
      { s with input_current := port }).out_shadow = s.out_shadow :=
    (btn0_rising_frame _ _ _ _).1
  obtain ⟨a1, a2⟩ := btn0_falling_outside now (s.input_current &&& PBT_0_MASK)
    (port &&& PBT_0_MASK) (btn0_rising now (s.input_current &&& PBT_0_MASK)
      (port &&& PBT_0_MASK) { s with input_current := port }) (by rw [h0]; exact hs)
  obtain ⟨b1, b2⟩ := btn1_rising_outside (s.input_current &&& PBT_1_MASK)
    (port &&& PBT_1_MASK) _ a1
  obtain ⟨c1, c2⟩ := blink_toggle_outside now _ b1
  rw [main_loop_eq]
  refine ⟨c1, fun i hi => ?_⟩
  rw [c2 i hi, b2 i hi, a2 i hi, h0]

/-- The release block when the measured duration qualifies. -/
theorem btn0_falling_arm (now p c : Nat) (s : State) (hedge : p ≠ 0 ∧ c = 0)
    (hm : s.b0_measuring ≠ 0) (hms : measured_ms now s.t_press ≥ 1000) :
    btn0_falling now p c s =
      { s with
        b0_measuring := 0
        out_shadow := s.out_shadow ||| LEDS_ALL
        trace := s.trace ++ [Effect.printf_ms (measured_ms now s.t_press)] ++
          [Effect.gpio_write (s.out_shadow ||| LEDS_ALL)]
        blink := 1
        blink_last := now } := by
  simp only [btn0_falling, if_pos hedge, if_pos hm, if_pos hms]

end FinalSuperloop

/-! ## Lemmas on `main_inicial_superloop.c` -/

namespace InicialSuperloop

theorem set_leds_pattern_btn (pat : Nat) (s : State) : (set_leds_pattern pat s).btn = s.btn := rfl

theorem button_body_btn (now buttons : Nat) (i : Fin 4) (s : State) :
    (button_body now buttons i s).btn =
      Function.update s.btn i (btn_update now ((buttons >>> i.val) &&& 0x1) (s.btn i)) := by
  simp only [button_body, btn_update]
  split_ifs <;> rfl

theorem blink_toggle_btn (now : Nat) (s : State) : (blink_toggle now s).btn = s.btn := by
  simp only [blink_toggle]
  split_ifs <;> rfl

theorem main_loop_btn (s : State) (now port : Nat) (i : Fin 4) :
    (main_loop s now port).btn i = btn_update now (raw_level i port) (s.btn i) := by
  simp only [main_loop, blink_toggle_btn, button_body_btn, raw_level]
  fin_cases i <;> simp [Function.update]
  rfl

theorem DEBOUNCE_TICKS_eq : DEBOUNCE_TICKS = 200000 := by decide

theorem btn_update_change (now raw : Nat) (b : btn_state_t) (h : raw ≠ b.last_raw) :
    (btn_update now raw b).last_raw = raw ∧ (btn_update now raw b).last_change = now ∧
    (btn_update now raw b).stable = b.stable := by
  have hd : ¬ (sub64 now now ≥ DEBOUNCE_TICKS) := by
    rw [sub64_self, DEBOUNCE_TICKS_eq]; decide
  simp only [btn_update, if_pos h, if_neg hd, and_self]

theorem btn_update_same (now raw : Nat) (b : btn_state_t) (h : raw = b.last_raw) :
    (btn_update now raw b).last_raw = b.last_raw ∧
    (btn_update now raw b).last_change = b.last_change ∧
    ((btn_update now raw b).stable ≠ b.stable →
      sub64 now b.last_change ≥ DEBOUNCE_TICKS ∧ (btn_update now raw b).stable = raw ∧
      ((btn_update now raw b).stable ≠ 0 → (btn_update now raw b).t_press = now ∧
        (btn_update now raw b).waiting_release = 1)) := by
  have hn : ¬ raw ≠ b.last_raw := not_not.mpr h
  simp only [btn_update, if_neg hn]
  split_ifs with h1 h2 h3 h4
  · exact ⟨rfl, rfl, fun _ => ⟨h1, rfl, fun _ => ⟨rfl, rfl⟩⟩⟩
  · exact ⟨rfl, rfl, fun _ => ⟨h1, rfl, fun h0 => absurd h0 h3⟩⟩
  · exact ⟨rfl, rfl, fun _ => ⟨h1, rfl, fun h0 => absurd h0 h3⟩⟩
  · exact ⟨rfl, rfl, fun hne => absurd rfl hne⟩
  · exact ⟨rfl, rfl, fun hne => absurd rfl hne⟩

theorem run_snoc (s : State) (pre : List (Nat × Nat)) (x : Nat × Nat) :
    run s (pre ++ [x]) = main_loop (run s pre) x.1 x.2 := by
  simp only [run, List.foldl_append, List.foldl_cons, List.foldl_nil]

theorem debounce_inv_step (i : Fin 4) (pre : List (Nat × Nat)) (x : Nat × Nat)
    (b : btn_state_t) (h : DebounceInv i pre b) :
    DebounceInv i (pre ++ [x]) (btn_update x.1 (raw_level i x.2) b) := by
  by_cases hraw : raw_level i x.2 = b.last_raw
  · obtain ⟨e1, e2, e3⟩ := btn_update_same x.1 (raw_level i x.2) b hraw
    rcases h with ⟨h1, h2, h3⟩ | ⟨l1, y, l2, hpre, hy, hall⟩
    · left
      refine ⟨e1.trans h1, ?_, e2.trans h3⟩
      by_contra hne
      have := (e3 (by rw [h2]; exact hne)).2.1
      rw [this, hraw, h1] at hne
      exact hne rfl
    · right
      refine ⟨l1, y, l2 ++ [x], by rw [hpre]; simp, by rw [e2]; exact hy, ?_⟩
      intro z hz
      rw [e1]
      rw [← List.cons_append, List.mem_append, List.mem_singleton] at hz
      rcases hz with hz | hz
      · exact hall z hz
      · rw [hz]; exact hraw
  · obtain ⟨e1, e2, _⟩ := btn_update_change x.1 (raw_level i x.2) b hraw
    right
    refine ⟨pre, x, [], rfl, e2.symm, ?_⟩
    intro z hz
    rw [List.mem_singleton] at hz
    rw [hz, e1]

theorem debounce_inv_run (r0 : Nat) (i : Fin 4) (pre : List (Nat × Nat)) :
    DebounceInv i pre ((run (main_init r0) pre).btn i) := by
  induction pre using List.reverseRecOn with
  | nil => left; exact ⟨rfl, rfl, rfl⟩
  | append_singleton l x ih =>
    rw [run_snoc, main_loop_btn]
    exact debounce_inv_step i l x _ ih

theorem button_body_btn_self (now buttons : Nat) (i : Fin 4) (s : State) :
    (button_body now buttons i s).btn i =
      btn_update now ((buttons >>> i.val) &&& 0x1) (s.btn i) := by
  rw [button_body_btn, Function.update_same]

theorem set_leds_pattern_reports (pat : Nat) (s : State) :
    reports (set_leds_pattern pat s).trace = reports s.trace := by
  simp [set_leds_pattern, reports_append, reports]

/-- A committed release of a button under measurement reports the duration. -/
theorem button_body_release (now buttons : Nat) (i : Fin 4) (s : State)
    (hst : (s.btn i).stable ≠ 0) (hw : (s.btn i).waiting_release ≠ 0)
    (hrel : ((button_body now buttons i s).btn i).stable = 0) :
    reports (button_body now buttons i s).trace =
      reports s.trace ++ [measured_ms now (s.btn i).t_press] := by
  rw [button_body_btn_self] at hrel
  have hraw : (buttons >>> i.val) &&& 0x1 = (s.btn i).last_raw := by
    by_contra hne
    rw [(btn_update_change now _ (s.btn i) hne).2.2] at hrel
    exact hst hrel
  obtain ⟨_, _, e3⟩ := btn_update_same now _ (s.btn i) hraw
  obtain ⟨hdeb, hzero, _⟩ := e3 (by rw [hrel]; exact fun h => hst h.symm)
  rw [hrel] at hzero
  have c1 : ¬ ((buttons >>> i.val) &&& 0x1 ≠ (s.btn i).last_raw) := not_not.mpr hraw
  have c3 : (buttons >>> i.val) &&& 0x1 ≠ (s.btn i).stable := by
    rw [← hzero]; exact fun h => hst h.symm
  simp only [button_body, if_neg c1, if_pos hdeb, if_pos c3]
  rw [← hzero]
  simp only [ne_eq, not_true_eq_false, if_false, if_pos hw]
  split_ifs
  · show reports (leds_on_all _).trace = _
    rw [leds_on_all, set_leds_pattern_reports]
    simp [reports_append, reports]
  · simp [reports_append, reports]

/-- A committed press records the tick of the committing iteration. -/
theorem button_body_press (now buttons : Nat) (i : Fin 4) (s : State)
    (hst : (s.btn i).stable = 0)
    (hpress : ((button_body now buttons i s).btn i).stable ≠ 0) :
    ((button_body now buttons i s).btn i).t_press = now ∧
    ((button_body now buttons i s).btn i).waiting_release = 1 := by
  rw [button_body_btn_self] at hpress ⊢
  have hraw : (buttons >>> i.val) &&& 0x1 = (s.btn i).last_raw := by
    by_contra hne
    rw [(btn_update_change now _ (s.btn i) hne).2.2] at hpress
    exact hpress hst
  obtain ⟨_, _, e3⟩ := btn_update_same now _ (s.btn i) hraw
  exact (e3 (by rw [hst]; exact hpress)).2.2 hpress

theorem is_measured_ms_of_le (p r : Nat) (hpr : p ≤ r) (hr : r < U64) :
    measured_ms r p = ((r - p) / 10000) % U32 := by
  have h : TICKS_PER_MS = 10000 := by decide
  rw [measured_ms, sub64_of_le r p hpr hr, h]

theorem is_measured_ms_of_lt (p r : Nat) (hrp : r < p) (hp : p < U64) :
    measured_ms r p = ((U64 + r - p) / 10000) % U32 := by
  have h : TICKS_PER_MS = 10000 := by decide
  rw [measured_ms, sub64_of_lt r p hrp hp, h]

theorem raw_level_le_one (i : Fin 4) (port : Nat) : raw_level i port ≤ 1 :=
  Nat.and_le_right

/-- What each outcome of `btn_event` says about the update of the button. -/
theorem btn_event_spec (now raw : Nat) (b : btn_state_t) :
    (btn_event now raw b = none → (btn_update now raw b).stable = b.stable) ∧
    (btn_event now raw b = some Edge.Pressed →
      raw ≠ 0 ∧ raw ≠ b.stable ∧ raw = b.last_raw ∧ (btn_update now raw b).stable = raw ∧
      (btn_update now raw b).t_press = now ∧ (btn_update now raw b).waiting_release = 1) ∧
    (btn_event now raw b = some Edge.Released →
      raw = 0 ∧ raw ≠ b.stable ∧ raw = b.last_raw ∧ (btn_update now raw b).stable = raw ∧
      (btn_update now raw b).waiting_release = 0) := by
  have hd : ¬ (sub64 now now ≥ DEBOUNCE_TICKS) := by
    rw [sub64_self, DEBOUNCE_TICKS_eq]; decide
  by_cases hraw : raw ≠ b.last_raw
  · simp only [btn_event, btn_update, if_pos hraw, if_neg hd]
    simp
  · have hraw2 : raw = b.last_raw := not_not.mp hraw
    simp only [btn_event, btn_update, if_neg hraw]
    split_ifs <;> simp_all

theorem btn_event_of_raw_change (now raw : Nat) (b : btn_state_t) (h : raw ≠ b.last_raw) :
    btn_event now raw b = none := by
  have hd : ¬ (sub64 now now ≥ DEBOUNCE_TICKS) := by
    rw [sub64_self, DEBOUNCE_TICKS_eq]; decide
  simp only [btn_event, if_pos h, if_neg hd]

theorem events_alternate (i : Fin 4) (samples : List (Nat × Nat)) :
    ∀ s : State, (s.btn i).stable ≤ 1 →
      alternates (if (s.btn i).stable = 0 then Edge.Pressed else Edge.Released)
        (events i s samples) := by
  induction samples with
  | nil => intro s _; exact trivial
  | cons x xs ih =>
    intro s hs
    have hr := raw_level_le_one i x.2
    obtain ⟨e1, e2, e3⟩ := btn_event_spec x.1 (raw_level i x.2) (s.btn i)
    have hnext := ih (main_loop s x.1 x.2)
    rw [main_loop_btn] at hnext
    simp only [events]
    cases hev : btn_event x.1 (raw_level i x.2) (s.btn i) with
    | none =>
      have h := e1 hev
      rw [h] at hnext
      simpa using hnext hs
    | some e =>
      cases e with
      | Pressed =>
        obtain ⟨a1, a2, _, a4, _⟩ := e2 hev
        have hraw1 : raw_level i x.2 = 1 := by omega
        have hst0 : (s.btn i).stable = 0 := by omega
        rw [a4, hraw1] at hnext
        have := hnext (le_refl 1)
        simp only [Option.toList, List.singleton_append, alternates, hst0, if_true]
        exact ⟨trivial, by simpa [Edge.other] using this⟩
      | Released =>
        obtain ⟨a1, a2, _, a4, _⟩ := e3 hev
        have hst1 : (s.btn i).stable ≠ 0 := by omega
        rw [a4, a1] at hnext
        have := hnext (Nat.zero_le 1)
        simp only [Option.toList, List.singleton_append, alternates, hst1, if_false]
        exact ⟨trivial, by simpa [Edge.other] using this⟩

theorem events_length_le (i : Fin 4) (samples : List (Nat × Nat)) :
    ∀ s : State, (events i s samples).length ≤ samples.length := by
  induction samples with
  | nil => intro s; exact le_refl 0
  | cons x xs ih =>
    intro s
    have h := ih (main_loop s x.1 x.2)
    simp only [events, List.length_append, List.length_cons]
    cases btn_event x.1 (raw_level i x.2) (s.btn i) <;> simp [Option.toList] <;> omega

theorem btn_update_eq_reference (now raw : Nat) (b : btn_state_t) (hraw : raw ≤ 1) :
    (btn_update now raw b, btn_event now raw b) = debounce_reference_clearing now raw b := by
  have hd : ¬ (sub64 now now ≥ DEBOUNCE_TICKS) := by
    rw [sub64_self, DEBOUNCE_TICKS_eq]; decide
  by_cases hne : raw ≠ b.last_raw
  · simp only [btn_update, btn_event, debounce_reference_clearing, if_pos hne, if_neg hd]
  · simp only [btn_update, btn_event, debounce_reference_clearing, if_neg hne]
    by_cases h1 : sub64 now b.last_change ≥ DEBOUNCE_TICKS
    · by_cases h2 : raw ≠ b.stable
      · have h12 : sub64 now b.last_change ≥ DEBOUNCE_TICKS ∧ raw ≠ b.stable := ⟨h1, h2⟩
        simp only [if_pos h1, if_pos h2, if_pos h12]
        by_cases h3 : raw = 1
        · have h4 : raw ≠ 0 := by omega
          simp only [if_pos h4, if_pos h3]
        · have h4 : ¬ raw ≠ 0 := by omega
          simp only [if_neg h4, if_neg h3]
          split_ifs <;> simp_all
      · have h12 : ¬ (sub64 now b.last_change ≥ DEBOUNCE_TICKS ∧ raw ≠ b.stable) :=
          fun h => h2 h.2
        simp only [if_pos h1, if_neg h2, if_neg h12]
    · have h12 : ¬ (sub64 now b.last_change ≥ DEBOUNCE_TICKS ∧ raw ≠ b.stable) :=
        fun h => h1 h.1
      simp only [if_neg h1, if_neg h12]

theorem reference_differs_only_in_waiting (now raw : Nat) (b : btn_state_t) :
    (debounce_reference now raw b).2 = (debounce_reference_clearing now raw b).2 ∧
    (debounce_reference now raw b).1.stable = (debounce_reference_clearing now raw b).1.stable ∧
    (debounce_reference now raw b).1.last_raw
      = (debounce_reference_clearing now raw b).1.last_raw ∧
    (debounce_reference now raw b).1.last_change
      = (debounce_reference_clearing now raw b).1.last_change ∧
    (debounce_reference now raw b).1.t_press
      = (debounce_reference_clearing now raw b).1.t_press := by
  simp only [debounce_reference, debounce_reference_clearing]
  split_ifs <;> simp

theorem pattern_field_testBit (pat i : Nat) :
    ((pat &&& 0xF) <<< 16).testBit i =
      (decide (16 ≤ i) && decide (i < 20) && pat.testBit (i - 16)) := by
  rw [Nat.testBit_shiftLeft, Nat.testBit_land]
  have h15 : (0xF : Nat) = 2 ^ 4 - 1 := by decide
  rw [h15, Nat.testBit_two_pow_sub_one]
  by_cases h1 : 16 ≤ i <;> by_cases h2 : i < 20
  · have : i - 16 < 4 := by omega
    simp [h1, h2, this]
  · have : ¬ i - 16 < 4 := by omega
    simp [h1, h2, this]
  · simp [h1]
  · simp [h1]

/-- The shadow value computed by `set_leds_pattern`. -/
theorem set_leds_pattern_shadow (pat : Nat) (s : State) :
    (set_leds_pattern pat s).gpio_out_shadow =
      (s.gpio_out_shadow &&& not32 0xF0000) ||| ((pat &&& 0xF) <<< 16) ∧
    (set_leds_pattern pat s).trace =
      s.trace ++ [Effect.gpio_write (set_leds_pattern pat s).gpio_out_shadow] :=
  ⟨rfl, rfl⟩

theorem set_leds_pattern_outside (pat : Nat) (s : State) (hs : s.gpio_out_shadow < U32)
    (i : Nat) (hi : outside_leds i) :
    (set_leds_pattern pat s).gpio_out_shadow.testBit i = s.gpio_out_shadow.testBit i := by
  rw [(set_leds_pattern_shadow pat s).1, Nat.testBit_lor, pattern_field_testBit,
    land_not_mask_outside _ i hs hi]
  rw [outside_leds_mask i hi, Bool.false_and, Bool.or_false]

theorem set_leds_pattern_field (pat : Nat) (s : State) :
    ((set_leds_pattern pat s).gpio_out_shadow >>> 16) &&& 0xF = pat &&& 0xF := by
  rw [(set_leds_pattern_shadow pat s).1]
  apply Nat.eq_of_testBit_eq
  intro j
  rw [Nat.testBit_land, Nat.testBit_shiftRight, Nat.testBit_lor, pattern_field_testBit,
    Nat.testBit_land, Nat.testBit_land, not_led_mask_testBit]
  have h15 : (0xF : Nat) = 2 ^ 4 - 1 := by decide
  rw [h15, Nat.testBit_two_pow_sub_one]
  by_cases hj : j < 4
  · have h1 : 16 ≤ 16 + j := by omega
    have h2 : 16 + j < 20 := by omega
    have h3 : 16 + j < 32 := by omega
    have h4 : 16 + j - 16 = j := by omega
    simp [hj, h1, h2, h3, h4]
  · simp [hj]

theorem btn_event_debounced (now raw : Nat) (b : btn_state_t) (h : btn_event now raw b ≠ none) :
    raw = b.last_raw ∧ sub64 now b.last_change ≥ DEBOUNCE_TICKS ∧ raw ≠ b.stable := by
  by_cases hraw : raw ≠ b.last_raw
  · exact absurd (btn_event_of_raw_change now raw b hraw) h
  · simp only [btn_event, if_neg hraw] at h
    refine ⟨not_not.mp hraw, ?_, ?_⟩
    · by_contra hd
      simp only [if_neg hd] at h
      exact h rfl
    · by_cases hs : raw ≠ b.stable
      · exact hs
      · exfalso
        simp only [if_neg hs, ite_self] at h
        exact h rfl

theorem leds_field_of_pattern (pat : Nat) (s : State) (hp : pat &&& 0xF = pat) :
    ((set_leds_pattern pat s).gpio_out_shadow >>> 16) &&& 0xF = pat := by
  rw [set_leds_pattern_field, hp]

/-- The body of the `for` loop on a committed release whose duration
qualifies. -/
theorem button_body_release_arm (now buttons : Nat) (i : Fin 4) (s : State)
    (hev : btn_event now ((buttons >>> i.val) &&& 0x1) (s.btn i) = some Edge.Released)
    (hw : (s.btn i).waiting_release ≠ 0)
    (hms : measured_ms now (s.btn i).t_press ≥ 1000) :
    (button_body now buttons i s).blink_active = true ∧
    (button_body now buttons i s).blink_source = i.val ∧
    (button_body now buttons i s).blink_last = now ∧
    ((button_body now buttons i s).gpio_out_shadow >>> 16) &&& 0xF = 0xF ∧
    (button_body now buttons i s).trace =
      s.trace ++ [Effect.printf_btn_ms i.val (measured_ms now (s.btn i).t_press)] ++
        [Effect.gpio_write (button_body now buttons i s).gpio_out_shadow] := by
  obtain ⟨hraw, hdeb, hne⟩ := btn_event_debounced now _ (s.btn i) (by rw [hev]; exact nofun)
  obtain ⟨hzero, _⟩ := (btn_event_spec now _ (s.btn i)).2.2 hev
  have c1 : ¬ ((buttons >>> i.val) &&& 0x1 ≠ (s.btn i).last_raw) := not_not.mpr hraw
  have c4 : ¬ ((buttons >>> i.val) &&& 0x1 ≠ 0) := not_not.mpr hzero
  have hb : button_body now buttons i s =
      { leds_on_all
          { s with
            btn := Function.update s.btn i
              { (s.btn i) with stable := (buttons >>> i.val) &&& 0x1, waiting_release := 0 }
            trace := s.trace ++
              [Effect.printf_btn_ms i.val (measured_ms now (s.btn i).t_press)] } with
        blink_active := true, blink_source := i.val, blink_last := now } := by
    simp only [button_body, if_neg c1, if_pos hdeb, if_pos hne, if_neg c4, if_pos hw,
      if_pos hms]
  rw [hb]
  refine ⟨rfl, rfl, rfl, ?_, rfl⟩
  exact leds_field_of_pattern 0xF _ (by decide)

theorem BLINK_PERIOD_TICKS_eq : BLINK_PERIOD_TICKS = 2500000 := by decide

theorem leds_toggle_all_shadow (s : State) :
    (leds_toggle_all s).gpio_out_shadow =
      (set_leds_pattern ((((s.gpio_out_shadow >>> 16) &&& 0xF) % 256) ^^^ 0xF) s).gpio_out_shadow ∧
    (leds_toggle_all s).trace = s.trace ++ [Effect.gpio_write (leds_toggle_all s).gpio_out_shadow] ∧
    (leds_toggle_all s).blink_last = s.blink_last ∧
    (leds_toggle_all s).blink_active = s.blink_active :=
  ⟨rfl, rfl, rfl, rfl⟩

theorem leds_toggle_all_field (s : State) :
    (((s.gpio_out_shadow >>> 16) &&& 0xF = 0xF) →
      ((leds_toggle_all s).gpio_out_shadow >>> 16) &&& 0xF = 0) ∧
    (((s.gpio_out_shadow >>> 16) &&& 0xF = 0) →
      ((leds_toggle_all s).gpio_out_shadow >>> 16) &&& 0xF = 0xF) := by
  constructor
  · intro h
    rw [(leds_toggle_all_shadow s).1, set_leds_pattern_field, h]
    decide
  · intro h
    rw [(leds_toggle_all_shadow s).1, set_leds_pattern_field, h]
    decide

/-- The blink block while blinking is armed. -/
theorem blink_toggle_armed (now : Nat) (s : State) (hact : s.blink_active = true) :
    (sub64 now s.blink_last ≥ 2500000 →
      blink_toggle now s = leds_toggle_all { s with blink_last := now }) ∧
    (sub64 now s.blink_last < 2500000 → blink_toggle now s = s) := by
  constructor
  · intro h
    have h2 : sub64 now s.blink_last ≥ BLINK_PERIOD_TICKS := by rw [BLINK_PERIOD_TICKS_eq]; exact h
    simp only [blink_toggle, if_pos hact, if_pos h2]
  · intro h
    have h2 : ¬ sub64 now s.blink_last ≥ BLINK_PERIOD_TICKS := by
      rw [BLINK_PERIOD_TICKS_eq]; omega
    simp only [blink_toggle, if_pos hact, if_neg h2]

/-- The body of the `for` loop on a committed press. -/
theorem button_body_pressed (now buttons : Nat) (i : Fin 4) (s : State)
    (hev : btn_event now ((buttons >>> i.val) &&& 0x1) (s.btn i) = some Edge.Pressed) :
    button_body now buttons i s =
      (if s.blink_active = true ∧ i.val ≠ s.blink_source then
        leds_off_all
          { s with
            btn := Function.update s.btn i
              { (s.btn i) with stable := (buttons >>> i.val) &&& 0x1, t_press := now,
                               waiting_release := 1 }
            blink_active := false }
      else
        { s with
          btn := Function.update s.btn i
            { (s.btn i) with stable := (buttons >>> i.val) &&& 0x1, t_press := now,
                             waiting_release := 1 } }) := by
  obtain ⟨hraw, hdeb, hne⟩ := btn_event_debounced now _ (s.btn i) (by rw [hev]; exact nofun)
  obtain ⟨hnz, _⟩ := (btn_event_spec now _ (s.btn i)).2.1 hev
  have c1 : ¬ ((buttons >>> i.val) &&& 0x1 ≠ (s.btn i).last_raw) := not_not.mpr hraw
  simp only [button_body, if_neg c1, if_pos hdeb, if_pos hne, if_pos hnz]

theorem read_buttons_eq (port : Nat) : read_buttons port = (port >>> 4) &&& 0xF := by
  have h : (port >>> 4) &&& 0xF ≤ 0xF := Nat.and_le_right
  show ((port >>> 4) &&& 0xF) % 256 = _
  omega

theorem read_buttons_testBit (port j : Nat) :
    (read_buttons port).testBit j = (port.testBit (4 + j) && decide (j < 4)) := by
  rw [read_buttons_eq, Nat.testBit_land, Nat.testBit_shiftRight]
  have h15 : (0xF : Nat) = 2 ^ 4 - 1 := by decide
  rw [h15, Nat.testBit_two_pow_sub_one]

theorem btn_update_waiting (now raw : Nat) (b : btn_state_t) (hraw : raw ≤ 1)
    (h : b.waiting_release = b.stable ∧ b.stable ≤ 1) :
    (btn_update now raw b).waiting_release = (btn_update now raw b).stable ∧
    (btn_update now raw b).stable ≤ 1 := by
  have he := congrArg Prod.fst (btn_update_eq_reference now raw b hraw)
  simp only at he
  rw [he]
  obtain ⟨h1, h2⟩ := h
  simp only [debounce_reference_clearing]
  split_ifs with c1 c2 c3
  · exact ⟨h1, h2⟩
  · exact ⟨c3.symm, hraw⟩
  · have : raw = 0 := by omega
    exact ⟨this.symm, hraw⟩
  · exact ⟨h1, h2⟩

theorem waiting_inv_run (r0 : Nat) (i : Fin 4) (pre : List (Nat × Nat)) :
    ((run (main_init r0) pre).btn i).waiting_release = ((run (main_init r0) pre).btn i).stable ∧
    ((run (main_init r0) pre).btn i).stable ≤ 1 := by
  induction pre using List.reverseRecOn with
  | nil => exact ⟨rfl, Nat.zero_le 1⟩
  | append_singleton l x ih =>
    rw [run_snoc, main_loop_btn]
    exact btn_update_waiting x.1 (raw_level i x.2) _ (raw_level_le_one i x.2) ih

theorem events_snoc (i : Fin 4) (pre : List (Nat × Nat)) (x : Nat × Nat) :
    ∀ s : State, events i s (pre ++ [x]) =
      events i s pre ++ (btn_event x.1 (raw_level i x.2) ((run s pre).btn i)).toList := by
  induction pre with
  | nil =>
    intro s
    show (btn_event x.1 (raw_level i x.2) (s.btn i)).toList ++ [] =
      [] ++ (btn_event x.1 (raw_level i x.2) (s.btn i)).toList
    rw [List.append_nil, List.nil_append]
  | cons y ys ih =>
    intro s
    show (btn_event y.1 (raw_level i y.2) (s.btn i)).toList ++
        events i (main_loop s y.1 y.2) (ys ++ [x]) =
      ((btn_event y.1 (raw_level i y.2) (s.btn i)).toList ++ events i (main_loop s y.1 y.2) ys) ++
        (btn_event x.1 (raw_level i x.2) ((run (main_loop s y.1 y.2) ys).btn i)).toList
    rw [ih (main_loop s y.1 y.2), List.append_assoc]

/-- A button whose stable level is 1 has had a `Pressed` event. -/
theorem pressed_of_stable (r0 : Nat) (i : Fin 4) (pre : List (Nat × Nat)) :
    ((run (main_init r0) pre).btn i).stable ≠ 0 →
      Edge.Pressed ∈ events i (main_init r0) pre := by
  induction pre using List.reverseRecOn with
  | nil => intro h; exact absurd rfl h
  | append_singleton l x ih =>
    intro h
    rw [run_snoc, main_loop_btn] at h
    rw [events_snoc]
    obtain ⟨e1, _, e3⟩ := btn_event_spec x.1 (raw_level i x.2) ((run (main_init r0) l).btn i)
    cases hev : btn_event x.1 (raw_level i x.2) ((run (main_init r0) l).btn i) with
    | none =>
      rw [e1 hev] at h
      exact List.mem_append_left _ (ih h)
    | some e =>
      cases e with
      | Pressed => exact List.mem_append_right _ (List.mem_singleton.mpr rfl)
      | Released =>
        obtain ⟨a1, _, _, a4, _⟩ := e3 hev
        rw [a4] at h
        exact absurd a1 h

/-- State of a button that is held from the first sample at tick `t0` on, while
fewer than `DEBOUNCE_TICKS` ticks have passed: no event yet. -/
theorem held_pending (r0 : Nat) (i : Fin 4) (t0 p0 : Nat) (mid : List (Nat × Nat))
    (h0 : raw_level i p0 = 1)
    (hmid : ∀ z ∈ mid, raw_level i z.2 = 1 ∧ sub64 z.1 t0 < DEBOUNCE_TICKS) :
    ((run (main_init r0) ((t0, p0) :: mid)).btn i).last_raw = 1 ∧
    ((run (main_init r0) ((t0, p0) :: mid)).btn i).last_change = t0 ∧
    ((run (main_init r0) ((t0, p0) :: mid)).btn i).stable = 0 ∧
    events i (main_init r0) ((t0, p0) :: mid) = [] := by
  induction mid using List.reverseRecOn with
  | nil =>
    have hb : (run (main_init r0) [(t0, p0)]).btn i =
        { stable := 0, last_raw := 1, last_change := t0, waiting_release := 0, t_press := 0 } := by
      show (main_loop (main_init r0) t0 p0).btn i = _
      rw [main_loop_btn, h0]
      show btn_update t0 1
        { stable := 0, last_raw := 0, last_change := 0, waiting_release := 0, t_press := 0 } = _
      have hlt : ¬ sub64 t0 t0 ≥ DEBOUNCE_TICKS := by
        rw [sub64_self, DEBOUNCE_TICKS_eq]; decide
      simp only [btn_update, if_pos Nat.one_ne_zero, if_neg hlt]
    refine ⟨by rw [hb], by rw [hb], by rw [hb], ?_⟩
    show (btn_event t0 (raw_level i p0) ((main_init r0).btn i)).toList ++ [] = []
    rw [List.append_nil, h0, btn_event_of_raw_change t0 1 _ Nat.one_ne_zero]
    rfl
  | append_singleton l x ih =>
    obtain ⟨hx1, hx2⟩ := hmid x (List.mem_append_right _ (List.mem_singleton.mpr rfl))
    obtain ⟨i1, i2, i3, i4⟩ := ih (fun z hz => hmid z (List.mem_append_left _ hz))
    have hcons : (t0, p0) :: (l ++ [x]) = ((t0, p0) :: l) ++ [x] := rfl
    rw [hcons, run_snoc, main_loop_btn, events_snoc, i4, hx1]
    have hlt : ¬ sub64 x.1 ((run (main_init r0) ((t0, p0) :: l)).btn i).last_change
        ≥ DEBOUNCE_TICKS := by
      rw [i2]; exact Nat.not_le.mpr hx2
    have hraw : ¬ (1 ≠ ((run (main_init r0) ((t0, p0) :: l)).btn i).last_raw) := by
      rw [i1]; exact fun h => h rfl
    have hu : btn_update x.1 1 ((run (main_init r0) ((t0, p0) :: l)).btn i) =
        (run (main_init r0) ((t0, p0) :: l)).btn i := by
      simp only [btn_update, if_neg hraw, if_neg hlt]
    have he : btn_event x.1 1 ((run (main_init r0) ((t0, p0) :: l)).btn i) = none := by
      simp only [btn_event, if_neg hraw, if_neg hlt]
    rw [hu, he]
    exact ⟨i1, i2, i3, rfl⟩

/-- The first sample in which a button held from the first sample on has been
stable for `DEBOUNCE_TICKS` gives a `Pressed` event. -/
theorem held_commits (r0 : Nat) (i : Fin 4) (t0 p0 : Nat) (mid : List (Nat × Nat))
    (now port : Nat) (h0 : raw_level i p0 = 1)
    (hmid : ∀ z ∈ mid, raw_level i z.2 = 1 ∧ sub64 z.1 t0 < DEBOUNCE_TICKS)
    (hp : raw_level i port = 1) (hnow : sub64 now t0 ≥ DEBOUNCE_TICKS) :
    events i (main_init r0) (((t0, p0) :: mid) ++ [(now, port)]) = [Edge.Pressed] := by
  obtain ⟨i1, i2, i3, i4⟩ := held_pending r0 i t0 p0 mid h0 hmid
  rw [events_snoc, i4]
  show [] ++ (btn_event now (raw_level i port) _).toList = _
  rw [hp, List.nil_append]
  have hge : sub64 now ((run (main_init r0) ((t0, p0) :: mid)).btn i).last_change
      ≥ DEBOUNCE_TICKS := by
    rw [i2]; exact hnow
  have hraw : ¬ (1 ≠ ((run (main_init r0) ((t0, p0) :: mid)).btn i).last_raw) := by
    rw [i1]; exact fun h => h rfl
  have hst : 1 ≠ ((run (main_init r0) ((t0, p0) :: mid)).btn i).stable := by
    rw [i3]; exact Nat.one_ne_zero
  have he : btn_event now 1 ((run (main_init r0) ((t0, p0) :: mid)).btn i)
      = some Edge.Pressed := by
    simp only [btn_event, if_neg hraw, if_pos hge, if_pos hst]
    rfl
  rw [he]
  rfl

theorem button_body_btn_other (now buttons : Nat) (i j : Fin 4) (s : State) (h : j ≠ i) :
    (button_body now buttons j s).btn i = s.btn i := by
  rw [button_body_btn]
  exact Function.update_noteq (Ne.symm h) _ _

theorem set_leds_pattern_lt (pat : Nat) (s : State) (hs : s.gpio_out_shadow < U32) :
    (set_leds_pattern pat s).gpio_out_shadow < U32 := by
  rw [(set_leds_pattern_shadow pat s).1]
  have h32 : U32 = 2 ^ 32 := by decide
  have h1 : s.gpio_out_shadow &&& not32 0xF0000 < 2 ^ 32 := by
    rw [← h32]; exact land_not_mask_lt _ hs
  have h2 : (pat &&& 0xF) <<< 16 < 2 ^ 32 := by
    have : pat &&& 0xF ≤ 0xF := Nat.and_le_right
    rw [Nat.shiftLeft_eq]
    omega
  rw [h32]
  exact Nat.or_lt_two_pow h1 h2

theorem set_leds_pattern_inside (pat : Nat) (s : State) (i : Nat) (h1 : 16 ≤ i) (h2 : i < 20) :
    (set_leds_pattern pat s).gpio_out_shadow.testBit i = pat.testBit (i - 16) := by
  rw [(set_leds_pattern_shadow pat s).1, Nat.testBit_lor, pattern_field_testBit,
    Nat.testBit_land, not_led_mask_testBit]
  simp [h1, h2]

theorem toggle_pattern_testBit (x j : Nat) (hj : j < 4) :
    ((((x >>> 16) &&& 0xF) % 256) ^^^ 0xF).testBit j = !x.testBit (16 + j) := by
  have hle : (x >>> 16) &&& 0xF ≤ 0xF := Nat.and_le_right
  have hm : ((x >>> 16) &&& 0xF) % 256 = (x >>> 16) &&& 0xF := by omega
  have h15 : (0xF : Nat) = 2 ^ 4 - 1 := by decide
  rw [hm, Nat.testBit_xor, Nat.testBit_land, Nat.testBit_shiftRight, h15,
    Nat.testBit_two_pow_sub_one]
  simp [hj]

theorem leds_toggle_all_testBit (s : State) (hs : s.gpio_out_shadow < U32) (i : Nat) :
    (leds_toggle_all s).gpio_out_shadow.testBit i =
      (if 16 ≤ i ∧ i < 20 then !s.gpio_out_shadow.testBit i else s.gpio_out_shadow.testBit i) := by
  rw [(leds_toggle_all_shadow s).1]
  by_cases h : 16 ≤ i ∧ i < 20
  · rw [if_pos h, set_leds_pattern_inside _ s i h.1 h.2,
      toggle_pattern_testBit _ (i - 16) (by omega)]
    have : 16 + (i - 16) = i := by omega
    rw [this]
  · rw [if_neg h]
    exact set_leds_pattern_outside _ s hs i (by unfold outside_leds; omega)

theorem leds_toggle_all_lt (s : State) (hs : s.gpio_out_shadow < U32) :
    (leds_toggle_all s).gpio_out_shadow < U32 := by
  rw [(leds_toggle_all_shadow s).1]
  exact set_leds_pattern_lt _ s hs

theorem leds_toggle_all_involution (s : State) (hs : s.gpio_out_shadow < U32) :
    (leds_toggle_all (leds_toggle_all s)).gpio_out_shadow = s.gpio_out_shadow := by
  apply Nat.eq_of_testBit_eq
  intro i
  rw [leds_toggle_all_testBit _ (leds_toggle_all_lt s hs), leds_toggle_all_testBit s hs]
  split_ifs
  · exact Bool.not_not _
  · rfl

theorem led_inv_init (r0 : Nat) : LedFieldInv (main_init r0) := by
  have h : ((main_init r0).gpio_out_shadow >>> 16) &&& 0xF = 0 :=
    leds_field_of_pattern 0 _ (by decide)
  exact ⟨Or.inl h, fun _ => h⟩

/-- What the body of the `for` loop can do to the shadow and to
`blink_active`: nothing, all LEDs off with the blinking stopped, or all LEDs on
with the blinking armed. -/
theorem button_body_led_cases (now buttons : Nat) (i : Fin 4) (s : State) :
    ((button_body now buttons i s).gpio_out_shadow = s.gpio_out_shadow ∧
      (button_body now buttons i s).blink_active = s.blink_active) ∨
    ((button_body now buttons i s).gpio_out_shadow = (set_leds_pattern 0x0 s).gpio_out_shadow ∧
      (button_body now buttons i s).blink_active = false) ∨
    ((button_body now buttons i s).gpio_out_shadow = (set_leds_pattern 0xF s).gpio_out_shadow ∧
      (button_body now buttons i s).blink_active = true) := by
  simp only [button_body]
  split_ifs
  all_goals first
    | exact Or.inl ⟨rfl, rfl⟩
    | exact Or.inr (Or.inl ⟨rfl, rfl⟩)
    | exact Or.inr (Or.inr ⟨rfl, rfl⟩)

theorem led_inv_button_body (now buttons : Nat) (i : Fin 4) (s : State) (h : LedFieldInv s) :
    LedFieldInv (button_body now buttons i s) := by
  obtain ⟨h1, h2⟩ := h
  rcases button_body_led_cases now buttons i s with ⟨e1, e2⟩ | ⟨e1, e2⟩ | ⟨e1, e2⟩
  · unfold LedFieldInv
    rw [e1, e2]
    exact ⟨h1, h2⟩
  · have hz : ((button_body now buttons i s).gpio_out_shadow >>> 16) &&& 0xF = 0 := by
      rw [e1]; exact leds_field_of_pattern 0 s (by decide)
    exact ⟨Or.inl hz, fun _ => hz⟩
  · have hf : ((button_body now buttons i s).gpio_out_shadow >>> 16) &&& 0xF = 0xF := by
      rw [e1]; exact leds_field_of_pattern 0xF s (by decide)
    refine ⟨Or.inr hf, fun hc => ?_⟩
    rw [e2] at hc
    exact Bool.noConfusion hc

theorem led_inv_blink_toggle (now : Nat) (s : State) (h : LedFieldInv s) :
    LedFieldInv (blink_toggle now s) := by
  obtain ⟨h1, h2⟩ := h
  simp only [blink_toggle]
  split_ifs with ha hd
  · obtain ⟨f1, f2⟩ := leds_toggle_all_field { s with blink_last := now }
    have hact : (leds_toggle_all { s with blink_last := now }).blink_active = true := ha
    refine ⟨?_, fun hc => ?_⟩
    · rcases h1 with h0 | hF
      · exact Or.inr (f2 h0)
      · exact Or.inl (f1 hF)
    · rw [hact] at hc
      exact Bool.noConfusion hc
  · exact ⟨h1, h2⟩
  · exact ⟨h1, h2⟩

theorem led_inv_main_loop (s : State) (now port : Nat) (h : LedFieldInv s) :
    LedFieldInv (main_loop s now port) := by
  unfold main_loop
  exact led_inv_blink_toggle _ _ (led_inv_button_body _ _ _ _ (led_inv_button_body _ _ _ _
    (led_inv_button_body _ _ _ _ (led_inv_button_body _ _ _ _ h))))

theorem led_inv_run (r0 : Nat) (pre : List (Nat × Nat)) :
    LedFieldInv (run (main_init r0) pre) := by
  induction pre using List.reverseRecOn with
  | nil => exact led_inv_init r0
  | append_singleton l x ih =>
    rw [run_snoc]
    exact led_inv_main_loop _ _ _ ih

end InicialSuperloop

/-! ## Lemmas on the interrupt-driven variants -/

namespace FinalInterrupt

/-- Lines 118-154: edges of button 0, on the state and the sampled level. -/
theorem fi_release (s : State) (pins ms_read : Nat)
    (hprev : s.btn0_prev = 1) (hpin : pins &&& PBT_0_MASK = 0) (hm : s.measuring = 1)
    (hrd : ms_read < U32) :
    (main_loop s pins ms_read).t_end_ms = ms_read ∧
    (main_loop s pins ms_read).t_start_ms = s.t_start_ms ∧
    (main_loop s pins ms_read).elapsed_ms =
      (if ms_read ≥ s.t_start_ms then ms_read - s.t_start_ms else 0) ∧
    reports (main_loop s pins ms_read).trace =
      reports s.trace ++ [(main_loop s pins ms_read).elapsed_ms] := by
  have h1 : ¬ (s.btn0_prev = 0 ∧ (if pins &&& PBT_0_MASK ≠ 0 then 1 else 0) = 1) := by
    rw [hprev]; exact fun h => absurd h.1 Nat.one_ne_zero
  have h2 : s.btn0_prev = 1 ∧ (if pins &&& PBT_0_MASK ≠ 0 then 1 else 0) = 0 := by
    refine ⟨hprev, ?_⟩
    rw [if_neg (not_not.mpr hpin)]
  simp only [main_loop, if_neg h1, if_pos h2, if_pos hm]
  by_cases hge : ms_read ≥ s.t_start_ms
  · simp only [if_pos hge, sub32_of_le ms_read s.t_start_ms hge hrd]
    split_ifs <;> simp [reports_append, reports]
  · simp only [if_neg hge]
    split_ifs <;> simp [reports_append, reports]

/-- One invocation of the handler while blinking, with the accumulator below
the half period. -/
theorem timer_handler_blinking (s : State) (hb : s.blinking ≠ 0) (ha : s.blink_accum < 500) :
    (timer_handler s).blinking = s.blinking ∧
    (timer_handler s).blink_accum = (s.blink_accum + 1) % 500 ∧
    (timer_handler s).led_out =
      (if s.blink_accum + 1 = 500 then s.led_out ^^^ LED_MASK else s.led_out) ∧
    (timer_handler s).trace =
      (if s.blink_accum + 1 = 500 then
        s.trace ++ [Effect.gpio_write (s.led_out ^^^ LED_MASK)] else s.trace) := by
  have hmod : (s.blink_accum + MS_PER_TICK) % U32 = s.blink_accum + 1 := by
    unfold MS_PER_TICK U32; omega
  have hhalf : BLINK_HALF_MS = 500 := rfl
  by_cases h5 : s.blink_accum + 1 = 500
  · have hge : s.blink_accum + 1 ≥ 500 := by omega
    have hm : (s.blink_accum + 1) % 500 = 0 := by omega
    by_cases hc : s.counter ≠ 0
    · simp only [timer_handler, if_pos hc, if_pos hb, hmod, hhalf, if_pos hge, if_pos h5, hm,
        and_self]
    · simp only [timer_handler, if_neg hc, if_pos hb, hmod, hhalf, if_pos hge, if_pos h5, hm,
        and_self]
  · have hge : ¬ s.blink_accum + 1 ≥ 500 := by omega
    have hm : (s.blink_accum + 1) % 500 = s.blink_accum + 1 := by omega
    by_cases hc : s.counter ≠ 0
    · simp only [timer_handler, if_pos hc, if_pos hb, hmod, hhalf, if_neg hge, if_neg h5, hm,
        and_self]
    · simp only [timer_handler, if_neg hc, if_pos hb, hmod, hhalf, if_neg hge, if_neg h5, hm,
        and_self]

theorem iterate_succ (f : State → State) (n : Nat) (s : State) :
    Nat.iterate f (n + 1) s = f (Nat.iterate f n s) :=
  Function.iterate_succ_apply' f n s

theorem timer_handler_iterate (s : State) (hb : s.blinking = 1) (ha : s.blink_accum = 0)
    (n : Nat) :
    (Nat.iterate timer_handler n s).blinking = 1 ∧
    (Nat.iterate timer_handler n s).blink_accum = n % 500 ∧
    (Nat.iterate timer_handler n s).led_out =
      (if (n / 500) % 2 = 0 then s.led_out else s.led_out ^^^ LED_MASK) := by
  induction n with
  | zero => exact ⟨hb, ha, rfl⟩
  | succ k ih =>
    obtain ⟨i1, i2, i3⟩ := ih
    obtain ⟨e1, e2, e3, _⟩ := timer_handler_blinking (Nat.iterate timer_handler k s)
      (by rw [i1]; exact Nat.one_ne_zero) (by rw [i2]; exact Nat.mod_lt k (by decide))
    rw [iterate_succ]
    refine ⟨e1.trans i1, ?_, ?_⟩
    · rw [e2, i2]; omega
    · rw [e3, i2, i3]
      by_cases h5 : k % 500 + 1 = 500
      · rw [if_pos h5]
        have hq : (k + 1) / 500 = k / 500 + 1 := by omega
        rw [hq]
        by_cases hpar : (k / 500) % 2 = 0
        · have : ¬ (k / 500 + 1) % 2 = 0 := by omega
          rw [if_pos hpar, if_neg this]
        · have : (k / 500 + 1) % 2 = 0 := by omega
          rw [if_neg hpar, if_pos this, Nat.xor_cancel_right]
      · rw [if_neg h5]
        have hq : (k + 1) / 500 = k / 500 := by omega
        rw [hq]

theorem timer_handler_iterate_trace (s : State) (hb : s.blinking = 1) (ha : s.blink_accum = 0)
    (n : Nat) :
    (Nat.iterate timer_handler (n + 1) s).trace =
      (if (n + 1) % 500 = 0 then
        (Nat.iterate timer_handler n s).trace ++
          [Effect.gpio_write (Nat.iterate timer_handler (n + 1) s).led_out]
      else (Nat.iterate timer_handler n s).trace) := by
  obtain ⟨i1, i2, _⟩ := timer_handler_iterate s hb ha n
  obtain ⟨_, _, e3, e4⟩ := timer_handler_blinking (Nat.iterate timer_handler n s)
    (by rw [i1]; exact Nat.one_ne_zero) (by rw [i2]; exact Nat.mod_lt n (by decide))
  rw [iterate_succ, e4, e3, i2]
  by_cases h5 : n % 500 + 1 = 500
  · have : (n + 1) % 500 = 0 := by omega
    rw [if_pos h5, if_pos this, if_pos h5]
  · have : ¬ (n + 1) % 500 = 0 := by omega
    rw [if_neg h5, if_neg this]

theorem timer_handler_iterate_writes (s : State) (hb : s.blinking = 1) (ha : s.blink_accum = 0)
    (n : Nat) :
    (writes (Nat.iterate timer_handler n s).trace).length =
      (writes s.trace).length + n / 500 := by
  induction n with
  | zero => rfl
  | succ k ih =>
    rw [timer_handler_iterate_trace s hb ha k]
    by_cases h5 : (k + 1) % 500 = 0
    · rw [if_pos h5, writes_append, List.length_append, ih]
      have : (k + 1) / 500 = k / 500 + 1 := by omega
      rw [this]
      rfl
    · rw [if_neg h5, ih]
      have : (k + 1) / 500 = k / 500 := by omega
      rw [this]

theorem exec_append (s : State) (l1 l2 : List Step) :
    exec s (l1 ++ l2) = exec (exec s l1) l2 := List.foldl_append _ _ _ _

theorem exec_irqs (n : Nat) : ∀ s : State,
    exec s (List.replicate n Step.irq) = Nat.iterate timer_handler n s := by
  induction n with
  | zero => intro s; rfl
  | succ k ih =>
    intro s
    show exec (timer_handler s) (List.replicate k Step.irq) = _
    rw [ih]
    rfl

theorem irqs_append (l1 l2 : List Step) : irqs (l1 ++ l2) = irqs l1 + irqs l2 := by
  induction l1 with
  | nil => simp [irqs]
  | cons x r ih =>
    cases x with
    | irq =>
      show irqs (r ++ l2) + 1 = irqs r + 1 + irqs l2
      rw [ih]; omega
    | loop p m => exact ih

theorem irqs_replicate (n : Nat) : irqs (List.replicate n Step.irq) = n := by
  induction n with
  | zero => rfl
  | succ k ih => simp only [List.replicate_succ, irqs, ih]

theorem stays_blinking_append (l1 l2 : List Step) : ∀ s : State,
    (StaysBlinking s (l1 ++ l2) ↔ StaysBlinking s l1 ∧ StaysBlinking (exec s l1) l2) := by
  induction l1 with
  | nil => intro s; exact ⟨fun h => ⟨trivial, h⟩, fun h => h.2⟩
  | cons x r ih =>
    intro s
    show ((step s x).blinking = 1 ∧ StaysBlinking (step s x) (r ++ l2)) ↔
      ((step s x).blinking = 1 ∧ StaysBlinking (step s x) r) ∧ StaysBlinking (exec (step s x) r) l2
    rw [ih (step s x), and_assoc]

theorem no_rearm_append (l1 l2 : List Step) : ∀ s : State,
    (NoRearm s (l1 ++ l2) ↔ NoRearm s l1 ∧ NoRearm (exec s l1) l2) := by
  induction l1 with
  | nil => intro s; exact ⟨fun h => ⟨trivial, h⟩, fun h => h.2⟩
  | cons x r ih =>
    intro s
    show (_ ∧ NoRearm (step s x) (r ++ l2)) ↔
      (_ ∧ NoRearm (step s x) r) ∧ NoRearm (exec (step s x) r) l2
    rw [ih (step s x), and_assoc]

theorem timer_handler_keeps_blinking (s : State) : (timer_handler s).blinking = s.blinking := by
  simp only [timer_handler]
  split_ifs <;> rfl

theorem stays_blinking_irqs (n : Nat) : ∀ s : State, s.blinking = 1 →
    StaysBlinking s (List.replicate n Step.irq) := by
  induction n with
  | zero => intro s _; trivial
  | succ k ih =>
    intro s h
    have h1 : (timer_handler s).blinking = 1 := (timer_handler_keeps_blinking s).trans h
    exact ⟨h1, ih (timer_handler s) h1⟩

theorem no_rearm_irqs (n : Nat) : ∀ s : State, NoRearm s (List.replicate n Step.irq) := by
  induction n with
  | zero => intro s; trivial
  | succ k ih => intro s; exact ⟨trivial, ih (timer_handler s)⟩


theorem timer_handler_frame (s : State) :
    (timer_handler s).btn0_prev = s.btn0_prev ∧ (timer_handler s).btn1_prev = s.btn1_prev ∧
    (timer_handler s).measuring = s.measuring ∧ (timer_handler s).t_start_ms = s.t_start_ms ∧
    (timer_handler s).ms_now = (s.ms_now + 1) % U32 := by
  simp only [timer_handler]
  split_ifs <;> exact ⟨rfl, rfl, rfl, rfl, rfl⟩

theorem iterate_frame (n : Nat) (s : State) (hms : s.ms_now < U32) :
    (Nat.iterate timer_handler n s).btn0_prev = s.btn0_prev ∧
    (Nat.iterate timer_handler n s).btn1_prev = s.btn1_prev ∧
    (Nat.iterate timer_handler n s).measuring = s.measuring ∧
    (Nat.iterate timer_handler n s).t_start_ms = s.t_start_ms ∧
    (Nat.iterate timer_handler n s).blinking = s.blinking ∧
    (Nat.iterate timer_handler n s).ms_now = (s.ms_now + n) % U32 := by
  induction n with
  | zero => exact ⟨rfl, rfl, rfl, rfl, rfl, (Nat.mod_eq_of_lt hms).symm⟩
  | succ k ih =>
    obtain ⟨f1, f2, f3, f4, f5⟩ := timer_handler_frame (Nat.iterate timer_handler k s)
    have f6 := timer_handler_keeps_blinking (Nat.iterate timer_handler k s)
    obtain ⟨i1, i2, i3, i4, i5, i6⟩ := ih
    rw [iterate_succ]
    refine ⟨f1.trans i1, f2.trans i2, f3.trans i3, f4.trans i4, f6.trans i5, ?_⟩
    rw [f5, i6]; unfold U32; omega

/-- The loop body is the two button blocks followed by the update of the
remembered levels. -/
theorem main_loop_blocks (s : State) (pins ms_read : Nat) :
    main_loop s pins ms_read =
      { btn1_block (btn0_block s (if pins &&& PBT_0_MASK ≠ 0 then 1 else 0) ms_read)
          (if pins &&& PBT_1_MASK ≠ 0 then 1 else 0) with
        btn0_prev := if pins &&& PBT_0_MASK ≠ 0 then 1 else 0
        btn1_prev := if pins &&& PBT_1_MASK ≠ 0 then 1 else 0 } := rfl

/-- The handling of button 0, by cases. -/
theorem btn0_block_eq (s : State) (b0 ms_read : Nat) :
    btn0_block s b0 ms_read =
      if s.btn0_prev = 0 ∧ b0 = 1 then { s with measuring := 1, t_start_ms := ms_read }
      else if s.btn0_prev = 1 ∧ b0 = 0 ∧ s.measuring = 1 then
        if (if ms_read ≥ s.t_start_ms then sub32 ms_read s.t_start_ms else 0) ≥ 1000 then
          { s with
            measuring := 0, t_end_ms := ms_read
            elapsed_ms := (if ms_read ≥ s.t_start_ms then sub32 ms_read s.t_start_ms else 0)
            blinking := 1, blink_accum := 0, led_out := LED_MASK
            trace := s.trace ++
              [Effect.printf_ms
                (if ms_read ≥ s.t_start_ms then sub32 ms_read s.t_start_ms else 0)] ++
              [Effect.gpio_write LED_MASK] }
        else
          { s with
            measuring := 0, t_end_ms := ms_read
            elapsed_ms := (if ms_read ≥ s.t_start_ms then sub32 ms_read s.t_start_ms else 0)
            trace := s.trace ++
              [Effect.printf_ms
                (if ms_read ≥ s.t_start_ms then sub32 ms_read s.t_start_ms else 0)] }
      else s := by
  by_cases c1 : s.btn0_prev = 0 ∧ b0 = 1
  · simp only [btn0_block, if_pos c1]
  · by_cases c2 : s.btn0_prev = 1 ∧ b0 = 0
    · by_cases c3 : s.measuring = 1
      · have c23 : s.btn0_prev = 1 ∧ b0 = 0 ∧ s.measuring = 1 := ⟨c2.1, c2.2, c3⟩
        by_cases hge : ms_read ≥ s.t_start_ms
        · by_cases h1000 : sub32 ms_read s.t_start_ms ≥ 1000
          · simp only [btn0_block, if_neg c1, if_pos c2, if_pos c3, if_pos c23, if_pos hge,
              if_pos h1000]
          · simp only [btn0_block, if_neg c1, if_pos c2, if_pos c3, if_pos c23, if_pos hge,
              if_neg h1000]
        · have h1000 : ¬ (0 ≥ 1000) := by decide
          simp only [btn0_block, if_neg c1, if_pos c2, if_pos c3, if_pos c23, if_neg hge,
            if_neg h1000]
      · have c23 : ¬ (s.btn0_prev = 1 ∧ b0 = 0 ∧ s.measuring = 1) := fun h => c3 h.2.2
        simp only [btn0_block, if_neg c1, if_pos c2, if_neg c3, if_neg c23]
    · have c23 : ¬ (s.btn0_prev = 1 ∧ b0 = 0 ∧ s.measuring = 1) := fun h => c2 ⟨h.1, h.2.1⟩
      simp only [btn0_block, if_neg c1, if_neg c2, if_neg c23]

theorem btn1_block_stays (t : State) (b1 : Nat) (hb : t.blinking = 1)
    (hs : (btn1_block t b1).blinking = 1) : btn1_block t b1 = t := by
  by_cases d1 : t.btn1_prev = 0 ∧ b1 = 1
  · have e : (btn1_block t b1).blinking = 0 := by
      simp only [btn1_block, if_pos d1, if_pos hb]
    rw [e] at hs
    exact absurd hs Nat.zero_ne_one
  · simp only [btn1_block, if_neg d1]

theorem btn0_block_quiet (s : State) (b0 ms_read : Nat) (hb : s.blinking = 1)
    (hn : ¬ (s.btn0_prev = 1 ∧ b0 = 0 ∧ s.measuring = 1 ∧
      (if ms_read ≥ s.t_start_ms then sub32 ms_read s.t_start_ms else 0) ≥ 1000)) :
    (btn0_block s b0 ms_read).blinking = 1 ∧
    (btn0_block s b0 ms_read).blink_accum = s.blink_accum ∧
    (btn0_block s b0 ms_read).led_out = s.led_out ∧
    writes (btn0_block s b0 ms_read).trace = writes s.trace := by
  rw [btn0_block_eq]
  by_cases c1 : s.btn0_prev = 0 ∧ b0 = 1
  · rw [if_pos c1]; exact ⟨hb, rfl, rfl, rfl⟩
  · rw [if_neg c1]
    by_cases c2 : s.btn0_prev = 1 ∧ b0 = 0 ∧ s.measuring = 1
    · have c3 : ¬ (if ms_read ≥ s.t_start_ms then sub32 ms_read s.t_start_ms else 0) ≥ 1000 :=
        fun h => hn ⟨c2.1, c2.2.1, c2.2.2, h⟩
      rw [if_pos c2, if_neg c3]
      refine ⟨hb, rfl, rfl, ?_⟩
      show writes (s.trace ++ _) = _
      rw [writes_append]
      exact List.append_nil _
    · rw [if_neg c2]; exact ⟨hb, rfl, rfl, rfl⟩

theorem btn1_block_low (t : State) : btn1_block t 0 = t := by
  have d1 : ¬ (t.btn1_prev = 0 ∧ 0 = 1) := fun h => absurd h.2 Nat.zero_ne_one
  simp only [btn1_block, if_neg d1]

theorem level_eq_zero (x : Nat) : (if x ≠ 0 then 1 else 0) = 0 ↔ x = 0 := by
  by_cases h : x = 0
  · simp [h]
  · simp [h]

/-- A rising edge of button 0 with button 1 low: lines 119-121. -/
theorem loop_press (s : State) (pins ms_read : Nat) (h0 : s.btn0_prev = 0)
    (hp : pins &&& PBT_0_MASK ≠ 0) (hq : pins &&& PBT_1_MASK = 0) :
    main_loop s pins ms_read =
      { s with measuring := 1, t_start_ms := ms_read, btn0_prev := 1, btn1_prev := 0 } := by
  have c1 : s.btn0_prev = 0 ∧ 1 = 1 := ⟨h0, rfl⟩
  rw [main_loop_blocks, if_pos hp, if_neg (not_not.mpr hq), btn1_block_low, btn0_block_eq,
    if_pos c1]

/-- An iteration that runs the arming statements, with button 1 low: lines
124-149. -/
theorem loop_arm (s : State) (pins ms_read : Nat) (ha : arms s pins ms_read)
    (hq : pins &&& PBT_1_MASK = 0) :
    main_loop s pins ms_read =
      { s with
        measuring := 0, t_end_ms := ms_read
        elapsed_ms := (if ms_read ≥ s.t_start_ms then sub32 ms_read s.t_start_ms else 0)
        blinking := 1, blink_accum := 0, led_out := LED_MASK
        trace := s.trace ++
          [Effect.printf_ms (if ms_read ≥ s.t_start_ms then sub32 ms_read s.t_start_ms else 0)] ++
          [Effect.gpio_write LED_MASK]
        btn0_prev := 0, btn1_prev := 0 } := by
  obtain ⟨a1, a2, a3, a4⟩ := ha
  have c1 : ¬ (s.btn0_prev = 0 ∧ 0 = 1) := fun h => absurd h.2 Nat.zero_ne_one
  have c2 : s.btn0_prev = 1 ∧ 0 = 0 ∧ s.measuring = 1 := ⟨a1, rfl, a3⟩
  rw [main_loop_blocks, if_neg (not_not.mpr a2), if_neg (not_not.mpr hq), btn1_block_low,
    btn0_block_eq, if_neg c1, if_pos c2, if_pos a4]

/-- An iteration that does not run the arming statements and after which
`blinking` is still 1 leaves the blink state and the port alone. -/
theorem loop_quiet (s : State) (pins ms_read : Nat) (hb : s.blinking = 1)
    (hn : ¬ arms s pins ms_read) (hs : (main_loop s pins ms_read).blinking = 1) :
    (main_loop s pins ms_read).blink_accum = s.blink_accum ∧
    (main_loop s pins ms_read).led_out = s.led_out ∧
    writes (main_loop s pins ms_read).trace = writes s.trace := by
  have h0 := btn0_block_quiet s (if pins &&& PBT_0_MASK ≠ 0 then 1 else 0) ms_read hb
    (fun h => hn ⟨h.1, (level_eq_zero _).mp h.2.1, h.2.2.1, h.2.2.2⟩)
  have hs1 : (btn1_block (btn0_block s (if pins &&& PBT_0_MASK ≠ 0 then 1 else 0) ms_read)
      (if pins &&& PBT_1_MASK ≠ 0 then 1 else 0)).blinking = 1 := hs
  have e := btn1_block_stays _ _ h0.1 hs1
  rw [main_loop_blocks, e]
  exact h0.2

/-- An iteration that runs the arming statements and after which `blinking` is
1 restarts the blink state and writes the port. -/
theorem loop_arm_restarts (s : State) (pins ms_read : Nat) (ha : arms s pins ms_read)
    (hs : (main_loop s pins ms_read).blinking = 1) :
    (main_loop s pins ms_read).blink_accum = 0 ∧
    (main_loop s pins ms_read).led_out = LED_MASK ∧
    writes (main_loop s pins ms_read).trace = writes s.trace ++ [LED_MASK] := by
  obtain ⟨a1, a2, a3, a4⟩ := ha
  have c1 : ¬ (s.btn0_prev = 0 ∧ (if pins &&& PBT_0_MASK ≠ 0 then 1 else 0) = 1) := by
    rw [a1]; exact fun h => absurd h.1 Nat.one_ne_zero
  have c2 : s.btn0_prev = 1 ∧ (if pins &&& PBT_0_MASK ≠ 0 then 1 else 0) = 0 ∧ s.measuring = 1 :=
    ⟨a1, (level_eq_zero _).mpr a2, a3⟩
  have h0 : (btn0_block s (if pins &&& PBT_0_MASK ≠ 0 then 1 else 0) ms_read).blinking = 1 ∧
      (btn0_block s (if pins &&& PBT_0_MASK ≠ 0 then 1 else 0) ms_read).blink_accum = 0 ∧
      (btn0_block s (if pins &&& PBT_0_MASK ≠ 0 then 1 else 0) ms_read).led_out = LED_MASK ∧
      writes (btn0_block s (if pins &&& PBT_0_MASK ≠ 0 then 1 else 0) ms_read).trace
        = writes s.trace ++ [LED_MASK] := by
    rw [btn0_block_eq, if_neg c1, if_pos c2, if_pos a4]
    refine ⟨rfl, rfl, rfl, ?_⟩
    show writes (s.trace ++ _ ++ _) = _
    rw [writes_append, writes_append]
    exact congrArg (fun l => l ++ [LED_MASK]) (List.append_nil _)
  have hs1 : (btn1_block (btn0_block s (if pins &&& PBT_0_MASK ≠ 0 then 1 else 0) ms_read)
      (if pins &&& PBT_1_MASK ≠ 0 then 1 else 0)).blinking = 1 := hs
  have e := btn1_block_stays _ _ h0.1 hs1
  rw [main_loop_blocks, e]
  exact h0.2

theorem exec_snoc (s : State) (l : List Step) (x : Step) :
    exec s (l ++ [x]) = step (exec s l) x := by
  rw [exec_append]; rfl

/-- Blink state along a schedule in which `blinking` stays 1 and no iteration
runs the arming statements. -/
theorem exec_undisturbed (s : State) (hb : s.blinking = 1) (ha : s.blink_accum = 0)
    (sched : List Step) :
    StaysBlinking s sched → NoRearm s sched →
    (exec s sched).blinking = 1 ∧
    (exec s sched).blink_accum = irqs sched % 500 ∧
    (exec s sched).led_out =
      (if (irqs sched / 500) % 2 = 0 then s.led_out else s.led_out ^^^ LED_MASK) ∧
    (writes (exec s sched).trace).length = (writes s.trace).length + irqs sched / 500 := by
  induction sched using List.reverseRecOn with
  | nil => intro _ _; exact ⟨hb, ha, rfl, rfl⟩
  | append_singleton l x ih =>
    intro h1 h2
    obtain ⟨h1a, h1b⟩ := (stays_blinking_append l [x] s).mp h1
    obtain ⟨h2a, h2b⟩ := (no_rearm_append l [x] s).mp h2
    obtain ⟨i1, i2, i3, i4⟩ := ih h1a h2a
    rw [exec_snoc, irqs_append]
    cases x with
    | irq =>
      obtain ⟨e1, e2, e3, e4⟩ := timer_handler_blinking (exec s l)
        (by rw [i1]; exact Nat.one_ne_zero) (by rw [i2]; exact Nat.mod_lt _ (by decide))
      show (timer_handler (exec s l)).blinking = 1 ∧
        (timer_handler (exec s l)).blink_accum = (irqs l + 1) % 500 ∧
        (timer_handler (exec s l)).led_out =
          (if ((irqs l + 1) / 500) % 2 = 0 then s.led_out else s.led_out ^^^ LED_MASK) ∧
        (writes (timer_handler (exec s l)).trace).length =
          (writes s.trace).length + (irqs l + 1) / 500
      rw [e1, e2, e3, e4, i1, i2, i3]
      refine ⟨rfl, by omega, ?_, ?_⟩
      · by_cases h5 : irqs l % 500 + 1 = 500
        · rw [if_pos h5]
          have hq : (irqs l + 1) / 500 = irqs l / 500 + 1 := by omega
          rw [hq]
          by_cases hpar : (irqs l / 500) % 2 = 0
          · have : ¬ (irqs l / 500 + 1) % 2 = 0 := by omega
            rw [if_pos hpar, if_neg this]
          · have : (irqs l / 500 + 1) % 2 = 0 := by omega
            rw [if_neg hpar, if_pos this, Nat.xor_cancel_right]
        · rw [if_neg h5]
          have hq : (irqs l + 1) / 500 = irqs l / 500 := by omega
          rw [hq]
      · by_cases h5 : irqs l % 500 + 1 = 500
        · rw [if_pos h5, writes_append, List.length_append, i4]
          have hq : (irqs l + 1) / 500 = irqs l / 500 + 1 := by omega
          rw [hq]
          rfl
        · rw [if_neg h5, i4]
          have hq : (irqs l + 1) / 500 = irqs l / 500 := by omega
          rw [hq]
    | loop p m =>
      obtain ⟨q1, q2, q3⟩ := loop_quiet (exec s l) p m i1 h2b.1 h1b.1
      show (main_loop (exec s l) p m).blinking = 1 ∧
        (main_loop (exec s l) p m).blink_accum = (irqs l + 0) % 500 ∧
        (main_loop (exec s l) p m).led_out =
          (if ((irqs l + 0) / 500) % 2 = 0 then s.led_out else s.led_out ^^^ LED_MASK) ∧
        (writes (main_loop (exec s l) p m).trace).length =
          (writes s.trace).length + (irqs l + 0) / 500
      rw [q1, q2, q3, Nat.add_zero]
      exact ⟨h1b.1, i2, i3, i4⟩

/-- A press of button 0 of at least 1000 ms, with button 1 low, arms the
blinking, whatever the blink state before. -/
theorem press_release_arms (s : State) (n1 m1 n2 m2 : Nat)
    (hms : s.ms_now < U32) (h0 : s.btn0_prev = 0) (hm : m2 ≥ m1) (he : sub32 m2 m1 ≥ 1000) :
    (exec s (List.replicate n1 Step.irq)).ms_now = (s.ms_now + n1) % U32 ∧
    (exec s (press_schedule n1 m1 n2)).ms_now = ((s.ms_now + n1) % U32 + n2) % U32 ∧
    (exec s (press_release_schedule n1 m1 n2 m2)).ms_now
      = ((s.ms_now + n1) % U32 + n2) % U32 ∧
    (exec s (press_release_schedule n1 m1 n2 m2)).blinking = 1 ∧
    (exec s (press_release_schedule n1 m1 n2 m2)).blink_accum = 0 ∧
    (exec s (press_release_schedule n1 m1 n2 m2)).led_out = LED_MASK ∧
    (exec s (press_release_schedule n1 m1 n2 m2)).btn0_prev = 0 ∧
    (exec s (press_release_schedule n1 m1 n2 m2)).trace =
      (exec s (press_schedule n1 m1 n2)).trace ++
        [Effect.printf_ms (sub32 m2 m1)] ++ [Effect.gpio_write LED_MASK] ∧
    (s.blinking = 1 → StaysBlinking s (press_release_schedule n1 m1 n2 m2)) := by
  -- after the first interrupts
  obtain ⟨a1, _, _, _, a5, a6⟩ := iterate_frame n1 s hms
  have hA : exec s (List.replicate n1 Step.irq) = Nat.iterate timer_handler n1 s := exec_irqs n1 s
  -- the iteration that sees the press
  have hP : main_loop (Nat.iterate timer_handler n1 s) 0x10 m1 =
      { (Nat.iterate timer_handler n1 s) with
        measuring := 1, t_start_ms := m1, btn0_prev := 1, btn1_prev := 0 } :=
    loop_press _ 0x10 m1 (a1.trans h0) (by decide) (by decide)
  have hPms : (main_loop (Nat.iterate timer_handler n1 s) 0x10 m1).ms_now < U32 := by
    rw [hP]
    show (Nat.iterate timer_handler n1 s).ms_now < U32
    rw [a6]; exact Nat.mod_lt _ (by decide)
  -- the interrupts while the button is held
  obtain ⟨b1, _, b3, b4, b5, b6⟩ :=
    iterate_frame n2 (main_loop (Nat.iterate timer_handler n1 s) 0x10 m1) hPms
  have hB : exec s (press_schedule n1 m1 n2) =
      Nat.iterate timer_handler n2 (main_loop (Nat.iterate timer_handler n1 s) 0x10 m1) := by
    unfold press_schedule
    rw [exec_append, exec_snoc, hA, exec_irqs]
    rfl
  have hb1 : (exec s (press_schedule n1 m1 n2)).btn0_prev = 1 := by rw [hB, b1, hP]
  have hb3 : (exec s (press_schedule n1 m1 n2)).measuring = 1 := by rw [hB, b3, hP]
  have hb4 : (exec s (press_schedule n1 m1 n2)).t_start_ms = m1 := by rw [hB, b4, hP]
  have hb5 : (exec s (press_schedule n1 m1 n2)).blinking = s.blinking := by
    rw [hB, b5, hP]; exact a5
  have hb6 : (exec s (press_schedule n1 m1 n2)).ms_now = ((s.ms_now + n1) % U32 + n2) % U32 := by
    rw [hB, b6, hP]
    show ((Nat.iterate timer_handler n1 s).ms_now + n2) % U32 = _
    rw [a6]
  -- the iteration that sees the release
  have harm : arms (exec s (press_schedule n1 m1 n2)) 0x00 m2 := by
    refine ⟨hb1, by decide, hb3, ?_⟩
    rw [hb4, if_pos hm]; exact he
  have hR := loop_arm _ 0x00 m2 harm (by decide)
  rw [hb4, if_pos hm] at hR
  have hC : exec s (press_release_schedule n1 m1 n2 m2) =
      main_loop (exec s (press_schedule n1 m1 n2)) 0x00 m2 := by
    unfold press_release_schedule
    rw [exec_snoc]; rfl
  refine ⟨by rw [hA, a6], hb6, by rw [hC, hR]; exact hb6, by rw [hC, hR], by rw [hC, hR],
    by rw [hC, hR], by rw [hC, hR], by rw [hC, hR], ?_⟩
  intro hbl
  unfold press_release_schedule press_schedule
  rw [stays_blinking_append, stays_blinking_append, stays_blinking_append]
  refine ⟨⟨⟨stays_blinking_irqs n1 s hbl, ?_, trivial⟩, ?_⟩, ?_, trivial⟩
  · show (main_loop (exec s (List.replicate n1 Step.irq)) 0x10 m1).blinking = 1
    rw [hA, hP]
    exact a5.trans hbl
  · apply stays_blinking_irqs
    rw [exec_snoc, hA]
    show (main_loop (Nat.iterate timer_handler n1 s) 0x10 m1).blinking = 1
    rw [hP]
    exact a5.trans hbl
  · show (main_loop (exec s (List.replicate n1 Step.irq ++ [Step.loop 0x10 m1] ++
      List.replicate n2 Step.irq)) 0x00 m2).blinking = 1
    have := hR
    unfold press_schedule at this
    rw [this]

end FinalInterrupt

namespace DiffAccountInterrupt

theorem elapsed_ms_eq (start_cnt end_cnt : Nat) (hs : start_cnt < U64) :
    elapsed_ms start_cnt end_cnt =
      (if start_cnt ≥ end_cnt then start_cnt - end_cnt else 0) := by
  unfold elapsed_ms
  split_ifs with h
  · exact sub64_of_le start_cnt end_cnt h hs
  · rfl

theorem btn1_logic_frame (p c : Nat) (s : State) :
    (btn1_logic p c s).start_cnt = s.start_cnt ∧ (btn1_logic p c s).end_cnt = s.end_cnt ∧
    reports (btn1_logic p c s).trace = reports s.trace := by
  simp only [btn1_logic]
  split_ifs <;> simp [reports_append, reports]

theorem blink_logic_frame (c : CounterReads) (s : State) :
    (blink_logic c s).start_cnt = s.start_cnt ∧ (blink_logic c s).end_cnt = s.end_cnt ∧
    reports (blink_logic c s).trace = reports s.trace := by
  simp only [blink_logic]
  split_ifs <;> simp [reports_append, reports]

theorem da_release (s : State) (cur_gpio : Nat) (c : CounterReads)
    (hprev : s.prev_btn0 ≠ 0) (hpin : cur_gpio &&& PBT_0_MASK = 0) (hm : s.measuring ≠ 0) :
    (main_loop s cur_gpio c).end_cnt = c.at_release ∧
    (main_loop s cur_gpio c).start_cnt = s.start_cnt ∧
    reports (main_loop s cur_gpio c).trace =
      reports s.trace ++ [elapsed_ms s.start_cnt c.at_release % U32] := by
  have h1 : ¬ (s.prev_btn0 = 0 ∧ (if cur_gpio &&& PBT_0_MASK ≠ 0 then 1 else 0) ≠ 0) :=
    fun h => hprev h.1
  have h2 : s.prev_btn0 ≠ 0 ∧ (if cur_gpio &&& PBT_0_MASK ≠ 0 then 1 else 0) = 0 := by
    refine ⟨hprev, ?_⟩
    rw [if_neg (not_not.mpr hpin)]
  have hb : (btn0_logic s.prev_btn0 (if cur_gpio &&& PBT_0_MASK ≠ 0 then 1 else 0) c s).end_cnt
        = c.at_release ∧
      (btn0_logic s.prev_btn0 (if cur_gpio &&& PBT_0_MASK ≠ 0 then 1 else 0) c s).start_cnt
        = s.start_cnt ∧
      reports (btn0_logic s.prev_btn0 (if cur_gpio &&& PBT_0_MASK ≠ 0 then 1 else 0) c s).trace
        = reports s.trace ++ [elapsed_ms s.start_cnt c.at_release % U32] := by
    simp only [btn0_logic, if_neg h1, if_pos h2, if_pos hm]
    split_ifs <;> simp [reports_append, reports]
  show (blink_logic c (btn1_logic _ _ (btn0_logic _ _ c s))).end_cnt = _ ∧
    (blink_logic c (btn1_logic _ _ (btn0_logic _ _ c s))).start_cnt = _ ∧
    reports (blink_logic c (btn1_logic _ _ (btn0_logic _ _ c s))).trace = _
  rw [(blink_logic_frame _ _).1, (blink_logic_frame _ _).2.1, (blink_logic_frame _ _).2.2,
    (btn1_logic_frame _ _ _).1, (btn1_logic_frame _ _ _).2.1, (btn1_logic_frame _ _ _).2.2]
  exact hb

theorem da_timer_handler_eq (c : Nat) : timer_handler c = c - 1 := by
  unfold timer_handler
  split_ifs <;> omega

theorem da_timer_iterate (c n : Nat) : Nat.iterate timer_handler n c = c - n := by
  induction n with
  | zero => rfl
  | succ k ih =>
    rw [Function.iterate_succ_apply', ih, da_timer_handler_eq]
    omega

theorem leds_inv_init (r0 : Nat) : LedsInv (main_init r0) :=
  ⟨rfl, Nat.zero_le 1, fun _ => Nat.zero_and _⟩

theorem leds_inv_btn0_logic (p cur : Nat) (c : CounterReads) (s : State) (h : LedsInv s) :
    LedsInv (btn0_logic p cur c s) := by
  obtain ⟨h1, h2, h3⟩ := h
  simp only [btn0_logic]
  split_ifs
  · exact ⟨h1, h2, h3⟩
  · exact ⟨rfl, le_refl 1, fun h0 => absurd h0 Nat.one_ne_zero⟩
  · exact ⟨h1, h2, h3⟩
  · exact ⟨h1, h2, h3⟩
  · exact ⟨h1, h2, h3⟩

theorem leds_inv_btn1_logic (p cur : Nat) (s : State) (h : LedsInv s) :
    LedsInv (btn1_logic p cur s) := by
  obtain ⟨h1, h2, h3⟩ := h
  simp only [btn1_logic]
  split_ifs
  · exact ⟨rfl, Nat.zero_le 1, fun _ => Nat.zero_and _⟩
  · exact ⟨h1, h2, h3⟩
  · exact ⟨h1, h2, h3⟩

/-- With the invariant, the non-blinking branch of the blink handling does
nothing. -/
theorem blink_logic_not_blinking (c : CounterReads) (s : State) (h : LedsInv s)
    (hb : s.blinking = 0) : blink_logic c s = s := by
  obtain ⟨h1, _, h3⟩ := h
  have c1 : ¬ s.blinking ≠ 0 := not_not.mpr hb
  have c2 : ¬ s.leds_on ≠ 0 := by rw [h1]; exact c1
  have c3 : ¬ s.led_output &&& LED_MASK ≠ 0 := not_not.mpr (h3 hb)
  simp only [blink_logic, if_neg c1, if_neg c2, if_neg c3]

theorem blink_logic_flags (c : CounterReads) (s : State) (hb : s.blinking ≠ 0) :
    (blink_logic c s).blinking = s.blinking ∧ (blink_logic c s).leds_on = s.leds_on := by
  simp only [blink_logic, if_pos hb]
  split_ifs <;> exact ⟨rfl, rfl⟩

theorem leds_inv_blink_logic (c : CounterReads) (s : State) (h : LedsInv s) :
    LedsInv (blink_logic c s) := by
  by_cases hb : s.blinking = 0
  · rw [blink_logic_not_blinking c s h hb]; exact h
  · obtain ⟨h1, h2, _⟩ := h
    obtain ⟨e1, e2⟩ := blink_logic_flags c s hb
    refine ⟨by rw [e1, e2]; exact h1, by rw [e1]; exact h2, fun h0 => ?_⟩
    rw [e1] at h0
    exact absurd h0 hb

theorem leds_inv_main_loop (s : State) (cur_gpio : Nat) (c : CounterReads) (h : LedsInv s) :
    LedsInv (main_loop s cur_gpio c) := by
  have h3 := leds_inv_blink_logic c _ (leds_inv_btn1_logic
    (btn0_logic s.prev_btn0 (if cur_gpio &&& PBT_0_MASK ≠ 0 then 1 else 0) c s).prev_btn1
    (if cur_gpio &&& PBT_1_MASK ≠ 0 then 1 else 0) _
    (leds_inv_btn0_logic s.prev_btn0 (if cur_gpio &&& PBT_0_MASK ≠ 0 then 1 else 0) c s h))
  exact h3

theorem leds_inv_of_reachable (s : State) (h : Reachable s) : LedsInv s := by
  induction h with
  | init r0 _ => exact leds_inv_init r0
  | step s cur_gpio c _ _ ih => exact leds_inv_main_loop s cur_gpio c ih

end DiffAccountInterrupt

/-! ## Lemmas on the other variants -/

namespace DiffAccountSuperloop

/-- The iteration that handles the falling edge of button 0. -/
theorem das_release (s : State) (now_ticks buttons : Nat)
    (hedge : buttons &&& PBT_0_MASK = 0 ∧ s.button0_prev ≠ 0) :
    (main_loop s now_ticks buttons).elapsed_ms = sub64 now_ticks s.press_ticks / 10000 ∧
    (main_loop s now_ticks buttons).blinking =
      (if sub64 now_ticks s.press_ticks / 10000 > 1000 then 1 else s.blinking) ∧
    (main_loop s now_ticks buttons).trace =
      s.trace ++ [Effect.printf_ms (sub64 now_ticks s.press_ticks / 10000)] := by
  have h1 : ¬ (buttons &&& PBT_0_MASK ≠ 0 ∧ s.button0_prev = 0) := fun h => h.1 hedge.1
  have ht : TICKS_PER_MS = 10000 := rfl
  have ho : ONE_SECOND_MS = 1000 := rfl
  simp only [main_loop, if_neg h1, if_pos hedge, release_branch, ht, ho]
  split_ifs <;> exact ⟨rfl, rfl, rfl⟩

end DiffAccountSuperloop

namespace ChatgptSuperloop

/-- The button-0 block on a falling edge. -/
theorem cgs_release (s : State) (pbt0_now now : Nat) (hz : pbt0_now = 0)
    (hlast : s.pbt0_last ≠ 0) :
    (btn0_logic pbt0_now now s).blink_en =
      (if measured_ms now s.t_start > 1000 then 1 else s.blink_en) ∧
    (btn0_logic pbt0_now now s).trace =
      s.trace ++ [Effect.printf_ms (measured_ms now s.t_start)] := by
  have h1 : ¬ (pbt0_now ≠ 0 ∧ s.pbt0_last = 0) := fun h => h.1 hz
  have h2 : pbt0_now = 0 ∧ s.pbt0_last ≠ 0 := ⟨hz, hlast⟩
  by_cases hms : measured_ms now s.t_start > 1000
  · simp only [btn0_logic, if_neg h1, if_pos h2, if_pos hms, and_self]
  · simp only [btn0_logic, if_neg h1, if_pos h2, if_neg hms, and_self]

theorem cgs_btn1_idle (current_gpio : Nat) (s : State) (h : current_gpio &&& PBT_1_MASK = 0) :
    btn1_logic current_gpio s = s := by
  simp only [btn1_logic, if_neg (not_not.mpr h)]

theorem cgs_blink_frame (now : Nat) (s : State) :
    (blink_logic now s).blink_en = s.blink_en ∧
    reports (blink_logic now s).trace = reports s.trace := by
  simp only [blink_logic]
  split_ifs <;> simp [reports_append, reports]

theorem cgs_main_loop_release (s : State) (now current_gpio : Nat)
    (hcur : current_gpio &&& PBT_0_MASK = 0) (hlast : s.pbt0_last ≠ 0)
    (hb1 : current_gpio &&& PBT_1_MASK = 0) :
    (main_loop s now current_gpio).blink_en =
      (if measured_ms now s.t_start > 1000 then 1 else s.blink_en) ∧
    reports (main_loop s now current_gpio).trace =
      reports s.trace ++ [measured_ms now s.t_start] := by
  have hp : (if current_gpio &&& PBT_0_MASK ≠ 0 then 1 else 0 : Nat) = 0 :=
    if_neg (not_not.mpr hcur)
  obtain ⟨e1, e2⟩ := cgs_release s _ now hp hlast
  show (blink_logic now (btn1_logic current_gpio (btn0_logic _ now s))).blink_en = _ ∧
    reports (blink_logic now (btn1_logic current_gpio (btn0_logic _ now s))).trace = _
  rw [(cgs_blink_frame _ _).1, (cgs_blink_frame _ _).2, cgs_btn1_idle _ _ hb1, e1, e2,
    reports_append]
  exact ⟨rfl, rfl⟩

end ChatgptSuperloop

namespace ChatgptInterrupt

theorem cgi_btn0_release (gpio : Nat) (t : TickReads) (s : State)
    (hedge : gpio &&& PBT_0_MASK = 0 ∧ s.btn0_prev ≠ 0)
    (hms : sub32 t.at_release s.press_time ≥ 1000) :
    btn0_logic gpio t s =
      { s with
        trace := s.trace ++ [Effect.printf_ms (sub32 t.at_release s.press_time)]
        leds_on := 1, blinking := 1, blink_timer := t.at_arm, btn0_prev := 0 } := by
  have h1 : ¬ (gpio &&& PBT_0_MASK ≠ 0 ∧ s.btn0_prev = 0) := fun h => h.1 hedge.1
  simp only [btn0_logic, if_neg h1, if_pos hedge, if_pos hms]

theorem cgi_blink_writes (t : TickReads) (s : State) (hl : s.leds_on ≠ 0) :
    ∃ k, writes (blink_logic t s).trace = writes s.trace ++ List.replicate k 0 := by
  simp only [blink_logic, if_pos hl]
  split_ifs
  · exact ⟨1, by simp [writes_append, writes]⟩
  · exact ⟨0, by simp⟩
  · exact ⟨0, by simp⟩

theorem cgi_btn1_writes (gpio : Nat) (s : State) :
    ∃ k, writes (btn1_logic gpio s).trace = writes s.trace ++ List.replicate k 0 := by
  simp only [btn1_logic]
  split_ifs
  · exact ⟨1, by simp [writes_append, writes]⟩
  · exact ⟨0, by simp⟩
  · exact ⟨0, by simp⟩

/-- In the iteration that arms the blinking, whatever the values read from
`ms_ticks`, the only value that can be written to the port is 0. -/
theorem cgi_arm_writes (s : State) (gpio : Nat) (t : TickReads)
    (hedge : gpio &&& PBT_0_MASK = 0 ∧ s.btn0_prev ≠ 0)
    (hms : sub32 t.at_release s.press_time ≥ 1000) :
    ∃ k, writes (main_loop s gpio t).trace = writes s.trace ++ List.replicate k 0 := by
  have hb := cgi_btn0_release gpio t s hedge hms
  obtain ⟨k1, h1⟩ := cgi_blink_writes t (btn0_logic gpio t s)
    (by rw [hb]; exact Nat.one_ne_zero)
  obtain ⟨k2, h2⟩ := cgi_btn1_writes gpio (blink_logic t (btn0_logic gpio t s))
  refine ⟨k1 + k2, ?_⟩
  show writes (btn1_logic gpio (blink_logic t (btn0_logic gpio t s))).trace = _
  rw [h2, h1, hb]
  have hp : writes [Effect.printf_ms (sub32 t.at_release s.press_time)] = [] := rfl
  show writes (s.trace ++ [Effect.printf_ms (sub32 t.at_release s.press_time)]) ++
    List.replicate k1 0 ++ List.replicate k2 0 = _
  rw [writes_append, hp, List.append_nil, List.append_assoc, List.replicate_add]

end ChatgptInterrupt

/-! ## The claims -/

set_option maxRecDepth 100000

namespace InicialSuperloop

/-- C1: in `main_inicial_superloop`, for every start value of the port, every
sequence `pre ++ [x]` of samples `(now, port)` with non-decreasing ticks and
every button `i`, if the iteration on `x` changes `btn[i].stable`, then the
new stable value is the raw level sampled by that iteration, the samples
already taken split as `l1 ++ y :: l2` where `y` is the sample whose tick is
stored in `btn[i].last_change` and every sample from `y` on has the raw level
of button `i` equal to the new stable value, `last_change + DEBOUNCE_TICKS` is
at most the tick of the committing iteration, and on a press `t_press` is the
tick of the committing iteration. -/
theorem stable_changes_only_after_debounce (r0 : Nat) (pre : List (Nat × Nat)) (x : Nat × Nat)
    (i : Fin 4) (hmono : List.Pairwise (fun a b => a.1 ≤ b.1) (pre ++ [x])) (hx : x.1 < U64)
    (hchg : ((main_loop (run (main_init r0) pre) x.1 x.2).btn i).stable ≠
      ((run (main_init r0) pre).btn i).stable) :
    ((main_loop (run (main_init r0) pre) x.1 x.2).btn i).stable = raw_level i x.2 ∧
    (∃ l1 y l2, pre = l1 ++ y :: l2 ∧
      y.1 = ((main_loop (run (main_init r0) pre) x.1 x.2).btn i).last_change ∧
      ∀ z ∈ y :: l2,
        raw_level i z.2 = ((main_loop (run (main_init r0) pre) x.1 x.2).btn i).stable) ∧
    ((main_loop (run (main_init r0) pre) x.1 x.2).btn i).last_change + DEBOUNCE_TICKS ≤ x.1 ∧
    (((main_loop (run (main_init r0) pre) x.1 x.2).btn i).stable = 1 →
      ((main_loop (run (main_init r0) pre) x.1 x.2).btn i).t_press = x.1) := by
  have hinv := debounce_inv_run r0 i pre
  rw [main_loop_btn] at hchg ⊢
  generalize (run (main_init r0) pre).btn i = b at hinv hchg ⊢
  by_cases hraw : raw_level i x.2 = b.last_raw
  · obtain ⟨e1, e2, e3⟩ := btn_update_same x.1 (raw_level i x.2) b hraw
    obtain ⟨hdeb, hst, hpress⟩ := e3 hchg
    rcases hinv with ⟨h1, h2, _⟩ | ⟨l1, y, l2, hpre, hy, hall⟩
    · exfalso
      rw [hst, hraw, h1, h2] at hchg
      exact hchg rfl
    · have hyx : y.1 ≤ x.1 := by
        rw [List.pairwise_append] at hmono
        exact hmono.2.2 y (by rw [hpre]; simp) x (List.mem_singleton_self x)
      refine ⟨hst, ⟨l1, y, l2, hpre, by rw [e2]; exact hy, ?_⟩, ?_, ?_⟩
      · intro z hz
        rw [hst, hraw]
        exact hall z hz
      · rw [e2, ← hy]
        rw [← hy, sub64_of_le x.1 y.1 hyx hx] at hdeb
        rw [DEBOUNCE_TICKS_eq] at hdeb ⊢; omega
      · intro h1
        exact (hpress (by rw [h1]; exact Nat.one_ne_zero)).1
  · exact absurd (btn_update_change x.1 (raw_level i x.2) b hraw).2.2 hchg

/-- Witness for C1: button 0 goes high at tick 0 and is still high at tick
200000, where the press is committed. -/
theorem stable_changes_only_after_debounce_witness :
    ((main_loop (run (main_init 0) [(0, 0x10)]) 200000 0x10).btn 0).stable = 1 ∧
    ((main_loop (run (main_init 0) [(0, 0x10)]) 200000 0x10).btn 0).last_change
      + DEBOUNCE_TICKS ≤ 200000 ∧
    ((main_loop (run (main_init 0) [(0, 0x10)]) 200000 0x10).btn 0).t_press = 200000 :=
  have h := stable_changes_only_after_debounce 0 [(0, 0x10)] (200000, 0x10) 0
    (by decide) (by decide) (by decide)
  ⟨by decide, h.2.2.1, h.2.2.2 (by decide)⟩

end InicialSuperloop

/-- C2, as stated, fails: a press recorded at tick `p` and released at tick
`r = p + 2^32 * 10000` is reported as 0 ms by both super-loops, while
`(r - p) / 10000` is `2^32`. -/
theorem reported_duration_counterexample :
    reports (FinalSuperloop.run (FinalSuperloop.main_init 0 0)
      [(0, 0x10), (42949672960000, 0)]).trace = [0] ∧
    (FinalSuperloop.run (FinalSuperloop.main_init 0 0) [(0, 0x10)]).t_press = 0 ∧
    (42949672960000 - 0) / 10000 = 4294967296 ∧
    reports (InicialSuperloop.run (InicialSuperloop.main_init 0)
      [(0, 0x10), (200000, 0x10), (300000, 0), (42949673160000, 0)]).trace = [0] ∧
    ((InicialSuperloop.run (InicialSuperloop.main_init 0)
      [(0, 0x10), (200000, 0x10), (300000, 0)]).btn 0).t_press = 200000 ∧
    (42949673160000 - 200000) / 10000 = 4294967296 := by
  decide

/-- C2 (amended): for ticks `p ≤ r < 2^64`, when the release of a button under
measurement whose press tick is `p` is handled at `now = r` (a falling edge of
button 0 in `main_final_superloop`, a committed release of button `i` in
`main_inicial_superloop`), exactly one duration is reported and it is
`((r - p) / 10000) mod 2^32`; it is `(r - p) / 10000` itself whenever that
quotient is below `2^32`. -/
theorem reported_duration_mod (p r : Nat) (hpr : p ≤ r) (hr : r < U64)
    (sF : FinalSuperloop.State) (port : Nat)
    (hprev : sF.input_current &&& PBT_0_MASK ≠ 0) (hcur : port &&& PBT_0_MASK = 0)
    (hmeas : sF.b0_measuring ≠ 0) (hpF : sF.t_press = p)
    (sI : InicialSuperloop.State) (buttons : Nat) (i : Fin 4)
    (hst : (sI.btn i).stable ≠ 0) (hw : (sI.btn i).waiting_release ≠ 0)
    (hpI : (sI.btn i).t_press = p)
    (hrel : ((InicialSuperloop.button_body r buttons i sI).btn i).stable = 0) :
    reports (FinalSuperloop.main_loop sF r port).trace =
      reports sF.trace ++ [((r - p) / 10000) % U32] ∧
    reports (InicialSuperloop.button_body r buttons i sI).trace =
      reports sI.trace ++ [((r - p) / 10000) % U32] ∧
    ((r - p) / 10000 < U32 →
      reports (FinalSuperloop.main_loop sF r port).trace =
        reports sF.trace ++ [(r - p) / 10000] ∧
      reports (InicialSuperloop.button_body r buttons i sI).trace =
        reports sI.trace ++ [(r - p) / 10000]) := by
  have hF := FinalSuperloop.release_reports sF r port hprev hcur hmeas
  have hI := InicialSuperloop.button_body_release r buttons i sI hst hw hrel
  rw [hpF, FinalSuperloop.fs_measured_ms_of_le p r hpr hr] at hF
  rw [hpI, InicialSuperloop.is_measured_ms_of_le p r hpr hr] at hI
  refine ⟨hF, hI, fun hlt => ?_⟩
  rw [Nat.mod_eq_of_lt hlt] at hF hI
  exact ⟨hF, hI⟩

/-- Witness for C2 (amended): a press recorded at tick 200000 and released at
tick 12200000 is reported as 1200 ms by both super-loops. -/
theorem reported_duration_mod_witness :
    reports (FinalSuperloop.main_loop
      (FinalSuperloop.run (FinalSuperloop.main_init 0 0) [(200000, 0x10)]) 12200000 0).trace
      = [1200] ∧
    reports (InicialSuperloop.button_body 12200000 0 0
      (InicialSuperloop.run (InicialSuperloop.main_init 0)
        [(0, 0x10), (200000, 0x10), (12000000, 0)])).trace = [1200] :=
  have h := reported_duration_mod 200000 12200000 (by decide) (by decide)
    (FinalSuperloop.run (FinalSuperloop.main_init 0 0) [(200000, 0x10)]) 0
    (by decide) (by decide) (by decide) (by decide)
    (InicialSuperloop.run (InicialSuperloop.main_init 0)
      [(0, 0x10), (200000, 0x10), (12000000, 0)]) 0 0
    (by decide) (by decide) (by decide) (by decide)
  ⟨h.1, h.2.1⟩

/-- C3, as stated, fails: in `main_diff_account_interrupt`, with
`start_cnt = 2^64 - 1` read at the press and `end_cnt = 2^64 - 1 - 2^32` read
at the release, `start_cnt ≥ end_cnt` and the saturating difference is `2^32`,
but the iteration reports 0, because `printf` is passed
`(unsigned)elapsed_ms`. -/
theorem saturating_report_counterexample :
    DiffAccountInterrupt.elapsed_ms 0xFFFFFFFFFFFFFFFF 0xFFFFFFFEFFFFFFFF = 0x100000000 ∧
    (0xFFFFFFFFFFFFFFFF : Nat) - 0xFFFFFFFEFFFFFFFF = 0x100000000 ∧
    (DiffAccountInterrupt.main_loop (DiffAccountInterrupt.main_init 0) 0x10
      (DiffAccountInterrupt.CounterReads.all 0xFFFFFFFFFFFFFFFF)).start_cnt
        = 0xFFFFFFFFFFFFFFFF ∧
    (DiffAccountInterrupt.main_loop
      (DiffAccountInterrupt.main_loop (DiffAccountInterrupt.main_init 0) 0x10
        (DiffAccountInterrupt.CounterReads.all 0xFFFFFFFFFFFFFFFF)) 0
      (DiffAccountInterrupt.CounterReads.all 0xFFFFFFFEFFFFFFFF)).end_cnt
        = 0xFFFFFFFEFFFFFFFF ∧
    reports (DiffAccountInterrupt.main_loop
      (DiffAccountInterrupt.main_loop (DiffAccountInterrupt.main_init 0) 0x10
        (DiffAccountInterrupt.CounterReads.all 0xFFFFFFFFFFFFFFFF)) 0
      (DiffAccountInterrupt.CounterReads.all 0xFFFFFFFEFFFFFFFF)).trace = [0] := by
  decide

/-- C3 (amended): in the interrupt-driven variants the elapsed time computed at
the release of button 0 is a saturating difference. In `main_final_interrupt`,
with `t_end_ms` the value read from `ms_now`, `elapsed_ms` is
`t_end_ms - t_start_ms` when `t_end_ms ≥ t_start_ms` and 0 otherwise, and it is
the value reported. In `main_diff_account_interrupt`, with `end_cnt` the value
read from `counter_ms`, the 64-bit local `elapsed_ms` is `start_cnt - end_cnt`
when `start_cnt ≥ end_cnt` and 0 otherwise, and the value reported is
`elapsed_ms mod 2^32` (the cast to `unsigned`), which is `elapsed_ms` itself
when `elapsed_ms < 2^32`. Neither the computed nor the reported value exceeds
the larger of the two operands. -/
theorem elapsed_is_saturating_difference
    (sF : FinalInterrupt.State) (pins ms_read : Nat)
    (hprevF : sF.btn0_prev = 1) (hpinF : pins &&& PBT_0_MASK = 0)
    (hmF : sF.measuring = 1) (hrd : ms_read < U32)
    (sD : DiffAccountInterrupt.State) (cur_gpio : Nat)
    (c : DiffAccountInterrupt.CounterReads)
    (hprevD : sD.prev_btn0 ≠ 0) (hpinD : cur_gpio &&& PBT_0_MASK = 0)
    (hmD : sD.measuring ≠ 0) (hsc : sD.start_cnt < U64) :
    ((FinalInterrupt.main_loop sF pins ms_read).t_end_ms = ms_read ∧
     (FinalInterrupt.main_loop sF pins ms_read).t_start_ms = sF.t_start_ms ∧
     (FinalInterrupt.main_loop sF pins ms_read).elapsed_ms =
       (if ms_read ≥ sF.t_start_ms then ms_read - sF.t_start_ms else 0) ∧
     (FinalInterrupt.main_loop sF pins ms_read).elapsed_ms ≤ max ms_read sF.t_start_ms ∧
     reports (FinalInterrupt.main_loop sF pins ms_read).trace =
       reports sF.trace ++ [(FinalInterrupt.main_loop sF pins ms_read).elapsed_ms]) ∧
    ((DiffAccountInterrupt.main_loop sD cur_gpio c).end_cnt = c.at_release ∧
     (DiffAccountInterrupt.main_loop sD cur_gpio c).start_cnt = sD.start_cnt ∧
     DiffAccountInterrupt.elapsed_ms sD.start_cnt c.at_release =
       (if sD.start_cnt ≥ c.at_release then sD.start_cnt - c.at_release else 0) ∧
     DiffAccountInterrupt.elapsed_ms sD.start_cnt c.at_release
       ≤ max sD.start_cnt c.at_release ∧
     reports (DiffAccountInterrupt.main_loop sD cur_gpio c).trace =
       reports sD.trace ++
         [DiffAccountInterrupt.elapsed_ms sD.start_cnt c.at_release % U32] ∧
     DiffAccountInterrupt.elapsed_ms sD.start_cnt c.at_release % U32
       ≤ max sD.start_cnt c.at_release ∧
     (DiffAccountInterrupt.elapsed_ms sD.start_cnt c.at_release < U32 →
       reports (DiffAccountInterrupt.main_loop sD cur_gpio c).trace =
         reports sD.trace ++ [DiffAccountInterrupt.elapsed_ms sD.start_cnt c.at_release])) := by
  obtain ⟨f1, f2, f3, f4⟩ := FinalInterrupt.fi_release sF pins ms_read hprevF hpinF hmF hrd
  obtain ⟨d1, d2, d3⟩ := DiffAccountInterrupt.da_release sD cur_gpio c hprevD hpinD hmD
  have d4 := DiffAccountInterrupt.elapsed_ms_eq sD.start_cnt c.at_release hsc
  have d5 : DiffAccountInterrupt.elapsed_ms sD.start_cnt c.at_release
      ≤ max sD.start_cnt c.at_release := by
    rw [d4]
    split_ifs
    · exact le_trans (Nat.sub_le _ _) (le_max_left _ _)
    · exact Nat.zero_le _
  refine ⟨⟨f1, f2, f3, ?_, f4⟩, ⟨d1, d2, d4, d5, d3, le_trans (Nat.mod_le _ _) d5, ?_⟩⟩
  · rw [f3]
    split_ifs
    · exact le_trans (Nat.sub_le _ _) (le_max_left _ _)
    · exact Nat.zero_le _
  · intro hlt
    rw [d3, Nat.mod_eq_of_lt hlt]

/-- Witness for C3: in `main_final_interrupt` a press read at `ms_now = 100`
and a release read at `ms_now = 50` give `elapsed_ms = 0`; in
`main_diff_account_interrupt` a press read at `counter_ms = 5000` and a release
read at `counter_ms = 3800` report 1200. -/
theorem elapsed_is_saturating_difference_witness :
    (FinalInterrupt.main_loop
      (FinalInterrupt.main_loop FinalInterrupt.main_init 0x10 100) 0 50).elapsed_ms = 0 ∧
    reports (DiffAccountInterrupt.main_loop
      (DiffAccountInterrupt.main_loop (DiffAccountInterrupt.main_init 0) 0x10
        (DiffAccountInterrupt.CounterReads.all 5000)) 0
      (DiffAccountInterrupt.CounterReads.all 3800)).trace = [1200] :=
  have h := elapsed_is_saturating_difference
    (FinalInterrupt.main_loop FinalInterrupt.main_init 0x10 100) 0 50
    (by decide) (by decide) (by decide) (by decide)
    (DiffAccountInterrupt.main_loop (DiffAccountInterrupt.main_init 0) 0x10
      (DiffAccountInterrupt.CounterReads.all 5000)) 0
    (DiffAccountInterrupt.CounterReads.all 3800)
    (by decide) (by decide) (by decide) (by decide)
  ⟨h.1.2.2.1, h.2.2.2.2.2.2.2 (by decide)⟩

/-- C4, as stated, fails: with the press tick `p = 2^64 - 1` and the release
handled at `now = r = 20000000 < p`, both super-loops report 2000 ms, not 0. -/
theorem wrapped_duration_counterexample :
    (FinalSuperloop.run (FinalSuperloop.main_init 0 0)
      [(18446744073709551615, 0x10)]).t_press = 18446744073709551615 ∧
    reports (FinalSuperloop.run (FinalSuperloop.main_init 0 0)
      [(18446744073709551615, 0x10), (20000000, 0)]).trace = [2000] ∧
    ((InicialSuperloop.run (InicialSuperloop.main_init 0)
      [(0, 0x10), (18446744073709551615, 0x10), (18446744073709551615, 0)]).btn 0).t_press
      = 18446744073709551615 ∧
    reports (InicialSuperloop.run (InicialSuperloop.main_init 0)
      [(0, 0x10), (18446744073709551615, 0x10), (18446744073709551615, 0),
       (20000000, 0)]).trace = [2000] := by
  decide

/-- C4 (amended): in `main_final_superloop` and `main_inicial_superloop`, if at
the release of a button under measurement the current tick `r` is smaller than
the recorded press tick `p < 2^64`, the subtraction wraps modulo `2^64` and the
one duration reported is `((2^64 + r - p) / 10000) mod 2^32`; there is no clamp
to 0. -/
theorem wrapped_duration_mod (p r : Nat) (hrp : r < p) (hp : p < U64)
    (sF : FinalSuperloop.State) (port : Nat)
    (hprev : sF.input_current &&& PBT_0_MASK ≠ 0) (hcur : port &&& PBT_0_MASK = 0)
    (hmeas : sF.b0_measuring ≠ 0) (hpF : sF.t_press = p)
    (sI : InicialSuperloop.State) (buttons : Nat) (i : Fin 4)
    (hst : (sI.btn i).stable ≠ 0) (hw : (sI.btn i).waiting_release ≠ 0)
    (hpI : (sI.btn i).t_press = p)
    (hrel : ((InicialSuperloop.button_body r buttons i sI).btn i).stable = 0) :
    reports (FinalSuperloop.main_loop sF r port).trace =
      reports sF.trace ++ [((U64 + r - p) / 10000) % U32] ∧
    reports (InicialSuperloop.button_body r buttons i sI).trace =
      reports sI.trace ++ [((U64 + r - p) / 10000) % U32] := by
  have hF := FinalSuperloop.release_reports sF r port hprev hcur hmeas
  have hI := InicialSuperloop.button_body_release r buttons i sI hst hw hrel
  rw [hpF, FinalSuperloop.fs_measured_ms_of_lt p r hrp hp] at hF
  rw [hpI, InicialSuperloop.is_measured_ms_of_lt p r hrp hp] at hI
  exact ⟨hF, hI⟩

/-- Witness for C4 (amended): press tick `2^64 - 1`, release at tick 20000000;
both super-loops report 2000 ms. -/
theorem wrapped_duration_mod_witness :
    reports (FinalSuperloop.main_loop
      (FinalSuperloop.run (FinalSuperloop.main_init 0 0) [(18446744073709551615, 0x10)])
      20000000 0).trace = [((U64 + 20000000 - 18446744073709551615) / 10000) % U32] ∧
    reports (InicialSuperloop.button_body 20000000 0 0
      (InicialSuperloop.run (InicialSuperloop.main_init 0)
        [(0, 0x10), (18446744073709551615, 0x10), (18446744073709551615, 0)])).trace
      = [((U64 + 20000000 - 18446744073709551615) / 10000) % U32] :=
  wrapped_duration_mod 18446744073709551615 20000000 (by decide) (by decide)
    (FinalSuperloop.run (FinalSuperloop.main_init 0 0) [(18446744073709551615, 0x10)]) 0
    (by decide) (by decide) (by decide) (by decide)
    (InicialSuperloop.run (InicialSuperloop.main_init 0)
      [(0, 0x10), (18446744073709551615, 0x10), (18446744073709551615, 0)]) 0 0
    (by decide) (by decide) (by decide) (by decide)

namespace FinalSuperloop

/-- C5: in `main_final_superloop`, in an iteration with a falling edge of
button 0 while `b0_measuring` is set and without a rising edge of button 1,
`blink` is 1 at the end of the iteration if and only if the measured `ms` is at
least 1000 or `blink` was already 1; when `ms ≥ 1000` the iteration ends with
`blink = 1`, `out_shadow` equal to its old value with the four LED bits set,
`blink_last = now`, and its platform calls are the report and the single write
of that `out_shadow` (no toggle in the same iteration). -/
theorem release_arms_blink (s : State) (now port : Nat)
    (hprev : s.input_current &&& PBT_0_MASK ≠ 0) (hcur : port &&& PBT_0_MASK = 0)
    (hmeas : s.b0_measuring ≠ 0)
    (hb1 : ¬ (s.input_current &&& PBT_1_MASK = 0 ∧ port &&& PBT_1_MASK ≠ 0)) :
    ((main_loop s now port).blink = 1 ↔ (measured_ms now s.t_press ≥ 1000 ∨ s.blink = 1)) ∧
    (measured_ms now s.t_press ≥ 1000 →
      (main_loop s now port).blink = 1 ∧
      (main_loop s now port).out_shadow = s.out_shadow ||| LEDS_ALL ∧
      (main_loop s now port).out_shadow &&& LEDS_ALL = LEDS_ALL ∧
      (main_loop s now port).blink_last = now ∧
      (main_loop s now port).trace = s.trace ++
        [Effect.printf_ms (measured_ms now s.t_press),
         Effect.gpio_write (s.out_shadow ||| LEDS_ALL)]) := by
  have hb1' : ¬ (s.input_current &&& PBT_1_MASK = 0 ∧ ¬ port &&& PBT_1_MASK = 0) := hb1
  have htck : ¬ (BLINK_TCK ≤ 0) := by decide
  by_cases hms : measured_ms now s.t_press ≥ 1000
  · simp only [main_loop, btn0_rising, btn0_falling, btn1_rising, blink_toggle]
    simp [hprev, hcur, hmeas, hb1', hms, sub64_self, htck, lor_leds]
  · simp only [main_loop, btn0_rising, btn0_falling, btn1_rising, blink_toggle]
    simp only [hprev, hcur, hmeas, hb1', hms]
    simp
    split_ifs <;> simp

/-- Witness for C5: button 0 pressed at tick 200000 and released at tick
12200000 (1200 ms). -/
theorem release_arms_blink_witness :
    (main_loop (run (main_init 0 0) [(200000, 0x10)]) 12200000 0).blink = 1 ∧
    (main_loop (run (main_init 0 0) [(200000, 0x10)]) 12200000 0).out_shadow = 0xF0000 ∧
    (main_loop (run (main_init 0 0) [(200000, 0x10)]) 12200000 0).blink_last = 12200000 :=
  have h := (release_arms_blink (run (main_init 0 0) [(200000, 0x10)]) 12200000 0
    (by decide) (by decide) (by decide) (by decide)).2 (by decide)
  ⟨h.1, h.2.1, h.2.2.2.1⟩

/-- C7: in `main_final_superloop`, for every reachable state and every
iteration that observes a rising edge of button 1, the iteration ends with
`blink = 0` and all LED bits of `out_shadow` cleared, and `out_shadow` is the
value last written to the port; this holds whatever the blink phase, the value
of `now - blink_last`, and whether button 0 is released in the same iteration. -/
theorem cancel_edge_turns_off (s : State) (hs : Reachable s) (now port : Nat)
    (hprev : s.input_current &&& PBT_1_MASK = 0) (hcur : port &&& PBT_1_MASK ≠ 0) :
    (main_loop s now port).blink = 0 ∧
    (main_loop s now port).out_shadow &&& LEDS_ALL = 0 ∧
    (writes (main_loop s now port).trace).getLast? = some (main_loop s now port).out_shadow := by
  have hinv := inv_of_reachable s hs
  have hlast := (inv_step s now port hinv).2.2.2
  refine ⟨?_, ?_, hlast⟩
  all_goals
    rw [main_loop_eq]
    have h2 : Inv (btn0_falling now (s.input_current &&& PBT_0_MASK) (port &&& PBT_0_MASK)
        (btn0_rising now (s.input_current &&& PBT_0_MASK) (port &&& PBT_0_MASK)
          { s with input_current := port })) :=
      inv_btn0_falling _ _ _ _ (inv_btn0_rising _ _ _ _ hinv)
    have h3 := btn1_rising_edge _ _ _ h2 hprev hcur
    rw [blink_toggle_of_idle _ _ h3.1]
  · exact h3.1
  · exact h3.2

/-- Witness for C7: blinking armed at tick 12200000, button 1 pressed at tick
13000000. -/
theorem cancel_edge_turns_off_witness :
    (main_loop (run (main_init 0 0) [(200000, 0x10), (12200000, 0)]) 13000000 0x20).blink = 0 ∧
    (main_loop (run (main_init 0 0) [(200000, 0x10), (12200000, 0)]) 13000000 0x20).out_shadow
      &&& LEDS_ALL = 0 :=
  have h := cancel_edge_turns_off (run (main_init 0 0) [(200000, 0x10), (12200000, 0)])
    (Reachable.step _ 12200000 0
      (Reachable.step _ 200000 0x10 (Reachable.init 0 0 (by decide) (by decide))
        (by decide) (by decide)) (by decide) (by decide))
    13000000 0x20 (by decide) (by decide)
  ⟨h.1, h.2.1⟩

/-- C8: in `main_final_superloop`, at every loop-iteration boundary of every
reachable state, `blink = 0` implies that all LED bits of `out_shadow` are 0. -/
theorem idle_leds_off (s : State) (hs : Reachable s) (hb : s.blink = 0) :
    s.out_shadow &&& LEDS_ALL = 0 :=
  (inv_of_reachable s hs).2.1 hb

/-- Witness for C8: the state after arming at tick 12200000 and cancelling at
tick 13000000. -/
theorem idle_leds_off_witness :
    (run (main_init 0xF0000 0) [(200000, 0x10), (12200000, 0), (13000000, 0x20)]).out_shadow
      &&& LEDS_ALL = 0 :=
  idle_leds_off (run (main_init 0xF0000 0) [(200000, 0x10), (12200000, 0), (13000000, 0x20)])
    (Reachable.step _ 13000000 0x20
      (Reachable.step _ 12200000 0
        (Reachable.step _ 200000 0x10 (Reachable.init 0xF0000 0 (by decide) (by decide))
          (by decide) (by decide)) (by decide) (by decide)) (by decide) (by decide))
    (by decide)

/-- C9: in `main_final_superloop`, an iteration that starts with `blink = 0`
and in which no release of button 0 with measured `ms ≥ 1000` occurs ends with
`blink = 0`, leaves `out_shadow` and `blink_last` unchanged and does not call
`gpio_write`. -/
theorem idle_iteration_frame (s : State) (now port : Nat) (hb : s.blink = 0)
    (hno : ¬ (s.input_current &&& PBT_0_MASK ≠ 0 ∧ port &&& PBT_0_MASK = 0 ∧
      s.b0_measuring ≠ 0 ∧ measured_ms now s.t_press ≥ 1000)) :
    (main_loop s now port).blink = 0 ∧
    (main_loop s now port).out_shadow = s.out_shadow ∧
    (main_loop s now port).blink_last = s.blink_last ∧
    writes (main_loop s now port).trace = writes s.trace := by
  have key : ∀ t : State, t.blink = 0 → t.out_shadow = s.out_shadow →
      t.blink_last = s.blink_last → writes t.trace = writes s.trace →
      ¬ (s.input_current &&& PBT_0_MASK ≠ 0 ∧ port &&& PBT_0_MASK = 0 ∧
        t.b0_measuring ≠ 0 ∧ measured_ms now t.t_press ≥ 1000) →
      (btn0_falling now (s.input_current &&& PBT_0_MASK) (port &&& PBT_0_MASK) t).blink = 0 ∧
      (btn0_falling now (s.input_current &&& PBT_0_MASK) (port &&& PBT_0_MASK) t).out_shadow
        = s.out_shadow ∧
      (btn0_falling now (s.input_current &&& PBT_0_MASK) (port &&& PBT_0_MASK) t).blink_last
        = s.blink_last ∧
      writes (btn0_falling now (s.input_current &&& PBT_0_MASK) (port &&& PBT_0_MASK) t).trace
        = writes s.trace := by
    intro t h1 h2 h3 h4 h5
    simp only [btn0_falling]
    split_ifs with ha hb' hc
    · exact absurd ⟨ha.1, ha.2, hb', hc⟩ h5
    · exact ⟨h1, h2, h3, by simp [writes_append, writes, h4]⟩
    · exact ⟨h1, h2, h3, h4⟩
    · exact ⟨h1, h2, h3, h4⟩
  have hf := btn0_rising_frame now (s.input_current &&& PBT_0_MASK) (port &&& PBT_0_MASK)
    { s with input_current := port }
  have hcond : ¬ (s.input_current &&& PBT_0_MASK ≠ 0 ∧ port &&& PBT_0_MASK = 0 ∧
      (btn0_rising now (s.input_current &&& PBT_0_MASK) (port &&& PBT_0_MASK)
        { s with input_current := port }).b0_measuring ≠ 0 ∧
      measured_ms now (btn0_rising now (s.input_current &&& PBT_0_MASK) (port &&& PBT_0_MASK)
        { s with input_current := port }).t_press ≥ 1000) := by
    intro hc
    rw [btn0_rising_idle _ _ _ _ (fun h => hc.1 h.1)] at hc
    exact hno hc
  have h2 := key _ (hf.2.1.trans hb) hf.1 hf.2.2.1 (by rw [hf.2.2.2]) hcond
  rw [main_loop_eq, blink_toggle_of_idle _ _ (by rw [btn1_rising_of_idle _ _ _ h2.1]; exact h2.1),
    btn1_rising_of_idle _ _ _ h2.1]
  exact h2

/-- Witness for C9: button 0 pressed at tick 200000 and released at tick
4200000 (400 ms). -/
theorem idle_iteration_frame_witness :
    reports (main_loop (run (main_init 0 0) [(200000, 0x10)]) 4200000 0).trace = [400] ∧
    (main_loop (run (main_init 0 0) [(200000, 0x10)]) 4200000 0).blink = 0 ∧
    (main_loop (run (main_init 0 0) [(200000, 0x10)]) 4200000 0).out_shadow
      = (run (main_init 0 0) [(200000, 0x10)]).out_shadow ∧
    writes (main_loop (run (main_init 0 0) [(200000, 0x10)]) 4200000 0).trace
      = writes (run (main_init 0 0) [(200000, 0x10)]).trace :=
  have h := idle_iteration_frame (run (main_init 0 0) [(200000, 0x10)]) 4200000 0
    (by decide) (by decide)
  ⟨by decide, h.1, h.2.1, h.2.2.2⟩

/-- C10: in `main_final_superloop`, a falling edge of button 0 observed while
`b0_measuring = 0` is ignored: the falling-edge block leaves the state as it
is, so the iteration is the button-1 block followed by the blink block, it
reports no duration, and `t_press` and `b0_measuring` are unchanged; when
moreover button 1 has no rising edge (or `blink = 0`) and no toggle is due, the
iteration changes nothing but `input_current`. -/
theorem spurious_release_ignored (s : State) (now port : Nat)
    (hprev : s.input_current &&& PBT_0_MASK ≠ 0) (_hcur : port &&& PBT_0_MASK = 0)
    (hmeas : s.b0_measuring = 0) :
    btn0_falling now (s.input_current &&& PBT_0_MASK) (port &&& PBT_0_MASK)
      { s with input_current := port } = { s with input_current := port } ∧
    main_loop s now port =
      blink_toggle now (btn1_rising (s.input_current &&& PBT_1_MASK) (port &&& PBT_1_MASK)
        { s with input_current := port }) ∧
    reports (main_loop s now port).trace = reports s.trace ∧
    (main_loop s now port).t_press = s.t_press ∧
    (main_loop s now port).b0_measuring = 0 ∧
    ((¬ (s.input_current &&& PBT_1_MASK = 0 ∧ port &&& PBT_1_MASK ≠ 0) ∨ s.blink = 0) →
      ¬ (s.blink ≠ 0 ∧ sub64 now s.blink_last ≥ BLINK_TCK) →
      main_loop s now port = { s with input_current := port }) := by
  have hfall : btn0_falling now (s.input_current &&& PBT_0_MASK) (port &&& PBT_0_MASK)
      { s with input_current := port } = { s with input_current := port } := by
    have hm : ¬ ({ s with input_current := port } : State).b0_measuring ≠ 0 :=
      not_not.mpr hmeas
    simp only [btn0_falling, if_neg hm, ite_self]
  have hloop : main_loop s now port =
      blink_toggle now (btn1_rising (s.input_current &&& PBT_1_MASK) (port &&& PBT_1_MASK)
        { s with input_current := port }) := by
    rw [main_loop_eq, btn0_rising_idle _ _ _ _ (fun h => hprev h.1), hfall]
  refine ⟨hfall, hloop, ?_, ?_, ?_, ?_⟩
  · rw [hloop, (blink_toggle_frame _ _).2.2.2, (btn1_rising_frame _ _ _).2.2.2]
  · rw [hloop, (blink_toggle_frame _ _).2.1, (btn1_rising_frame _ _ _).2.1]
  · rw [hloop, (blink_toggle_frame _ _).1, (btn1_rising_frame _ _ _).1]; exact hmeas
  · intro h1 h2
    have hb1 : btn1_rising (s.input_current &&& PBT_1_MASK) (port &&& PBT_1_MASK)
        { s with input_current := port } = { s with input_current := port } := by
      rcases h1 with h1 | h1
      · exact btn1_rising_idle _ _ _ h1
      · exact btn1_rising_of_idle _ _ _ h1
    rw [hloop, hb1]
    exact blink_toggle_idle _ _ h2

/-- Witness for C10: button 0 is held at start-up and released in the first
iteration. -/
theorem spurious_release_ignored_witness :
    reports (main_loop (main_init 0 0x10) 5 0).trace = reports (main_init 0 0x10).trace ∧
    main_loop (main_init 0 0x10) 5 0 = { main_init 0 0x10 with input_current := 0 } :=
  have h := spurious_release_ignored (main_init 0 0x10) 5 0 (by decide) (by decide)
    (by decide)
  ⟨h.2.2.1, h.2.2.2.2.2 (Or.inr (by decide)) (by decide)⟩

end FinalSuperloop

namespace FinalSuperloop

/-- C11: in `main_final_superloop`, for every reachable state, if
`b0_measuring` is set then it is 1 and the button-0 bit of `input_current` is
set; hence a rising edge of button 0 is only observed with `b0_measuring = 0`,
an iteration that starts with `b0_measuring` set keeps `t_press`, and when a
rising edge sampled at tick `now` is followed by any samples with button 0
held and then by a sample with button 0 released at tick `r`, `t_press` is
still `now` before the release and the one duration reported is measured from
`now`. -/
theorem t_press_kept_while_measuring (s : State) (hs : Reachable s) (now port : Nat)
    (mid : List (Nat × Nat)) (hheld : ∀ x ∈ mid, x.2 &&& PBT_0_MASK ≠ 0)
    (r port_r : Nat) (hrel : port_r &&& PBT_0_MASK = 0) :
    (s.b0_measuring ≠ 0 → s.b0_measuring = 1 ∧ s.input_current &&& PBT_0_MASK ≠ 0) ∧
    (s.input_current &&& PBT_0_MASK = 0 ∧ port &&& PBT_0_MASK ≠ 0 → s.b0_measuring = 0) ∧
    (s.b0_measuring ≠ 0 → (main_loop s now port).t_press = s.t_press) ∧
    (s.input_current &&& PBT_0_MASK = 0 ∧ port &&& PBT_0_MASK ≠ 0 →
      (run s ((now, port) :: mid)).t_press = now ∧
      reports (run s ((now, port) :: mid ++ [(r, port_r)])).trace =
        reports s.trace ++ [measured_ms r now]) := by
  obtain ⟨h1, h2⟩ := measuring_inv_of_reachable s hs
  refine ⟨fun hm => ⟨by omega, h2 hm⟩, fun he => ?_, fun hm => ?_, fun he => ?_⟩
  · by_contra hm
    exact h2 hm he.1
  · rw [main_loop_eq, (blink_toggle_frame _ _).2.1, (btn1_rising_frame _ _ _).2.1,
      btn0_falling_frame, btn0_rising_idle _ _ _ _ (fun h => h2 hm h.1)]
  · obtain ⟨p1, p2⟩ := press_records s now port he.1 he.2
    obtain ⟨f1, f2, f3, f4⟩ := hold_run mid (main_loop s now port)
      (by rw [main_loop_input_current]; exact he.2) hheld
    have hrep : reports (main_loop s now port).trace = reports s.trace := by
      rw [main_loop_eq, (blink_toggle_frame _ _).2.2.2, (btn1_rising_frame _ _ _).2.2.2,
        btn0_falling_idle _ _ _ _ (fun h => h.1 he.1), (btn0_rising_frame _ _ _ _).2.2.2]
    refine ⟨by rw [run_cons]; exact f1.trans p1, ?_⟩
    rw [fs_run_append, run_cons]
    show reports (main_loop (run (main_loop s now port) mid) r port_r).trace = _
    rw [release_reports _ r port_r f4 hrel (by rw [f2, p2]; exact Nat.one_ne_zero), f3, hrep,
      f1, p1]

/-- Witness for C11: button 0 pressed at tick 200000, still held at tick
5000000, released at tick 12200000: 1200 ms are reported. -/
theorem t_press_kept_while_measuring_witness :
    (run (main_init 0 0) ((200000, 0x10) :: [(5000000, 0x10)])).t_press = 200000 ∧
    reports (run (main_init 0 0)
      ((200000, 0x10) :: [(5000000, 0x10)] ++ [(12200000, 0)])).trace =
      reports (main_init 0 0).trace ++ [measured_ms 12200000 200000] ∧
    measured_ms 12200000 200000 = 1200 :=
  have h := (t_press_kept_while_measuring (main_init 0 0)
    (Reachable.init 0 0 (by decide) (by decide)) 200000 0x10 [(5000000, 0x10)]
    (by decide) 12200000 0 (by decide)).2.2.2 ⟨by decide, by decide⟩
  ⟨h.1, h.2, by decide⟩

end FinalSuperloop

namespace InicialSuperloop

/-- C12: in `main_inicial_superloop`, for every start value of the port, every
sample sequence and every button `i`, the edge events of button `i` alternate
`Pressed`, `Released`, `Pressed`, ... starting with `Pressed`; an iteration
emits at most one event for the button (so a run emits at most as many events
as it has iterations); an iteration in which the raw level differs from
`last_raw` emits no event; and no event is emitted exactly when `stable` is
left unchanged. -/
theorem edge_events_alternate (r0 : Nat) (samples : List (Nat × Nat)) (i : Fin 4)
    (now raw : Nat) (b : btn_state_t) :
    alternates Edge.Pressed (events i (main_init r0) samples) ∧
    (events i (main_init r0) samples).length ≤ samples.length ∧
    (btn_event now raw b).toList.length ≤ 1 ∧
    (raw ≠ b.last_raw → btn_event now raw b = none) ∧
    (btn_event now raw b = none ↔ (btn_update now raw b).stable = b.stable) := by
  refine ⟨?_, events_length_le i samples (main_init r0), ?_,
    btn_event_of_raw_change now raw b, ?_⟩
  · have h := events_alternate i samples (main_init r0) (Nat.zero_le 1)
    exact h
  · cases btn_event now raw b <;> simp [Option.toList]
  · obtain ⟨e1, e2, e3⟩ := btn_event_spec now raw b
    constructor
    · exact e1
    · intro hst
      cases hev : btn_event now raw b with
      | none => rfl
      | some e =>
        cases e with
        | Pressed =>
          obtain ⟨_, a2, _, a4, _⟩ := e2 hev
          exact absurd (a4.symm.trans hst) a2
        | Released =>
          obtain ⟨_, a2, _, a4, _⟩ := e3 hev
          exact absurd (a4.symm.trans hst) a2

/-- Witness for C12: button 0 held from tick 0 to tick 12000000 gives one
`Pressed` and one `Released`; a raw level that differs from `last_raw` gives
no event. -/
theorem edge_events_alternate_witness :
    events 0 (main_init 0) [(0, 0x10), (200000, 0x10), (12000000, 0), (12200000, 0)]
      = [Edge.Pressed, Edge.Released] ∧
    alternates Edge.Pressed
      (events 0 (main_init 0) [(0, 0x10), (200000, 0x10), (12000000, 0), (12200000, 0)]) ∧
    btn_event 300000 1
      { stable := 0, last_raw := 0, last_change := 0, waiting_release := 0, t_press := 0 }
      = none :=
  have h := edge_events_alternate 0
    [(0, 0x10), (200000, 0x10), (12000000, 0), (12200000, 0)] 0 300000 1
    { stable := 0, last_raw := 0, last_change := 0, waiting_release := 0, t_press := 0 }
  ⟨by decide, h.1, h.2.2.2.1 (by decide)⟩

/-- C13, as stated, fails: on the committed release of a button under
measurement the code also clears `waiting_release`, which the reference leaves
at 1. Button 0 is pressed from tick 0 (committed at tick 200000), goes low at
tick 12000000, and the release is committed at tick 12200000. -/
theorem debounce_reference_counterexample :
    ((button_body 12200000 (read_buttons 0) 0
      (run (main_init 0) [(0, 0x10), (200000, 0x10), (12000000, 0)])).btn 0).waiting_release
      = 0 ∧
    (debounce_reference 12200000 (raw_level 0 0)
      ((run (main_init 0) [(0, 0x10), (200000, 0x10), (12000000, 0)]).btn 0)).1.waiting_release
      = 1 ∧
    (debounce_reference 12200000 (raw_level 0 0)
      ((run (main_init 0) [(0, 0x10), (200000, 0x10), (12000000, 0)]).btn 0)).2
      = some Edge.Released := by
  decide

/-- C13 (amended): the debounce step of button `i` in the body of the `for`
loop of `main_inicial_superloop` equals the reference in which a `Released`
moreover clears `waiting_release`: if `raw != last_raw` then `last_raw := raw`,
`last_change := now`, `stable` unchanged; otherwise, if
`now - last_change >= DEBOUNCE_TICKS` and `raw != stable`, then `stable := raw`,
with `Pressed` (`t_press := now`, `waiting_release := 1`) when `raw = 1` and
`Released` (`waiting_release := 0`) when `raw = 0`; otherwise nothing changes
and there is no event. The reference of the claim differs from it in
`waiting_release` only. -/
theorem debounce_step_eq_clearing_reference (now buttons : Nat) (i : Fin 4) (s : State)
    (raw : Nat) (b : btn_state_t) :
    ((button_body now buttons i s).btn i,
      btn_event now ((buttons >>> i.val) &&& 0x1) (s.btn i)) =
      debounce_reference_clearing now ((buttons >>> i.val) &&& 0x1) (s.btn i) ∧
    (raw ≤ 1 →
      (btn_update now raw b, btn_event now raw b) = debounce_reference_clearing now raw b) ∧
    (debounce_reference now raw b).2 = (debounce_reference_clearing now raw b).2 ∧
    (debounce_reference now raw b).1.stable = (debounce_reference_clearing now raw b).1.stable ∧
    (debounce_reference now raw b).1.last_raw
      = (debounce_reference_clearing now raw b).1.last_raw ∧
    (debounce_reference now raw b).1.last_change
      = (debounce_reference_clearing now raw b).1.last_change ∧
    (debounce_reference now raw b).1.t_press
      = (debounce_reference_clearing now raw b).1.t_press := by
  refine ⟨?_, btn_update_eq_reference now raw b, reference_differs_only_in_waiting now raw b⟩
  rw [button_body_btn_self]
  exact btn_update_eq_reference now _ (s.btn i) Nat.and_le_right

/-- Witness for C13 (amended): the committed release at tick 12200000 of a
press committed at tick 200000. -/
theorem debounce_step_eq_clearing_reference_witness :
    (btn_update 12200000 0
      { stable := 1, last_raw := 0, last_change := 12000000, waiting_release := 1,
        t_press := 200000 },
     btn_event 12200000 0
      { stable := 1, last_raw := 0, last_change := 12000000, waiting_release := 1,
        t_press := 200000 }) =
    ({ stable := 0, last_raw := 0, last_change := 12000000, waiting_release := 0,
       t_press := 200000 }, some Edge.Released) :=
  have h := (debounce_step_eq_clearing_reference 12200000 0 0 (main_init 0) 0
    { stable := 1, last_raw := 0, last_change := 12000000, waiting_release := 1,
      t_press := 200000 }).2.1 (by decide)
  h.trans (by decide)

end InicialSuperloop

/-- C14: for every 32-bit shadow value and every `pat`, `set_leds_pattern(pat)`
in `main_inicial_superloop` leaves every bit of `gpio_out_shadow` outside bits
16 to 19 as it was, sets bits 16 to 19 to `pat & 0xF`, and writes exactly the
new shadow value to the port. In `main_final_superloop`, each of the three
blocks that update `out_shadow`, and so a whole iteration, leaves every bit of
a 32-bit `out_shadow` outside bits 16 to 19 as it was. -/
theorem led_updates_keep_other_bits (pat : Nat) (st : InicialSuperloop.State)
    (hst : st.gpio_out_shadow < U32) (fs : FinalSuperloop.State) (hfs : fs.out_shadow < U32)
    (now port p c : Nat) :
    (∀ i, outside_leds i →
      (InicialSuperloop.set_leds_pattern pat st).gpio_out_shadow.testBit i
        = st.gpio_out_shadow.testBit i) ∧
    ((InicialSuperloop.set_leds_pattern pat st).gpio_out_shadow >>> 16) &&& 0xF
      = pat &&& 0xF ∧
    (InicialSuperloop.set_leds_pattern pat st).trace =
      st.trace ++ [Effect.gpio_write (InicialSuperloop.set_leds_pattern pat st).gpio_out_shadow] ∧
    (∀ i, outside_leds i →
      (FinalSuperloop.btn0_falling now p c fs).out_shadow.testBit i
        = fs.out_shadow.testBit i) ∧
    (∀ i, outside_leds i →
      (FinalSuperloop.btn1_rising p c fs).out_shadow.testBit i = fs.out_shadow.testBit i) ∧
    (∀ i, outside_leds i →
      (FinalSuperloop.blink_toggle now fs).out_shadow.testBit i = fs.out_shadow.testBit i) ∧
    (∀ i, outside_leds i →
      (FinalSuperloop.main_loop fs now port).out_shadow.testBit i
        = fs.out_shadow.testBit i) :=
  ⟨fun i hi => InicialSuperloop.set_leds_pattern_outside pat st hst i hi,
   InicialSuperloop.set_leds_pattern_field pat st,
   (InicialSuperloop.set_leds_pattern_shadow pat st).2,
   (FinalSuperloop.btn0_falling_outside now p c fs hfs).2,
   (FinalSuperloop.btn1_rising_outside p c fs hfs).2,
   (FinalSuperloop.blink_toggle_outside now fs hfs).2,
   (FinalSuperloop.main_loop_outside fs now port hfs).2⟩

/-- Witness for C14: the pattern 5 on a shadow with all non-LED bits set, and
the iteration of `main_final_superloop` that arms the blinking on such a
shadow. -/
theorem led_updates_keep_other_bits_witness :
    ((InicialSuperloop.set_leds_pattern 5
      (InicialSuperloop.main_init 0xFFFFFFFF)).gpio_out_shadow >>> 16) &&& 0xF = 5 &&& 0xF ∧
    (InicialSuperloop.set_leds_pattern 5
      (InicialSuperloop.main_init 0xFFFFFFFF)).gpio_out_shadow = 0xFFF5FFFF ∧
    (∀ i, outside_leds i →
      (FinalSuperloop.main_loop
        (FinalSuperloop.run (FinalSuperloop.main_init 0xFFFFFFFF 0) [(200000, 0x10)])
        12200000 0).out_shadow.testBit i =
      (FinalSuperloop.run (FinalSuperloop.main_init 0xFFFFFFFF 0)
        [(200000, 0x10)]).out_shadow.testBit i) :=
  have h := led_updates_keep_other_bits 5 (InicialSuperloop.main_init 0xFFFFFFFF) (by decide)
    (FinalSuperloop.run (FinalSuperloop.main_init 0xFFFFFFFF 0) [(200000, 0x10)]) (by decide)
    12200000 0 0 0
  ⟨h.2.1, by decide, h.2.2.2.2.2.2⟩

namespace FinalInterrupt

/-- C15, as stated, fails: `blinking` can stay 1 while `main` arms the blinking
again. From start-up, a press of button 0 read at `ms_now = 100` and released
at `ms_now = 1300` arms the blinking (`blinking = 1`, `blink_accum = 0`,
`led_out = LED_MASK`). In the 1900 invocations of `timer_handler` that follow,
`main` sees a second press after invocation 600 (`ms_now = 1900`) and its
release after invocation 1750 (`ms_now = 3050`, 1150 ms): `blinking` is 1 after
every step, the release iteration writes `LED_MASK` to the port, and after the
1900 invocations `blink_accum = 150` and `led_out = LED_MASK`, where the claim
gives `1900 mod 500 = 400` and `LED_MASK xor LED_MASK = 0`. -/
theorem isr_period_counterexample :
    (exec main_init (List.replicate 100 Step.irq)).ms_now = 100 ∧
    (exec main_init (press_schedule 100 100 1200)).ms_now = 1300 ∧
    (exec main_init (press_release_schedule 100 100 1200 1300)).blinking = 1 ∧
    (exec main_init (press_release_schedule 100 100 1200 1300)).blink_accum = 0 ∧
    (exec main_init (press_release_schedule 100 100 1200 1300)).led_out = LED_MASK ∧
    StaysBlinking (exec main_init (press_release_schedule 100 100 1200 1300))
      (press_release_schedule 600 1900 1150 3050 ++ List.replicate 150 Step.irq) ∧
    irqs (press_release_schedule 600 1900 1150 3050 ++ List.replicate 150 Step.irq) = 1900 ∧
    irqs (press_schedule 600 1900 1150) = 1750 ∧
    (exec (exec main_init (press_release_schedule 100 100 1200 1300))
      (List.replicate 600 Step.irq)).ms_now = 1900 ∧
    (exec (exec main_init (press_release_schedule 100 100 1200 1300))
      (press_schedule 600 1900 1150)).ms_now = 3050 ∧
    (exec (exec main_init (press_release_schedule 100 100 1200 1300))
      (press_release_schedule 600 1900 1150 3050)).trace =
      (exec (exec main_init (press_release_schedule 100 100 1200 1300))
        (press_schedule 600 1900 1150)).trace ++
        [Effect.printf_ms 1150] ++ [Effect.gpio_write LED_MASK] ∧
    (exec (exec main_init (press_release_schedule 100 100 1200 1300))
      (press_release_schedule 600 1900 1150 3050 ++ List.replicate 150 Step.irq)).blink_accum
      = 150 ∧
    (exec (exec main_init (press_release_schedule 100 100 1200 1300))
      (press_release_schedule 600 1900 1150 3050 ++ List.replicate 150 Step.irq)).led_out
      = LED_MASK ∧
    1900 % 500 = 400 ∧ (1900 / 500) % 2 = 1 ∧ LED_MASK ^^^ LED_MASK = 0 ∧ LED_MASK ≠ 0 := by
  obtain ⟨a1, a2, a3, a4, a5, a6, a7, _, _⟩ :=
    press_release_arms main_init 100 100 1200 1300 (by decide) rfl (by decide) (by decide)
  have hms : (exec main_init (press_release_schedule 100 100 1200 1300)).ms_now = 1300 :=
    a3.trans (by decide)
  obtain ⟨b1, b2, _, b4, b5, b6, _, b8, b9⟩ :=
    press_release_arms (exec main_init (press_release_schedule 100 100 1200 1300))
      600 1900 1150 3050 (by rw [hms]; decide) a7 (by decide) (by decide)
  obtain ⟨t1, t2, t3⟩ := timer_handler_iterate _ b4 b5 150
  have hi1 : irqs (press_schedule 600 1900 1150) = 1750 := by
    unfold press_schedule
    rw [irqs_append, irqs_append, irqs_replicate, irqs_replicate]
    rfl
  have hi2 : irqs (press_release_schedule 600 1900 1150 3050 ++ List.replicate 150 Step.irq)
      = 1900 := by
    unfold press_release_schedule
    rw [irqs_append, irqs_append, irqs_replicate, hi1]
    rfl
  refine ⟨a1.trans (by decide), a2.trans (by decide), a4, a5, a6, ?_, hi2, hi1, ?_, ?_, b8, ?_, ?_,
    by decide, by decide, by decide, by decide⟩
  · exact (stays_blinking_append _ _ _).mpr ⟨b9 a4, stays_blinking_irqs 150 _ b4⟩
  · rw [b1, hms]; decide
  · rw [b2, hms]; decide
  · rw [exec_append, exec_irqs, t2]
  · rw [exec_append, exec_irqs, t3, b6]
    decide

/-- C15 (amended): in `main_final_interrupt`, from a state with `blinking = 1`,
`blink_accum = 0` and `led_out = L`, along every schedule of invocations of
`timer_handler` and iterations of the loop of `main` in which `blinking` is 1
after every step and no iteration runs the arming statements of lines 143-148,
with `n` the number of invocations in the schedule: `blink_accum = n mod 500`,
`led_out = L` if `n / 500` is even and `L xor LED_MASK` if it is odd, and `n /
500` calls of `gpio_write` were made; the next invocation calls `gpio_write`
(once, with the new `led_out`) if and only if `n + 1` is a multiple of 500, and
a next iteration that does not arm and leaves `blinking` at 1 makes no call. A
next iteration that does arm sets `blink_accum = 0` and `led_out = LED_MASK`
and writes `LED_MASK`, so that the 500 invocations are then counted from it. -/
theorem isr_toggles_every_500 (s : State) (hb : s.blinking = 1) (ha : s.blink_accum = 0)
    (sched : List Step) (hstay : StaysBlinking s sched) (hno : NoRearm s sched) :
    (exec s sched).blinking = 1 ∧
    (exec s sched).blink_accum = irqs sched % 500 ∧
    (exec s sched).led_out =
      (if (irqs sched / 500) % 2 = 0 then s.led_out else s.led_out ^^^ LED_MASK) ∧
    (writes (exec s sched).trace).length = (writes s.trace).length + irqs sched / 500 ∧
    writes (timer_handler (exec s sched)).trace =
      (if (irqs sched + 1) % 500 = 0 then
        writes (exec s sched).trace ++ [(timer_handler (exec s sched)).led_out]
      else writes (exec s sched).trace) ∧
    (∀ pins ms_read : Nat, ¬ arms (exec s sched) pins ms_read →
      (main_loop (exec s sched) pins ms_read).blinking = 1 →
      writes (main_loop (exec s sched) pins ms_read).trace = writes (exec s sched).trace) ∧
    (∀ pins ms_read : Nat, arms (exec s sched) pins ms_read →
      (main_loop (exec s sched) pins ms_read).blinking = 1 →
      (main_loop (exec s sched) pins ms_read).blink_accum = 0 ∧
      (main_loop (exec s sched) pins ms_read).led_out = LED_MASK ∧
      writes (main_loop (exec s sched) pins ms_read).trace =
        writes (exec s sched).trace ++ [LED_MASK]) := by
  obtain ⟨i1, i2, i3, i4⟩ := exec_undisturbed s hb ha sched hstay hno
  refine ⟨i1, i2, i3, i4, ?_, fun pins ms_read hn hs => (loop_quiet _ pins ms_read i1 hn hs).2.2,
    fun pins ms_read harm hs => loop_arm_restarts _ pins ms_read harm hs⟩
  obtain ⟨_, _, e3, e4⟩ := timer_handler_blinking (exec s sched)
    (by rw [i1]; exact Nat.one_ne_zero) (by rw [i2]; exact Nat.mod_lt _ (by decide))
  rw [e4, e3, i2]
  by_cases h5 : irqs sched % 500 + 1 = 500
  · have : (irqs sched + 1) % 500 = 0 := by omega
    rw [if_pos h5, if_pos this, if_pos h5, writes_append]
    rfl
  · have : ¬ (irqs sched + 1) % 500 = 0 := by omega
    rw [if_neg h5, if_neg this]

/-- Witness for C15: from the state armed at `ms_now = 1300`, one interrupt, an
iteration that sees button 0 pressed, one interrupt, an iteration that sees it
released after 1 ms (no arming), and 1248 more interrupts: 1250 invocations,
`blink_accum = 250`, two toggles, `led_out` back at `LED_MASK`. -/
theorem isr_toggles_every_500_witness :
    (exec
      { counter := 0, ms_now := 1300, blink_accum := 0, blinking := 1, led_out := LED_MASK
        btn0_prev := 0, btn1_prev := 0, measuring := 0
        t_start_ms := 100, t_end_ms := 1300, elapsed_ms := 1200, trace := [] }
      ([Step.irq, Step.loop 0x10 1301, Step.irq, Step.loop 0x00 1302] ++
        List.replicate 1248 Step.irq)).blink_accum = 250 ∧
    (exec
      { counter := 0, ms_now := 1300, blink_accum := 0, blinking := 1, led_out := LED_MASK
        btn0_prev := 0, btn1_prev := 0, measuring := 0
        t_start_ms := 100, t_end_ms := 1300, elapsed_ms := 1200, trace := [] }
      ([Step.irq, Step.loop 0x10 1301, Step.irq, Step.loop 0x00 1302] ++
        List.replicate 1248 Step.irq)).led_out = LED_MASK ∧
    (writes (exec
      { counter := 0, ms_now := 1300, blink_accum := 0, blinking := 1, led_out := LED_MASK
        btn0_prev := 0, btn1_prev := 0, measuring := 0
        t_start_ms := 100, t_end_ms := 1300, elapsed_ms := 1200, trace := [] }
      ([Step.irq, Step.loop 0x10 1301, Step.irq, Step.loop 0x00 1302] ++
        List.replicate 1248 Step.irq)).trace).length = 2 := by
  have hi : irqs ([Step.irq, Step.loop 0x10 1301, Step.irq, Step.loop 0x00 1302] ++
      List.replicate 1248 Step.irq) = 1250 := by
    rw [irqs_append, irqs_replicate]
    rfl
  have h := isr_toggles_every_500
    { counter := 0, ms_now := 1300, blink_accum := 0, blinking := 1, led_out := LED_MASK
      btn0_prev := 0, btn1_prev := 0, measuring := 0
      t_start_ms := 100, t_end_ms := 1300, elapsed_ms := 1200, trace := [] }
    rfl rfl
    ([Step.irq, Step.loop 0x10 1301, Step.irq, Step.loop 0x00 1302] ++
      List.replicate 1248 Step.irq)
    ((stays_blinking_append _ _ _).mpr
      ⟨⟨by decide, by decide, by decide, by decide, trivial⟩,
        stays_blinking_irqs 1248 _ (by decide)⟩)
    ((no_rearm_append _ _ _).mpr
      ⟨⟨trivial, fun h => absurd h.1 (by decide), trivial,
          fun h => absurd h.2.2.2 (by decide), trivial⟩,
        no_rearm_irqs 1248 _⟩)
  rw [hi] at h
  exact ⟨h.2.1, h.2.2.1, h.2.2.2.1⟩

end FinalInterrupt

/-- C16, as stated, fails: a qualifying release while the blinking is already
armed restarts it. In `main_final_superloop`, with `blink = 1`, the LEDs off
and `blink_last = 27200000`, the release at tick 29000000 of a press recorded
at tick 18000000 (1100 ms) turns the LEDs on and sets `blink_last = 29000000`.
In `main_inicial_superloop`, with the blinking armed by button 0, the LEDs off
and `blink_last = 29700000`, the release of button 0 committed at tick
29900000 (1470 ms) turns the LEDs on and sets `blink_last = 29900000`. -/
theorem rearm_counterexample :
    (FinalSuperloop.run (FinalSuperloop.main_init 0 0)
      [(200000, 0x10), (12200000, 0), (17200000, 0), (18000000, 0x10), (22200000, 0x10),
       (27200000, 0x10)]).blink = 1 ∧
    (FinalSuperloop.run (FinalSuperloop.main_init 0 0)
      [(200000, 0x10), (12200000, 0), (17200000, 0), (18000000, 0x10), (22200000, 0x10),
       (27200000, 0x10)]).blink_last = 27200000 ∧
    (FinalSuperloop.run (FinalSuperloop.main_init 0 0)
      [(200000, 0x10), (12200000, 0), (17200000, 0), (18000000, 0x10), (22200000, 0x10),
       (27200000, 0x10)]).out_shadow &&& FinalSuperloop.LEDS_ALL = 0 ∧
    (FinalSuperloop.run (FinalSuperloop.main_init 0 0)
      [(200000, 0x10), (12200000, 0), (17200000, 0), (18000000, 0x10), (22200000, 0x10),
       (27200000, 0x10), (29000000, 0)]).blink_last = 29000000 ∧
    (FinalSuperloop.run (FinalSuperloop.main_init 0 0)
      [(200000, 0x10), (12200000, 0), (17200000, 0), (18000000, 0x10), (22200000, 0x10),
       (27200000, 0x10), (29000000, 0)]).out_shadow &&& FinalSuperloop.LEDS_ALL
      = FinalSuperloop.LEDS_ALL ∧
    (InicialSuperloop.run (InicialSuperloop.main_init 0)
      [(0, 0x10), (200000, 0x10), (12000000, 0), (12200000, 0), (14700000, 0),
       (15000000, 0x10), (15200000, 0x10), (17200000, 0x10), (19700000, 0x10),
       (22200000, 0x10), (24700000, 0x10), (27200000, 0x10), (29700000, 0)]).blink_active
      = true ∧
    (InicialSuperloop.run (InicialSuperloop.main_init 0)
      [(0, 0x10), (200000, 0x10), (12000000, 0), (12200000, 0), (14700000, 0),
       (15000000, 0x10), (15200000, 0x10), (17200000, 0x10), (19700000, 0x10),
       (22200000, 0x10), (24700000, 0x10), (27200000, 0x10), (29700000, 0)]).blink_last
      = 29700000 ∧
    (InicialSuperloop.run (InicialSuperloop.main_init 0)
      [(0, 0x10), (200000, 0x10), (12000000, 0), (12200000, 0), (14700000, 0),
       (15000000, 0x10), (15200000, 0x10), (17200000, 0x10), (19700000, 0x10),
       (22200000, 0x10), (24700000, 0x10), (27200000, 0x10), (29700000, 0)]).gpio_out_shadow
      = 0 ∧
    (InicialSuperloop.run (InicialSuperloop.main_init 0)
      [(0, 0x10), (200000, 0x10), (12000000, 0), (12200000, 0), (14700000, 0),
       (15000000, 0x10), (15200000, 0x10), (17200000, 0x10), (19700000, 0x10),
       (22200000, 0x10), (24700000, 0x10), (27200000, 0x10), (29700000, 0),
       (29900000, 0)]).blink_last = 29900000 ∧
    (InicialSuperloop.run (InicialSuperloop.main_init 0)
      [(0, 0x10), (200000, 0x10), (12000000, 0), (12200000, 0), (14700000, 0),
       (15000000, 0x10), (15200000, 0x10), (17200000, 0x10), (19700000, 0x10),
       (22200000, 0x10), (24700000, 0x10), (27200000, 0x10), (29700000, 0),
       (29900000, 0)]).gpio_out_shadow = 0xF0000 := by
  decide

/-- C16 (amended): in `main_final_superloop` and `main_inicial_superloop`, when
a duration with `ms >= 1000` is measured, whether or not the blinking is
already armed, the release handling arms it anew: it sets all LED bits of the
shadow and writes it, and sets `blink_last = now` (and, in
`main_inicial_superloop`, `blink_source = i`), so the blink phase and the
toggle schedule restart. -/
theorem rearm_restarts_blink (now p c : Nat) (fs : FinalSuperloop.State)
    (hedge : p ≠ 0 ∧ c = 0) (hm : fs.b0_measuring ≠ 0)
    (hms : FinalSuperloop.measured_ms now fs.t_press ≥ 1000)
    (tick buttons : Nat) (i : Fin 4) (st : InicialSuperloop.State)
    (hev : InicialSuperloop.btn_event tick ((buttons >>> i.val) &&& 0x1) (st.btn i)
      = some InicialSuperloop.Edge.Released)
    (hw : (st.btn i).waiting_release ≠ 0)
    (hmsI : InicialSuperloop.measured_ms tick (st.btn i).t_press ≥ 1000) :
    ((FinalSuperloop.btn0_falling now p c fs).blink = 1 ∧
     (FinalSuperloop.btn0_falling now p c fs).blink_last = now ∧
     (FinalSuperloop.btn0_falling now p c fs).out_shadow
       = fs.out_shadow ||| FinalSuperloop.LEDS_ALL ∧
     (FinalSuperloop.btn0_falling now p c fs).out_shadow &&& FinalSuperloop.LEDS_ALL
       = FinalSuperloop.LEDS_ALL ∧
     (FinalSuperloop.btn0_falling now p c fs).trace =
       fs.trace ++ [Effect.printf_ms (FinalSuperloop.measured_ms now fs.t_press)] ++
         [Effect.gpio_write (fs.out_shadow ||| FinalSuperloop.LEDS_ALL)]) ∧
    ((InicialSuperloop.button_body tick buttons i st).blink_active = true ∧
     (InicialSuperloop.button_body tick buttons i st).blink_source = i.val ∧
     (InicialSuperloop.button_body tick buttons i st).blink_last = tick ∧
     ((InicialSuperloop.button_body tick buttons i st).gpio_out_shadow >>> 16) &&& 0xF = 0xF ∧
     (InicialSuperloop.button_body tick buttons i st).trace =
       st.trace ++
         [Effect.printf_btn_ms i.val (InicialSuperloop.measured_ms tick (st.btn i).t_press)] ++
         [Effect.gpio_write (InicialSuperloop.button_body tick buttons i st).gpio_out_shadow]) := by
  refine ⟨?_, InicialSuperloop.button_body_release_arm tick buttons i st hev hw hmsI⟩
  rw [FinalSuperloop.btn0_falling_arm now p c fs hedge hm hms]
  exact ⟨rfl, rfl, rfl, FinalSuperloop.lor_leds _, rfl⟩

/-- Witness for C16 (amended): the two states of the counterexample, at the
release. -/
theorem rearm_restarts_blink_witness :
    (FinalSuperloop.btn0_falling 29000000 0x10 0
      (FinalSuperloop.run (FinalSuperloop.main_init 0 0)
        [(200000, 0x10), (12200000, 0), (17200000, 0), (18000000, 0x10), (22200000, 0x10),
         (27200000, 0x10)])).blink_last = 29000000 ∧
    (InicialSuperloop.button_body 29900000 0 0
      (InicialSuperloop.run (InicialSuperloop.main_init 0)
        [(0, 0x10), (200000, 0x10), (12000000, 0), (12200000, 0), (14700000, 0),
         (15000000, 0x10), (15200000, 0x10), (17200000, 0x10), (19700000, 0x10),
         (22200000, 0x10), (24700000, 0x10), (27200000, 0x10), (29700000, 0)])).blink_last
      = 29900000 :=
  have h := rearm_restarts_blink 29000000 0x10 0
    (FinalSuperloop.run (FinalSuperloop.main_init 0 0)
      [(200000, 0x10), (12200000, 0), (17200000, 0), (18000000, 0x10), (22200000, 0x10),
       (27200000, 0x10)])
    (by decide) (by decide) (by decide) 29900000 0 0
    (InicialSuperloop.run (InicialSuperloop.main_init 0)
      [(0, 0x10), (200000, 0x10), (12000000, 0), (12200000, 0), (14700000, 0),
       (15000000, 0x10), (15200000, 0x10), (17200000, 0x10), (19700000, 0x10),
       (22200000, 0x10), (24700000, 0x10), (27200000, 0x10), (29700000, 0)])
    (by decide) (by decide) (by decide)
  ⟨h.1.2.1, h.2.2.2.1⟩

/-- C17, as stated, fails: a press of exactly 1000 ms (press at tick 0,
release at tick 10000000) is reported as 1000 ms and leaves the blink flag at 0
in `main_diff_account_superloop` and in `main_chatgpt_superloop`. -/
theorem exactly_1000_ms_counterexample :
    (DiffAccountSuperloop.run DiffAccountSuperloop.main_init
      [(0, 0x10), (10000000, 0)]).blinking = 0 ∧
    reports (DiffAccountSuperloop.run DiffAccountSuperloop.main_init
      [(0, 0x10), (10000000, 0)]).trace = [1000] ∧
    (ChatgptSuperloop.run ChatgptSuperloop.main_init [(0, 0x10), (10000000, 0)]).blink_en = 0 ∧
    reports (ChatgptSuperloop.run ChatgptSuperloop.main_init
      [(0, 0x10), (10000000, 0)]).trace = [1000] := by
  decide

/-- C17 (amended): in `main_diff_account_superloop` and
`main_chatgpt_superloop` (button 1 not pressed), the iteration that handles the
release at tick `r` of a press recorded at tick `p` reports the duration and
sets the blink flag to 1 if the duration is greater than 1000 ms, and
otherwise leaves the flag as it was; in particular a duration of exactly
1000 ms (`r - p` between 10000000 and 10009999) does not arm the blinking. -/
theorem arming_needs_more_than_1000_ms (p r : Nat)
    (sD : DiffAccountSuperloop.State) (buttons : Nat)
    (hD : buttons &&& PBT_0_MASK = 0 ∧ sD.button0_prev ≠ 0) (hpD : sD.press_ticks = p)
    (sC : ChatgptSuperloop.State) (gpio : Nat)
    (hcur : gpio &&& PBT_0_MASK = 0) (hlast : sC.pbt0_last ≠ 0)
    (hb1 : gpio &&& PBT_1_MASK = 0) (hpC : sC.t_start = p) :
    (DiffAccountSuperloop.main_loop sD r buttons).blinking =
      (if sub64 r p / 10000 > 1000 then 1 else sD.blinking) ∧
    reports (DiffAccountSuperloop.main_loop sD r buttons).trace =
      reports sD.trace ++ [sub64 r p / 10000] ∧
    (ChatgptSuperloop.main_loop sC r gpio).blink_en =
      (if (sub64 r p / 10000) % U32 > 1000 then 1 else sC.blink_en) ∧
    reports (ChatgptSuperloop.main_loop sC r gpio).trace =
      reports sC.trace ++ [(sub64 r p / 10000) % U32] ∧
    (p + 10000000 ≤ r → r ≤ p + 10009999 → r < U64 →
      sub64 r p / 10000 = 1000 ∧
      (DiffAccountSuperloop.main_loop sD r buttons).blinking = sD.blinking ∧
      (ChatgptSuperloop.main_loop sC r gpio).blink_en = sC.blink_en) := by
  obtain ⟨_, d2, d3⟩ := DiffAccountSuperloop.das_release sD r buttons hD
  obtain ⟨c1, c2⟩ := ChatgptSuperloop.cgs_main_loop_release sC r gpio hcur hlast hb1
  rw [hpD] at d2 d3
  rw [hpC] at c1 c2
  have d3r : reports (DiffAccountSuperloop.main_loop sD r buttons).trace =
      reports sD.trace ++ [sub64 r p / 10000] := by
    rw [d3, reports_append]; rfl
  refine ⟨d2, d3r, c1, c2, fun hlo hhi hr => ?_⟩
  have h1000 := exactly_1000_ms p r hlo hhi hr
  refine ⟨h1000, ?_, ?_⟩
  · rw [d2, h1000, if_neg (by decide)]
  · rw [c1]
    show (if ChatgptSuperloop.measured_ms r p > 1000 then 1 else sC.blink_en) = sC.blink_en
    have : ChatgptSuperloop.measured_ms r p = 1000 := by
      show (sub64 r p / 10000) % U32 = 1000
      rw [h1000]; decide
    rw [this, if_neg (by decide)]

/-- Witness for C17 (amended): press at tick 0 and release at tick 10009999 in
both programs. -/
theorem arming_needs_more_than_1000_ms_witness :
    (DiffAccountSuperloop.main_loop
      (DiffAccountSuperloop.main_loop DiffAccountSuperloop.main_init 0 0x10)
      10009999 0).blinking = 0 ∧
    (ChatgptSuperloop.main_loop
      (ChatgptSuperloop.main_loop ChatgptSuperloop.main_init 0 0x10) 10009999 0).blink_en = 0 :=
  have h := (arming_needs_more_than_1000_ms 0 10009999
    (DiffAccountSuperloop.main_loop DiffAccountSuperloop.main_init 0 0x10) 0
    (by decide) (by decide)
    (ChatgptSuperloop.main_loop ChatgptSuperloop.main_init 0 0x10) 0
    (by decide) (by decide) (by decide) (by decide)).2.2.2.2
    (by decide) (by decide) (by decide)
  ⟨h.2.1, h.2.2⟩

namespace InicialSuperloop

/-- C18, as stated, fails: with the blinking armed at tick 12200000 by a
1200 ms press, the iteration sampled at tick 14700000, which is 2500000 ticks
(250 ms) later and less than 5000000, turns the LEDs off and sets
`blink_last = 14700000`. -/
theorem blink_period_counterexample :
    (run (main_init 0)
      [(0, 0x10), (200000, 0x10), (12000000, 0), (12200000, 0)]).blink_active = true ∧
    (run (main_init 0)
      [(0, 0x10), (200000, 0x10), (12000000, 0), (12200000, 0)]).blink_last = 12200000 ∧
    (run (main_init 0)
      [(0, 0x10), (200000, 0x10), (12000000, 0), (12200000, 0)]).gpio_out_shadow = 0xF0000 ∧
    14700000 - 12200000 < 5000000 ∧
    (run (main_init 0)
      [(0, 0x10), (200000, 0x10), (12000000, 0), (12200000, 0),
       (14700000, 0)]).gpio_out_shadow = 0 ∧
    (run (main_init 0)
      [(0, 0x10), (200000, 0x10), (12000000, 0), (12200000, 0),
       (14700000, 0)]).blink_last = 14700000 := by
  decide

/-- C18 (amended): in `main_inicial_superloop`, while the blinking is armed
the blink block toggles the LED field (all-on to all-off, all-off to all-on),
writes the shadow and sets `blink_last = now` when
`now - blink_last >= BLINK_PERIOD_TICKS`, which is 2500000 ticks (250 ms at
10000 ticks per ms), and does nothing otherwise; so after a 1200 ms press the
LEDs alternate every 250 ms. -/
theorem blink_period_is_250_ms (now : Nat) (s : State) (hact : s.blink_active = true) :
    BLINK_PERIOD_TICKS = 2500000 ∧
    (sub64 now s.blink_last ≥ 2500000 →
      (blink_toggle now s).blink_last = now ∧
      (blink_toggle now s).blink_active = true ∧
      (blink_toggle now s).trace =
        s.trace ++ [Effect.gpio_write (blink_toggle now s).gpio_out_shadow] ∧
      ((s.gpio_out_shadow >>> 16) &&& 0xF = 0xF →
        ((blink_toggle now s).gpio_out_shadow >>> 16) &&& 0xF = 0) ∧
      ((s.gpio_out_shadow >>> 16) &&& 0xF = 0 →
        ((blink_toggle now s).gpio_out_shadow >>> 16) &&& 0xF = 0xF)) ∧
    (sub64 now s.blink_last < 2500000 → blink_toggle now s = s) := by
  obtain ⟨h1, h2⟩ := blink_toggle_armed now s hact
  refine ⟨BLINK_PERIOD_TICKS_eq, fun hdue => ?_, h2⟩
  rw [h1 hdue]
  obtain ⟨_, t2, t3, t4⟩ := leds_toggle_all_shadow { s with blink_last := now }
  obtain ⟨f1, f2⟩ := leds_toggle_all_field { s with blink_last := now }
  exact ⟨t3, t4.trans hact, t2, f1, f2⟩

/-- Witness for C18 (amended): the state armed at tick 12200000, sampled at
tick 14700000. -/
theorem blink_period_is_250_ms_witness :
    (blink_toggle 14700000 (run (main_init 0)
      [(0, 0x10), (200000, 0x10), (12000000, 0), (12200000, 0)])).blink_last = 14700000 ∧
    ((blink_toggle 14700000 (run (main_init 0)
      [(0, 0x10), (200000, 0x10), (12000000, 0), (12200000, 0)])).gpio_out_shadow >>> 16)
      &&& 0xF = 0 :=
  have h := (blink_period_is_250_ms 14700000 (run (main_init 0)
    [(0, 0x10), (200000, 0x10), (12000000, 0), (12200000, 0)]) (by decide)).2.1 (by decide)
  ⟨h.1, h.2.2.2.1 (by decide)⟩

/-- C19: in `main_inicial_superloop`, while `blink_active` is true, the body of
the `for` loop that commits a `Pressed` event of button `i` ends with
`blink_active` false if and only if `i != blink_source`; in that case the LED
field of `gpio_out_shadow` is 0 and that shadow value is the one value
written; when `i = blink_source`, `blink_active` stays true, `gpio_out_shadow`
is unchanged and nothing is written. -/
theorem pressed_cancels_unless_source (now buttons : Nat) (i : Fin 4) (s : State)
    (hact : s.blink_active = true)
    (hev : btn_event now ((buttons >>> i.val) &&& 0x1) (s.btn i) = some Edge.Pressed) :
    ((button_body now buttons i s).blink_active = false ↔ i.val ≠ s.blink_source) ∧
    (i.val ≠ s.blink_source →
      ((button_body now buttons i s).gpio_out_shadow >>> 16) &&& 0xF = 0 ∧
      (button_body now buttons i s).trace =
        s.trace ++ [Effect.gpio_write (button_body now buttons i s).gpio_out_shadow]) ∧
    (i.val = s.blink_source →
      (button_body now buttons i s).blink_active = true ∧
      (button_body now buttons i s).gpio_out_shadow = s.gpio_out_shadow ∧
      (button_body now buttons i s).trace = s.trace) := by
  rw [button_body_pressed now buttons i s hev]
  by_cases hsrc : i.val ≠ s.blink_source
  · rw [if_pos ⟨hact, hsrc⟩]
    refine ⟨⟨fun _ => hsrc, fun _ => rfl⟩, fun _ => ⟨?_, rfl⟩, fun h => absurd h hsrc⟩
    exact leds_field_of_pattern 0 _ (by decide)
  · rw [if_neg (fun h => hsrc h.2)]
    refine ⟨⟨fun h => ?_, fun h => absurd h hsrc⟩, fun h => absurd h hsrc,
      fun _ => ⟨hact, rfl, rfl⟩⟩
    have h2 : s.blink_active = false := h
    rw [hact] at h2
    exact absurd h2 (by decide)

/-- Witness for C19: blinking armed by button 0; button 1 goes high at tick
13000000 and its press is committed at tick 13200000. -/
theorem pressed_cancels_unless_source_witness :
    (button_body 13200000 (read_buttons 0x20) 1
      (run (main_init 0)
        [(0, 0x10), (200000, 0x10), (12000000, 0), (12200000, 0), (13000000, 0x20)])).blink_active
      = false ∧
    ((button_body 13200000 (read_buttons 0x20) 1
      (run (main_init 0)
        [(0, 0x10), (200000, 0x10), (12000000, 0), (12200000, 0),
         (13000000, 0x20)])).gpio_out_shadow >>> 16) &&& 0xF = 0 :=
  have h := pressed_cancels_unless_source 13200000 (read_buttons 0x20) 1
    (run (main_init 0)
      [(0, 0x10), (200000, 0x10), (12000000, 0), (12200000, 0), (13000000, 0x20)])
    (by decide) (by decide)
  ⟨h.1.mpr (by decide), (h.2.1 (by decide)).1⟩

end InicialSuperloop

namespace ChatgptInterrupt

/-- C20 fails on the code: button 0 pressed with `ms_ticks = 0` and released
with `ms_ticks = 1200` arms the blinking (`blinking = 1`, `leds_on = 1`,
`blink_timer = 1200`) without any call of `gpio_write`; the next call, 500 ms
later, writes 0, and the all-on pattern `0x000F0000` is first written 1000 ms
after the arming. -/
theorem arming_writes_nothing :
    (run main_init [(0, 0x10), (1200, 0)]).blinking = 1 ∧
    (run main_init [(0, 0x10), (1200, 0)]).leds_on = 1 ∧
    (run main_init [(0, 0x10), (1200, 0)]).blink_timer = 1200 ∧
    (run main_init [(0, 0x10), (1200, 0)]).trace =
      [Effect.gpio_set_direction 0x000F0000, Effect.printf_ms 1200] ∧
    writes (run main_init [(0, 0x10), (1200, 0), (1699, 0)]).trace = [] ∧
    writes (run main_init [(0, 0x10), (1200, 0), (1699, 0), (1700, 0)]).trace = [0] ∧
    writes (run main_init [(0, 0x10), (1200, 0), (1699, 0), (1700, 0), (2200, 0)]).trace
      = [0, 0x000F0000] := by
  decide

end ChatgptInterrupt

namespace DiffAccountInterrupt

/-- C21: in `main_diff_account_interrupt`, for every 64-bit start value `c` of
`counter_ms` and all `m ≤ n`, after `n` invocations of `timer_handler` the
counter is `c - n` if `n ≤ c` and 0 otherwise, it is still a 64-bit value, and
it is at most the value after `m` invocations (a read that follows `n` complete
invocations never sees more than a read that follows `m` of them); while
`n ≤ c`, the elapsed time computed at lines 96-102 from a `start_cnt` read
after `m` invocations and an `end_cnt` read after `n` invocations is `n - m`,
and the release iteration reports `(n - m) mod 2^32`. -/
theorem timer_handler_saturating (c m n : Nat) (hc : c < U64) (hmn : m ≤ n) :
    Nat.iterate timer_handler n c = (if n ≤ c then c - n else 0) ∧
    Nat.iterate timer_handler n c < U64 ∧
    Nat.iterate timer_handler n c ≤ Nat.iterate timer_handler m c ∧
    (n ≤ c →
      elapsed_ms (Nat.iterate timer_handler m c) (Nat.iterate timer_handler n c) = n - m ∧
      ∀ (s : State) (cur_gpio : Nat) (rd : CounterReads),
        s.prev_btn0 ≠ 0 → cur_gpio &&& PBT_0_MASK = 0 → s.measuring ≠ 0 →
        s.start_cnt = Nat.iterate timer_handler m c →
        rd.at_release = Nat.iterate timer_handler n c →
        reports (main_loop s cur_gpio rd).trace = reports s.trace ++ [(n - m) % U32]) := by
  have hel : n ≤ c →
      elapsed_ms (Nat.iterate timer_handler m c) (Nat.iterate timer_handler n c) = n - m := by
    intro hn
    rw [da_timer_iterate, da_timer_iterate, elapsed_ms_eq _ _ (by omega)]
    split_ifs with h
    · omega
    · omega
  refine ⟨?_, ?_, ?_, fun hn => ⟨hel hn, ?_⟩⟩
  · rw [da_timer_iterate]
    split_ifs with h
    · rfl
    · omega
  · rw [da_timer_iterate]; omega
  · rw [da_timer_iterate, da_timer_iterate]; omega
  · intro s cur_gpio rd hprev hpin hmeas hstart hend
    rw [(da_release s cur_gpio rd hprev hpin hmeas).2.2, hstart, hend, hel hn]

/-- Witness for C21: from the start value `2^64 - 1`, a press read after 5
interrupts and a release read after 1205 interrupts give 1200 ms, which the
release iteration reports. -/
theorem timer_handler_saturating_witness :
    Nat.iterate timer_handler 1205 0xFFFFFFFFFFFFFFFF = 0xFFFFFFFFFFFFFFFF - 1205 ∧
    elapsed_ms (Nat.iterate timer_handler 5 0xFFFFFFFFFFFFFFFF)
      (Nat.iterate timer_handler 1205 0xFFFFFFFFFFFFFFFF) = 1200 ∧
    reports (main_loop
      { start_cnt := 0xFFFFFFFFFFFFFFFA, end_cnt := 0, measuring := 1, leds_on := 0,
        blinking := 0, led_output := 0, prev_gpio := 0x10, prev_btn0 := 1, prev_btn1 := 0,
        last_blink_toggle_cnt := 0, trace := [] }
      0 (CounterReads.all 0xFFFFFFFFFFFFFB4A)).trace = [1200] :=
  have h := timer_handler_saturating 0xFFFFFFFFFFFFFFFF 5 1205 (by decide) (by decide)
  ⟨h.1, (h.2.2.2 (by decide)).1,
    (h.2.2.2 (by decide)).2 _ 0 (CounterReads.all 0xFFFFFFFFFFFFFB4A)
      (by decide) (by decide) (by decide) (by decide)
      (da_timer_iterate 0xFFFFFFFFFFFFFFFF 1205).symm⟩

end DiffAccountInterrupt

namespace InicialSuperloop

/-- C22: in `main_inicial_superloop`, for every start value of the port, every
sample sequence `pre` and every button `i`, the state after `pre` has
`btn[i].waiting_release = btn[i].stable ≤ 1`. If the next iteration takes the
release branch for button `i`, then `waiting_release` is 1, a `Pressed` event
of button `i` occurred during `pre`, and the body of the `for` loop reports the
duration measured from `t_press`, whatever the bodies of the other buttons
(which leave `btn[i]` alone) did before. A button that is high from the first
sample `(t0, p0)` on gives no event while fewer than `DEBOUNCE_TICKS` ticks
have passed since `t0`, and `Pressed` as its first event at the first sample
for which `DEBOUNCE_TICKS` ticks have passed. -/
theorem waiting_release_eq_stable (r0 : Nat) (i : Fin 4) (pre : List (Nat × Nat))
    (now port : Nat) (t0 p0 : Nat) (mid : List (Nat × Nat)) (t1 p1 : Nat) :
    ((run (main_init r0) pre).btn i).waiting_release = ((run (main_init r0) pre).btn i).stable ∧
    ((run (main_init r0) pre).btn i).stable ≤ 1 ∧
    (btn_event now (raw_level i port) ((run (main_init r0) pre).btn i) = some Edge.Released →
      ((run (main_init r0) pre).btn i).waiting_release = 1 ∧
      Edge.Pressed ∈ events i (main_init r0) pre ∧
      ∀ s : State, s.btn i = (run (main_init r0) pre).btn i →
        reports (button_body now (read_buttons port) i s).trace =
          reports s.trace ++ [measured_ms now ((run (main_init r0) pre).btn i).t_press]) ∧
    (∀ (j : Fin 4) (s : State), j ≠ i →
      (button_body now (read_buttons port) j s).btn i = s.btn i) ∧
    (raw_level i p0 = 1 →
      (∀ z ∈ mid, raw_level i z.2 = 1 ∧ sub64 z.1 t0 < DEBOUNCE_TICKS) →
      raw_level i p1 = 1 → sub64 t1 t0 ≥ DEBOUNCE_TICKS →
      events i (main_init r0) ((t0, p0) :: mid) = [] ∧
      events i (main_init r0) (((t0, p0) :: mid) ++ [(t1, p1)]) = [Edge.Pressed]) := by
  obtain ⟨w1, w2⟩ := waiting_inv_run r0 i pre
  refine ⟨w1, w2, ?_, fun j s hj => button_body_btn_other now _ i j s hj, ?_⟩
  · intro hev
    obtain ⟨a1, a2, _, a4, _⟩ :=
      (btn_event_spec now (raw_level i port) ((run (main_init r0) pre).btn i)).2.2 hev
    have hst : ((run (main_init r0) pre).btn i).stable ≠ 0 := by
      intro h0
      exact a2 (a1.trans h0.symm)
    have hone : ((run (main_init r0) pre).btn i).stable = 1 := by omega
    refine ⟨w1.trans hone, pressed_of_stable r0 i pre hst, ?_⟩
    intro s hs
    have hrel : ((button_body now (read_buttons port) i s).btn i).stable = 0 := by
      rw [button_body_btn_self, hs]
      exact a4.trans a1
    have h := button_body_release now (read_buttons port) i s (by rw [hs]; exact hst)
      (by rw [hs, w1]; exact hst) hrel
    rw [hs] at h
    exact h
  · intro h0 hmid hp hnow
    exact ⟨(held_pending r0 i t0 p0 mid h0 hmid).2.2.2,
      held_commits r0 i t0 p0 mid t1 p1 h0 hmid hp hnow⟩

/-- Witness for C22: button 0 pressed from tick 0, committed at tick 200000,
low from tick 12000000: the iteration at tick 12200000 takes the release
branch with `waiting_release = 1` and reports 1200 ms. Button 0 high from the
first sample on gives `Pressed` at tick 200000 and nothing before. -/
theorem waiting_release_eq_stable_witness :
    ((run (main_init 0) [(0, 0x10), (200000, 0x10), (12000000, 0)]).btn 0).waiting_release = 1 ∧
    Edge.Pressed ∈ events 0 (main_init 0) [(0, 0x10), (200000, 0x10), (12000000, 0)] ∧
    reports (button_body 12200000 (read_buttons 0) 0
        (run (main_init 0) [(0, 0x10), (200000, 0x10), (12000000, 0)])).trace = [1200] ∧
    events 0 (main_init 0) [(0, 0x10), (100000, 0x10)] = [] ∧
    events 0 (main_init 0) [(0, 0x10), (100000, 0x10), (200000, 0x10)] = [Edge.Pressed] :=
  have h := waiting_release_eq_stable 0 0 [(0, 0x10), (200000, 0x10), (12000000, 0)]
    12200000 0 0 0x10 [(100000, 0x10)] 200000 0x10
  have hr := h.2.2.1 (by decide)
  have hh := h.2.2.2.2 (by decide) (by decide) (by decide) (by decide)
  ⟨hr.1, hr.2.1, hr.2.2 _ rfl, hh.1, hh.2⟩

/-- C23: in `main_inicial_superloop`, for every start value of the port and
every sample sequence, at the iteration boundary the LED field (bits 16 to 19)
of `gpio_out_shadow` is 0x0 or 0xF, and it is 0x0 when `blink_active` is
false; the body of the `for` loop and the periodic blink each keep this, so it
holds between them too. For every 32-bit shadow value, `leds_toggle_all`
applied twice restores `gpio_out_shadow`, one application maps the field 0x0
to 0xF and 0xF to 0x0, and it keeps every bit outside the field. -/
theorem led_field_all_or_none (r0 : Nat) (pre : List (Nat × Nat)) (s : State)
    (hs : s.gpio_out_shadow < U32) :
    (((run (main_init r0) pre).gpio_out_shadow >>> 16) &&& 0xF = 0 ∨
      ((run (main_init r0) pre).gpio_out_shadow >>> 16) &&& 0xF = 0xF) ∧
    ((run (main_init r0) pre).blink_active = false →
      ((run (main_init r0) pre).gpio_out_shadow >>> 16) &&& 0xF = 0) ∧
    (∀ (now buttons : Nat) (i : Fin 4) (st : State),
      LedFieldInv st → LedFieldInv (button_body now buttons i st)) ∧
    (∀ (now : Nat) (st : State), LedFieldInv st → LedFieldInv (blink_toggle now st)) ∧
    (leds_toggle_all (leds_toggle_all s)).gpio_out_shadow = s.gpio_out_shadow ∧
    ((s.gpio_out_shadow >>> 16) &&& 0xF = 0 →
      ((leds_toggle_all s).gpio_out_shadow >>> 16) &&& 0xF = 0xF) ∧
    ((s.gpio_out_shadow >>> 16) &&& 0xF = 0xF →
      ((leds_toggle_all s).gpio_out_shadow >>> 16) &&& 0xF = 0) ∧
    (∀ i : Nat, outside_leds i →
      (leds_toggle_all s).gpio_out_shadow.testBit i = s.gpio_out_shadow.testBit i) := by
  obtain ⟨h1, h2⟩ := led_inv_run r0 pre
  refine ⟨h1, h2, led_inv_button_body, led_inv_blink_toggle,
    leds_toggle_all_involution s hs, (leds_toggle_all_field s).2, (leds_toggle_all_field s).1, ?_⟩
  intro i hi
  rw [leds_toggle_all_testBit s hs, if_neg]
  intro h
  unfold outside_leds at hi
  omega

/-- Witness for C23: the shadow 0x000F0001 (all LEDs on, bit 0 set) is restored
by two toggles, and one toggle turns the field off. -/
theorem led_field_all_or_none_witness :
    (leds_toggle_all (leds_toggle_all
      { gpio_out_shadow := 0xF0001, btn := fun _ =>
          { stable := 0, last_raw := 0, last_change := 0, waiting_release := 0, t_press := 0 }
        blink_active := true, blink_source := 0, blink_last := 0,
        trace := [] })).gpio_out_shadow = 0xF0001 ∧
    ((leds_toggle_all
      { gpio_out_shadow := 0xF0001, btn := fun _ =>
          { stable := 0, last_raw := 0, last_change := 0, waiting_release := 0, t_press := 0 }
        blink_active := true, blink_source := 0, blink_last := 0,
        trace := [] }).gpio_out_shadow >>> 16) &&& 0xF = 0 ∧
    ((run (main_init 0x50001) [(0, 0x10), (200000, 0x10), (12000000, 0),
      (12200000, 0)]).gpio_out_shadow >>> 16) &&& 0xF = 0xF :=
  have h := led_field_all_or_none 0x50001
    [(0, 0x10), (200000, 0x10), (12000000, 0), (12200000, 0)]
    { gpio_out_shadow := 0xF0001, btn := fun _ =>
        { stable := 0, last_raw := 0, last_change := 0, waiting_release := 0, t_press := 0 }
      blink_active := true, blink_source := 0, blink_last := 0, trace := [] } (by decide)
  ⟨h.2.2.2.2.1, h.2.2.2.2.2.2.1 (by decide), by decide⟩

end InicialSuperloop

namespace DiffAccountInterrupt

/-- C24: in `main_diff_account_interrupt`, at every loop-iteration boundary of
every execution, `leds_on = blinking` and, when `blinking = 0`, the LED bits of
`led_output` are 0. The same holds after the handling of the two buttons,
whatever edges it saw, so that when the blink handling starts with
`blinking = 0` it finds `leds_on = 0` (the branch of lines 165-170 is not
taken) and LED bits 0 (the branch of lines 173-176 is not taken): it leaves
every variable unchanged and writes nothing to the port. -/
theorem leds_on_eq_blinking (s : State) (hs : Reachable s) (c : CounterReads)
    (p0 c0 p1 c1 : Nat) :
    s.leds_on = s.blinking ∧
    (s.blinking = 0 → s.led_output &&& LED_MASK = 0) ∧
    (btn1_logic p1 c1 (btn0_logic p0 c0 c s)).leds_on =
      (btn1_logic p1 c1 (btn0_logic p0 c0 c s)).blinking ∧
    ((btn1_logic p1 c1 (btn0_logic p0 c0 c s)).blinking = 0 →
      (btn1_logic p1 c1 (btn0_logic p0 c0 c s)).leds_on = 0 ∧
      (btn1_logic p1 c1 (btn0_logic p0 c0 c s)).led_output &&& LED_MASK = 0 ∧
      blink_logic c (btn1_logic p1 c1 (btn0_logic p0 c0 c s)) =
        btn1_logic p1 c1 (btn0_logic p0 c0 c s)) := by
  have h := leds_inv_of_reachable s hs
  have h2 := leds_inv_btn1_logic p1 c1 _ (leds_inv_btn0_logic p0 c0 c s h)
  refine ⟨h.1, h.2.2, h2.1, fun hb => ⟨h2.1.trans hb, h2.2.2 hb, ?_⟩⟩
  exact blink_logic_not_blinking c _ h2 hb

/-- Witness for C24: a press of 2000 ms arms the blinking (`leds_on = 1`,
`blinking = 1`); in the next iteration a rising edge of button 1 cancels it,
and the blink handling of that iteration leaves the state as it is. -/
theorem leds_on_eq_blinking_witness :
    (main_loop (main_loop (main_init 0) 0x10 (CounterReads.all 5000)) 0
      (CounterReads.all 3000)).leds_on = 1 ∧
    (main_loop (main_loop (main_init 0) 0x10 (CounterReads.all 5000)) 0
      (CounterReads.all 3000)).blinking = 1 ∧
    (btn1_logic 0 1 (btn0_logic 0 0 (CounterReads.all 2990)
      (main_loop (main_loop (main_init 0) 0x10 (CounterReads.all 5000)) 0
        (CounterReads.all 3000)))).leds_on = 0 ∧
    blink_logic (CounterReads.all 2990) (btn1_logic 0 1 (btn0_logic 0 0 (CounterReads.all 2990)
      (main_loop (main_loop (main_init 0) 0x10 (CounterReads.all 5000)) 0
        (CounterReads.all 3000)))) =
      btn1_logic 0 1 (btn0_logic 0 0 (CounterReads.all 2990)
        (main_loop (main_loop (main_init 0) 0x10 (CounterReads.all 5000)) 0
          (CounterReads.all 3000))) :=
  have h := leds_on_eq_blinking
    (main_loop (main_loop (main_init 0) 0x10 (CounterReads.all 5000)) 0 (CounterReads.all 3000))
    (Reachable.step _ 0 (CounterReads.all 3000)
      (Reachable.step _ 0x10 (CounterReads.all 5000) (Reachable.init 0 (by decide)) (by decide))
      (by decide))
    (CounterReads.all 2990) 0 0 0 1
  ⟨by decide, by decide, (h.2.2.2 (by decide)).1, (h.2.2.2 (by decide)).2.2⟩

end DiffAccountInterrupt

namespace InicialSuperloop

/-- C25: for every port value, `read_buttons(port)` (with `BUTTON_ACTIVE_HIGH`
defined as 1) is below 16, its bit `i` for `i < 4` is bit `4 + i` of `port`,
so that the raw level of button `i` is 1 exactly when that bit is set, and two
port values that agree on bits 4 to 7 give the same result. -/
theorem read_buttons_bits (port other : Nat) :
    read_buttons port < 16 ∧
    (∀ i : Nat, i < 4 → (read_buttons port).testBit i = port.testBit (4 + i)) ∧
    (∀ i : Fin 4, raw_level i port = if port.testBit (4 + i.val) then 1 else 0) ∧
    ((∀ i : Nat, i < 4 → other.testBit (4 + i) = port.testBit (4 + i)) →
      read_buttons other = read_buttons port) := by
  refine ⟨?_, ?_, ?_, ?_⟩
  · rw [read_buttons_eq]
    have h : (port >>> 4) &&& 0xF ≤ 0xF := Nat.and_le_right
    omega
  · intro i hi
    rw [read_buttons_testBit, decide_eq_true hi, Bool.and_true]
  · intro i
    have hb := read_buttons_testBit port i.val
    rw [decide_eq_true i.isLt, Bool.and_true] at hb
    show (read_buttons port >>> i.val) &&& 0x1 = _
    rw [← hb, Nat.testBit_to_div_mod, Nat.and_one_is_mod, Nat.shiftRight_eq_div_pow]
    rcases Nat.mod_two_eq_zero_or_one (read_buttons port / 2 ^ i.val) with h | h
    · simp [h]
    · simp [h]
  · intro h
    apply Nat.eq_of_testBit_eq
    intro j
    rw [read_buttons_testBit, read_buttons_testBit]
    by_cases hj : j < 4
    · rw [h j hj]
    · rw [decide_eq_false hj, Bool.and_false, Bool.and_false]

/-- Witness for C25: the port word 0xABCD1234 has bits 4 and 5 set and bits 6
and 7 clear, so `read_buttons` gives 3, the same as for 0x00000030, and the raw
level of button 1 is 1. -/
theorem read_buttons_bits_witness :
    read_buttons 0xABCD1234 = 3 ∧
    read_buttons 0x30 = read_buttons 0xABCD1234 ∧
    raw_level 1 0xABCD1234 = 1 :=
  have h := read_buttons_bits 0xABCD1234 0x30
  ⟨by decide, h.2.2.2 (by decide), h.2.2.1 1⟩

end InicialSuperloop

end PDI
